import Mathlib

/-! Authenticated API client of the NASA finance front end.

A shallow embedding of the credential handling in `src/NASA/home.js`,
`src/Web3/pages/home.js` and `src/NASA/login.js`: `checkAuth`, `refreshToken`,
`fetchWithAuth`, `handleLogout` and the login form's submit handler.

* `localStorage` is an association list of string pairs.
* The browser functions the scripts call but do not define (`atob`, `JSON.parse`,
  string-to-number conversion, `Date.now()`, `window.location`, the network) are
  fields of `Env`; every general theorem quantifies over all of them.
* An `async` function becomes a function from the `World` before the call to its
  completion and the `World` after it.  A `World` is the storage, the number of
  `fetch` calls issued so far and the trace of observable effects.
* The `k`-th `fetch` of a run completes as `Env.net k` says, so one `Env` is one
  run of the servers: any sequence of replies and transport failures.
* `console.error` output and the enabling/disabling of buttons are not modelled.
-/

namespace Nasa

/-! ## JavaScript values -/

/-- The values `JSON.parse` and `response.json()` produce, with `undefined` for absent
properties.  Numbers are integers (the `exp` claim is in epoch seconds). -/
inductive JSValue where
  | undefined
  | null
  | bool (b : Bool)
  | num (n : Int)
  | str (s : String)
  | arr (items : List JSValue)
  | obj (fields : List (String × JSValue))

/-- A thrown error object: its `name` and its `message`. -/
structure JSError where
  name : String
  message : String
deriving DecidableEq, Repr

/-- Decimal digit `d` (for `d < 10`) as a character. -/
def digitChar (d : Nat) : Char := Char.ofNat (48 + d)

/-- Decimal digits of `n`, most significant first, pushed in front of `acc`;
`fuel` bounds the number of digits. -/
def natDigits : Nat → Nat → List Char → List Char
  | 0, _, acc => acc
  | fuel + 1, n, acc =>
    if n < 10 then digitChar n :: acc
    else natDigits fuel (n / 10) (digitChar (n % 10) :: acc)

/-- Number to string, as `String(n)` does for an integer. -/
def intToString (n : Int) : String :=
  match n with
  | Int.ofNat m => String.mk (natDigits (m + 1) m [])
  | Int.negSucc m => String.mk ('-' :: natDigits (m + 2) (m + 1) [])

namespace JSValue

mutual
/-- String conversion `String(v)`, as template literals, `new Error(v)` and
`localStorage.setItem(k, v)` apply it.  A plain object gives `[object Object]`, an
array joins its items with commas. -/
def toStr : JSValue → String
  | undefined => "undefined"
  | null => "null"
  | bool b => if b then "true" else "false"
  | num n => intToString n
  | str s => s
  | arr items => joinItems items
  | obj _ => "[object Object]"
termination_by structural v => v
/-- The items of an array joined by `,`; `null` and `undefined` items are empty. -/
def joinItems : List JSValue → String
  | [] => ""
  | x :: xs =>
    (match x with
      | undefined => ""
      | null => ""
      | v => toStr v)
      ++ (match xs with
        | [] => ""
        | _ => ",")
      ++ joinItems xs
termination_by structural l => l
end

/-- Truthiness, as `!v`, `v && ...` and `v || ...` test it. -/
def truthy : JSValue → Bool
  | undefined => false
  | null => false
  | bool b => b
  | num n => n != 0
  | str s => s != ""
  | arr _ => true
  | obj _ => true

/-- Property read `v.key`.  Reading a property of `null` or `undefined` throws a
`TypeError`; an object gives the entry for `key`, or `undefined`; none of the keys the
scripts read is a built-in property of a primitive or an array. -/
def getProp (v : JSValue) (key : String) : Except JSError JSValue :=
  match v with
  | undefined => .error ⟨"TypeError", "Cannot read properties of undefined"⟩
  | null => .error ⟨"TypeError", "Cannot read properties of null"⟩
  | obj fields => .ok ((fields.lookup key).getD undefined)
  | _ => .ok undefined

end JSValue

/-! ## localStorage -/

/-- The key-value store behind `localStorage`. -/
abbrev Storage := List (String × String)

/-- `localStorage.getItem(key)`; `none` is JavaScript's `null`. -/
def getItem (st : Storage) (key : String) : Option String :=
  st.lookup key

/-- `localStorage.removeItem(key)`. -/
def removeItem (key : String) (st : Storage) : Storage :=
  st.filter (fun kv => kv.1 != key)

/-- `localStorage.setItem(key, value)` for a value already converted to a string. -/
def setItem (key value : String) (st : Storage) : Storage :=
  (key, value) :: removeItem key st

/-! ## Requests, responses and the network -/

/-- A JavaScript number as far as tests and comparisons see it: `NaN`, one of the infinities,
or a finite value, kept as an exact rational.  Rounding and the sign of zero are not
modelled. -/
inductive JSNumber where
  | nan
  | negInf
  | fin (q : ℚ)
  | posInf
deriving DecidableEq

namespace JSNumber

/-- The test `isNaN(x)`. -/
def isNaN : JSNumber → Bool
  | nan => true
  | _ => false

/-- The comparison `x < c` against a finite `c`; false for `NaN`. -/
def lt (x : JSNumber) (c : ℚ) : Bool :=
  match x with
  | nan => false
  | negInf => true
  | fin q => decide (q < c)
  | posInf => false

/-- The comparison `x <= c` against a finite `c`; false for `NaN`. -/
def le (x : JSNumber) (c : ℚ) : Bool :=
  match x with
  | nan => false
  | negInf => true
  | fin q => decide (q ≤ c)
  | posInf => false

/-- The comparison `x >= c` against a finite `c`; false for `NaN`. -/
def ge (x : JSNumber) (c : ℚ) : Bool :=
  match x with
  | nan => false
  | negInf => false
  | fin q => decide (c ≤ q)
  | posInf => true

/-- The comparison `x > c` against a finite `c`; false for `NaN`. -/
def gt (x : JSNumber) (c : ℚ) : Bool :=
  match x with
  | nan => false
  | negInf => false
  | fin q => decide (c < q)
  | posInf => true

/-- Truthiness of a number: `NaN` and zero are falsy. -/
def truthy : JSNumber → Bool
  | nan => false
  | negInf => true
  | fin q => q != 0
  | posInf => true

end JSNumber

/-- An entry of the JSON text that `JSON.stringify` writes for an object literal: a value, or
a number computed by the page. -/
inductive BodyField where
  | value (v : JSValue)
  | number (x : JSNumber)

/-- What `JSON.stringify` writes for a computed number inside an object: the number when it is
finite, and `null` for `NaN` and for the infinities. -/
def stringifyNumber (x : JSNumber) : BodyField :=
  match x with
  | .fin q => .number (.fin q)
  | _ => .value .null

/-- A request body: literal text, the value handed to `JSON.stringify`, the entries that
`JSON.stringify` writes for an object literal with computed numbers, or the fields of a
`URLSearchParams`. -/
inductive Body where
  | text (s : String)
  | json (v : JSValue)
  | record (fields : List (String × BodyField))
  | form (fields : List (String × String))

/-- Header lists, in the order of the object literal. -/
abbrev Headers := List (String × String)

/-- What `fetch(url, init)` is called with. -/
structure Request where
  url : String
  method : Option String
  headers : Headers
  body : Option Body
  mode : Option String
  credentials : Option String

/-- The caller-supplied `options` of `fetchWithAuth`. -/
structure Options where
  method : Option String
  headers : Option Headers
  body : Option Body
  mode : Option String
  credentials : Option String

/-- A completed HTTP exchange: the status and what `response.json()` settles to. -/
structure Response where
  status : Nat
  json : Except JSError JSValue

/-- `response.ok`: the status is in the range 200-299. -/
def Response.ok (r : Response) : Bool :=
  decide (200 ≤ r.status) && decide (r.status ≤ 299)

/-- How one `fetch` call settles. -/
inductive FetchOutcome where
  | rejects (e : JSError)
  | responds (r : Response)

/-- Observable effects, in the order they happen. -/
inductive Event where
  | fetch (req : Request)
  | wait (ms : Nat)
  | redirect (url : String)
  | alert (msg : String)
  | display (element : String) (text : String)
  | timer (ms : Nat) (action : String)
  | wsClose (code : Nat) (reason : String)

/-- The browser and the servers around one run. -/
structure Env where
  /-- `atob`; `none` when it throws. -/
  atob : String → Option String
  /-- `JSON.parse`; `none` when it throws. -/
  jsonParse : String → Option JSValue
  /-- Conversion of a string to a number; `none` is `NaN`. -/
  stringToNumber : String → Option Int
  /-- `Date.now()`, in milliseconds. -/
  dateNow : Int
  /-- `window.location.hostname`. -/
  hostname : String
  /-- `window.location.pathname`. -/
  pathname : String
  /-- Whether the page-level `ws` holds a socket. -/
  ws : Bool
  /-- How the `k`-th `fetch` of the run settles. -/
  net : Nat → FetchOutcome

/-- The mutable state a call runs against. -/
structure World where
  storage : Storage
  fetches : Nat
  trace : List Event

/-- Append an effect to the trace. -/
def World.emit (w : World) (e : Event) : World :=
  { w with trace := w.trace ++ [e] }

/-- Replace the storage. -/
def World.withStorage (w : World) (st : Storage) : World :=
  { w with storage := st }

/-- One `await fetch(...)`. -/
def fetch (env : Env) (req : Request) (w : World) : FetchOutcome × World :=
  (env.net w.fetches,
    { storage := w.storage, fetches := w.fetches + 1, trace := w.trace ++ [Event.fetch req] })

/-! ## String helpers -/

/-- `s.split(sep)` on character lists. -/
def splitChars (sep : Char) : List Char → List (List Char)
  | [] => [[]]
  | c :: cs =>
    match splitChars sep cs with
    | [] => [[]]
    | p :: ps => if c = sep then [] :: p :: ps else (c :: p) :: ps

/-- `s.split(sep)` for a one-character separator. -/
def split (s : String) (sep : Char) : List String :=
  (splitChars sep s.toList).map String.mk

/-- Whether `pat` is a prefix of `cs`. -/
def startsWithChars : List Char → List Char → Bool
  | [], _ => true
  | _ :: _, [] => false
  | p :: ps, c :: cs => p == c && startsWithChars ps cs

/-- Whether `pat` occurs in `cs`. -/
def includesChars (pat : List Char) : List Char → Bool
  | [] => startsWithChars pat []
  | c :: cs => startsWithChars pat (c :: cs) || includesChars pat cs

/-- `s.includes(pat)`. -/
def includes (s pat : String) : Bool :=
  includesChars pat.toList s.toList

/-- `s.substring(0, s.lastIndexOf(sep))`: what precedes the last `sep`, and the empty string
when there is none. -/
def beforeLast (sep : Char) (s : String) : String :=
  String.mk (((s.toList.reverse.dropWhile (fun c => c != sep)).drop 1).reverse)

/-! ## Number conversion and comparison -/

/-- Number conversion of a value; `none` is `NaN`.  Strings go through the platform,
arrays and objects through their string form. -/
def toNumber (env : Env) : JSValue → Option Int
  | .undefined => none
  | .null => some 0
  | .bool b => some (if b then 1 else 0)
  | .num n => some n
  | .str s => env.stringToNumber s
  | v => env.stringToNumber v.toStr

/-- The comparison `v < n` against a number; false when `v` converts to `NaN`. -/
def lessThan (env : Env) (v : JSValue) (n : Int) : Bool :=
  match toNumber env v with
  | some m => decide (m < n)
  | none => false

/-- The value of `Math.floor(Date.now() / 1000)`. -/
def currentTime (env : Env) : Int :=
  Int.fdiv env.dateNow 1000

/-- The four persisted credential fields. -/
def credentialKeys : List String :=
  ["access_token", "refresh_token", "office_name", "wallet_address"]

/-- Object spread of two header objects: the entries of `a`, each overridden by the entry of
`b` with the same key, then the entries of `b` under new keys. -/
def spread (a b : Headers) : Headers :=
  a.map (fun kv => (kv.1, (b.lookup kv.1).getD kv.2))
    ++ b.filter (fun kv => (a.lookup kv.1).isNone)

/-- What a call of `fetchWithAuth` hands back: a response object, `null`, or `undefined`
(falling off the end of the function). -/
inductive Returned where
  | response (r : Response)
  | null
  | undefined

/-- The message of the error `fetchWithAuth` throws when its attempts are used up. -/
def networkLostMessage : String :=
  "Network connection lost. Please check your internet connection."

/-- The test `error.name === "TypeError" && error.message.includes("NetworkError")`. -/
def isNetworkError (error : JSError) : Bool :=
  error.name == "TypeError" && includes error.message "NetworkError"

/-- The four `localStorage.removeItem` calls of the refresh `catch` blocks and of the Web3
logout, in source order. -/
def removeCredentials (st : Storage) : Storage :=
  removeItem "wallet_address" (removeItem "office_name"
    (removeItem "refresh_token" (removeItem "access_token" st)))

/-! ## src/NASA/home.js -/

namespace NASA.home

/-- The constant `API_BASE_URL`, chosen from the host name the page is served from. -/
def API_BASE_URL (env : Env) : String :=
  if env.hostname = "localhost" ∨ env.hostname = "127.0.0.1" then "http://localhost:8000"
  else "https://your-production-api.com"

/-- The function `navigateToLogin`: go to `login.html` next to the current page. -/
def navigateToLogin (env : Env) (w : World) : World :=
  w.emit (.redirect (beforeLast '/' env.pathname ++ "/login.html"))

/-- The request `refreshToken` sends. -/
def refreshRequest (env : Env) (refresh_token : String) : Request :=
  { url := API_BASE_URL env ++ "/refresh-token"
    method := some "POST"
    headers := [("Content-Type", "application/json")]
    body := some (.json (.obj [("refresh_token", .str refresh_token)]))
    mode := none
    credentials := none }

/-- The `try` block of `refreshToken` from the point where `fetch` has settled: read the
body, throw on a status outside 200-299, else store the four fields one after the other
and return the new access token. -/
def refreshTry (out : FetchOutcome) (st : Storage) : Except JSError JSValue × Storage :=
  match out with
  | .rejects e => (.error e, st)
  | .responds response =>
    match response.json with
    | .error e => (.error e, st)
    | .ok data =>
      if !response.ok then
        match data.getProp "detail" with
        | .error e => (.error e, st)
        | .ok detail =>
          (.error ⟨"Error", if detail.truthy then detail.toStr else "Token refresh failed"⟩, st)
      else
        match data.getProp "access_token" with
        | .error e => (.error e, st)
        | .ok a =>
          let st1 := setItem "access_token" a.toStr st
          match data.getProp "refresh_token" with
          | .error e => (.error e, st1)
          | .ok r =>
            let st2 := setItem "refresh_token" r.toStr st1
            match data.getProp "office_name" with
            | .error e => (.error e, st2)
            | .ok o =>
              let st3 := setItem "office_name" o.toStr st2
              match data.getProp "wallet_address" with
              | .error e => (.error e, st3)
              | .ok wa =>
                let st4 := setItem "wallet_address" wa.toStr st3
                match data.getProp "access_token" with
                | .error e => (.error e, st4)
                | .ok result => (.ok result, st4)

/-- The function `refreshToken`. -/
def refreshToken (env : Env) (w : World) : Except JSError JSValue × World :=
  match getItem w.storage "refresh_token" with
  | none => (.ok .null, w.emit (.redirect "/login.html"))
  | some refresh_token =>
    if refresh_token = "" then (.ok .null, w.emit (.redirect "/login.html"))
    else
      match fetch env (refreshRequest env refresh_token) w with
      | (out, w1) =>
        match refreshTry out w1.storage with
        | (.ok v, st) => (.ok v, w1.withStorage st)
        | (.error error, st) =>
          (.error error, (w1.withStorage (removeCredentials st)).emit (.redirect "/login.html"))

/-- The `catch` block of `checkAuth`. -/
def checkAuthCatch (env : Env) (w : World) : JSValue × World :=
  (.null, navigateToLogin env (w.withStorage (removeItem "access_token" w.storage)))

/-- The function `checkAuth`; it never throws, since the `await refreshToken()` sits inside
its `try`. -/
def checkAuth (env : Env) (w : World) : JSValue × World :=
  match getItem w.storage "access_token" with
  | none => (.null, navigateToLogin env w)
  | some access_token =>
    if access_token = "" then (.null, navigateToLogin env w)
    else
      match split access_token '.' with
      | [_, middle, _] =>
        match (env.atob middle).bind env.jsonParse with
        | none => checkAuthCatch env w
        | some payload =>
          match payload.getProp "exp" with
          | .error _ => checkAuthCatch env w
          | .ok exp =>
            if exp.truthy && lessThan env exp (currentTime env) then
              match refreshToken env w with
              | (.ok newAccessToken, w1) => (newAccessToken, w1)
              | (.error _, w1) => checkAuthCatch env w1
            else (.str access_token, w)
      | _ => (.null, navigateToLogin env (w.withStorage (removeItem "access_token" w.storage)))

/-- The constant `maxRetries` of `fetchWithAuth`. -/
def maxRetries : Nat := 3

/-- The request `fetchWithAuth` builds: the defaults, spread over by `options`, with the
headers merged separately. -/
def targetRequest (env : Env) (endpoint : String) (options : Options) (access_token : JSValue) :
    Request :=
  { url := API_BASE_URL env ++ endpoint
    method := options.method
    headers := spread
      [("Authorization", "Bearer " ++ access_token.toStr),
        ("Content-Type", "application/json"), ("Accept", "application/json")]
      (options.headers.getD [])
    body := options.body
    mode := some (options.mode.getD "cors")
    credentials := some (options.credentials.getD "include") }

/-- How one pass through the `try` block of the loop ends, when it does not throw. -/
inductive TryResult where
  | done (v : Returned)
  | again (access_token : JSValue)

/-- The `try` block of the loop in `fetchWithAuth`. -/
def tryBlock (env : Env) (endpoint : String) (options : Options) (access_token : JSValue)
    (w : World) : Except JSError TryResult × World :=
  match fetch env (targetRequest env endpoint options access_token) w with
  | (.rejects e, w1) => (.error e, w1)
  | (.responds response, w1) =>
    if response.status = 401 then
      match refreshToken env w1 with
      | (.error e, w2) => (.error e, w2)
      | (.ok tok, w2) => if !tok.truthy then (.ok (.done .null), w2) else (.ok (.again tok), w2)
    else (.ok (.done (.response response)), w1)

/-- The `while` loop of `fetchWithAuth`.  Each pass uses one unit of `fuel`; `none` means the
loop is still running when the fuel is spent. -/
def fetchLoop (env : Env) (endpoint : String) (options : Options) :
    Nat → JSValue → Nat → World → Option (Except JSError Returned) × World
  | 0, _, _, w => (none, w)
  | fuel + 1, access_token, retryCount, w =>
    if retryCount < maxRetries then
      match tryBlock env endpoint options access_token w with
      | (.ok (.done v), w1) => (some (.ok v), w1)
      | (.ok (.again tok), w1) => fetchLoop env endpoint options fuel tok retryCount w1
      | (.error error, w1) =>
        if isNetworkError error then
          if retryCount + 1 = maxRetries then (some (.error ⟨"Error", networkLostMessage⟩), w1)
          else fetchLoop env endpoint options fuel access_token (retryCount + 1)
            (w1.emit (.wait 1000))
        else (some (.error error), w1)
    else (some (.ok .undefined), w)

/-- The function `fetchWithAuth`, run for at most `fuel` passes of its loop. -/
def fetchWithAuth (env : Env) (fuel : Nat) (endpoint : String) (options : Options) (w : World) :
    Option (Except JSError Returned) × World :=
  match checkAuth env w with
  | (access_token, w0) =>
    if !access_token.truthy then (some (.ok .null), w0)
    else fetchLoop env endpoint options fuel access_token 0 w0

/-- The function `handleLogout`. -/
def handleLogout (env : Env) (w : World) : World :=
  match getItem w.storage "access_token" with
  | none => w.emit (.alert "No active session found.")
  | some token =>
    if token = "" then w.emit (.alert "No active session found.")
    else
      match fetch env
        { url := API_BASE_URL env ++ "/logout"
          method := some "POST"
          headers := [("Authorization", "Bearer " ++ token), ("Content-Type", "application/json")]
          body := none
          mode := none
          credentials := none } w with
      | (.rejects _, w1) =>
        w1.emit (.alert "An error occurred while logging out. Please try again.")
      | (.responds response, w1) =>
        match response.json with
        | .error _ => w1.emit (.alert "An error occurred while logging out. Please try again.")
        | .ok data =>
          if response.ok then
            navigateToLogin env
              ((if env.ws then w1.emit (.wsClose 1000 "Logout") else w1).withStorage [])
          else
            match data.getProp "message" with
            | .error _ =>
              w1.emit (.alert "An error occurred while logging out. Please try again.")
            | .ok m =>
              w1.emit (.alert ("Logout failed: " ++ (if m.truthy then m.toStr else "Unknown error")))

end NASA.home

/-! ## src/Web3/pages/home.js -/

namespace Web3.home

/-- The constant `API_BASE_URL`. -/
def API_BASE_URL : String := "http://127.0.0.1:8000"

/-- The request `refreshToken` sends. -/
def refreshRequest (refresh_token : String) : Request :=
  { url := API_BASE_URL ++ "/refresh-token"
    method := some "POST"
    headers := [("Content-Type", "application/json")]
    body := some (.json (.obj [("refresh_token", .str refresh_token)]))
    mode := none
    credentials := none }

/-- The `try` block of `refreshToken` from the point where `fetch` has settled. -/
def refreshTry (out : FetchOutcome) (st : Storage) : Except JSError JSValue × Storage :=
  match out with
  | .rejects e => (.error e, st)
  | .responds response =>
    match response.json with
    | .error e => (.error e, st)
    | .ok data =>
      if !response.ok then
        match data.getProp "detail" with
        | .error e => (.error e, st)
        | .ok detail =>
          (.error ⟨"Error", if detail.truthy then detail.toStr else "Token refresh failed"⟩, st)
      else
        match data.getProp "access_token" with
        | .error e => (.error e, st)
        | .ok a =>
          let st1 := setItem "access_token" a.toStr st
          match data.getProp "refresh_token" with
          | .error e => (.error e, st1)
          | .ok r =>
            let st2 := setItem "refresh_token" r.toStr st1
            match data.getProp "office_name" with
            | .error e => (.error e, st2)
            | .ok o =>
              let st3 := setItem "office_name" o.toStr st2
              match data.getProp "wallet_address" with
              | .error e => (.error e, st3)
              | .ok wa =>
                let st4 := setItem "wallet_address" wa.toStr st3
                match data.getProp "access_token" with
                | .error e => (.error e, st4)
                | .ok result => (.ok result, st4)

/-- The function `refreshToken`. -/
def refreshToken (env : Env) (w : World) : Except JSError JSValue × World :=
  match getItem w.storage "refresh_token" with
  | none => (.ok .null, w.emit (.redirect "/login.html"))
  | some refresh_token =>
    if refresh_token = "" then (.ok .null, w.emit (.redirect "/login.html"))
    else
      match fetch env (refreshRequest refresh_token) w with
      | (out, w1) =>
        match refreshTry out w1.storage with
        | (.ok v, st) => (.ok v, w1.withStorage st)
        | (.error error, st) =>
          (.error error, (w1.withStorage (removeCredentials st)).emit (.redirect "/login.html"))

/-- The `catch` block of `checkAuth`. -/
def checkAuthCatch (w : World) : JSValue × World :=
  (.null, (w.withStorage (removeItem "access_token" w.storage)).emit (.redirect "/login.html"))

/-- The function `checkAuth`. -/
def checkAuth (env : Env) (w : World) : JSValue × World :=
  match getItem w.storage "access_token" with
  | none => (.null, w.emit (.redirect "/login.html"))
  | some access_token =>
    if access_token = "" then (.null, w.emit (.redirect "/login.html"))
    else
      match split access_token '.' with
      | [_, middle, _] =>
        match (env.atob middle).bind env.jsonParse with
        | none => checkAuthCatch w
        | some payload =>
          match payload.getProp "exp" with
          | .error _ => checkAuthCatch w
          | .ok exp =>
            if exp.truthy && lessThan env exp (currentTime env) then
              match refreshToken env w with
              | (.ok newAccessToken, w1) => (newAccessToken, w1)
              | (.error _, w1) => checkAuthCatch w1
            else (.str access_token, w)
      | _ =>
        (.null, (w.withStorage (removeItem "access_token" w.storage)).emit
          (.redirect "/login.html"))

/-- The request `fetchWithAuth` builds. -/
def targetRequest (endpoint : String) (options : Options) (access_token : JSValue) : Request :=
  { url := API_BASE_URL ++ endpoint
    method := options.method
    headers := spread
      [("Authorization", "Bearer " ++ access_token.toStr),
        ("Content-Type", "application/json"), ("Accept", "application/json")]
      (options.headers.getD [])
    body := options.body
    mode := options.mode
    credentials := some (options.credentials.getD "include") }

/-- The function `fetchWithAuth`: one request, and one more after a refresh when the first
answer is 401; its `catch` block logs and rethrows. -/
def fetchWithAuth (env : Env) (endpoint : String) (options : Options) (w : World) :
    Except JSError Returned × World :=
  match checkAuth env w with
  | (access_token, w0) =>
    if !access_token.truthy then (.ok .null, w0)
    else
      match fetch env (targetRequest endpoint options access_token) w0 with
      | (.rejects e, w1) => (.error e, w1)
      | (.responds response, w1) =>
        if response.status = 401 then
          match refreshToken env w1 with
          | (.error e, w2) => (.error e, w2)
          | (.ok tok, w2) =>
            if !tok.truthy then (.ok .null, w2)
            else
              match fetch env (targetRequest endpoint options tok) w2 with
              | (.rejects e, w3) => (.error e, w3)
              | (.responds retryResponse, w3) => (.ok (.response retryResponse), w3)
        else (.ok (.response response), w1)

/-- The function `handleLogout`. -/
def handleLogout (env : Env) (w : World) : World :=
  match getItem w.storage "access_token" with
  | none => w.emit (.alert "No active session found.")
  | some token =>
    if token = "" then w.emit (.alert "No active session found.")
    else
      match fetch env
        { url := API_BASE_URL ++ "/logout"
          method := some "POST"
          headers := [("Authorization", "Bearer " ++ token), ("Content-Type", "application/json")]
          body := none
          mode := none
          credentials := none } w with
      | (.rejects _, w1) =>
        w1.emit (.alert "An error occurred while logging out. Please try again.")
      | (.responds response, w1) =>
        match response.json with
        | .error _ => w1.emit (.alert "An error occurred while logging out. Please try again.")
        | .ok data =>
          if response.ok then
            match data.getProp "message" with
            | .error _ =>
              (w1.withStorage (removeCredentials w1.storage)).emit
                (.alert "An error occurred while logging out. Please try again.")
            | .ok m =>
              ((w1.withStorage (removeCredentials w1.storage)).emit
                (.alert (if m.truthy then m.toStr else "Successfully logged out"))).emit
                (.redirect "/login.html")
          else
            match data.getProp "message" with
            | .error _ =>
              w1.emit (.alert "An error occurred while logging out. Please try again.")
            | .ok m =>
              w1.emit (.alert ("Logout failed: " ++ (if m.truthy then m.toStr else "Unknown error")))

end Web3.home

/-! ## src/NASA/login.js -/

namespace NASA.login

/-- The constant `backendUrl`. -/
def backendUrl : String := "http://127.0.0.1:8000"

/-- The `submit` listener of the form; `isLogin` is the page mode, `officeName` and `password`
the field values.  Messages shown to the user are `display` events. -/
def onSubmit (env : Env) (isLogin : Bool) (officeName password : String) (w : World) : World :=
  match fetch env
    { url := backendUrl ++ (if isLogin then "/token" else "/register")
      method := some "POST"
      headers := [("Content-Type", "application/json")]
      body := some (.json (.obj [("office_name", .str officeName), ("password", .str password)]))
      mode := none
      credentials := none } w with
  | (.rejects err, w1) => w1.emit (.display "errorMessage" err.message)
  | (.responds response, w1) =>
    match response.json with
    | .error err => w1.emit (.display "errorMessage" err.message)
    | .ok data =>
      if !response.ok then
        match data.getProp "detail" with
        | .error err => w1.emit (.display "errorMessage" err.message)
        | .ok detail =>
          w1.emit (.display "errorMessage"
            (if detail.truthy then detail.toStr else "Authentication failed"))
      else if isLogin then
        match data.getProp "access_token" with
        | .error err => w1.emit (.display "errorMessage" err.message)
        | .ok a =>
          let st1 := setItem "access_token" a.toStr w1.storage
          match data.getProp "refresh_token" with
          | .error err => (w1.withStorage st1).emit (.display "errorMessage" err.message)
          | .ok r =>
            let st2 := setItem "refresh_token" r.toStr st1
            match data.getProp "office_name" with
            | .error err => (w1.withStorage st2).emit (.display "errorMessage" err.message)
            | .ok o =>
              let st3 := setItem "office_name" o.toStr st2
              match data.getProp "wallet_address" with
              | .error err => (w1.withStorage st3).emit (.display "errorMessage" err.message)
              | .ok wa =>
                (w1.withStorage (setItem "wallet_address" wa.toStr st3)).emit
                  (.redirect "index.html")
      else
        (w1.emit (.display "successMessage" "Registration successful! Please sign in.")).emit
          (.timer 2000 "toggleAuth.click")

/-- The request of the utility `refreshToken`; an absent refresh token is sent as `null`. -/
def refreshRequest (refreshToken : Option String) : Request :=
  { url := backendUrl ++ "/refresh-token"
    method := some "POST"
    headers := [("Content-Type", "application/json")]
    body := some (.json (.obj [("refresh_token",
      match refreshToken with
      | none => .null
      | some t => .str t)]))
    mode := none
    credentials := none }

/-- The `try` block of the utility `refreshToken` from the point where `fetch` has settled:
only `access_token` and `refresh_token` are written. -/
def refreshTry (out : FetchOutcome) (st : Storage) : Except JSError JSValue × Storage :=
  match out with
  | .rejects e => (.error e, st)
  | .responds response =>
    match response.json with
    | .error e => (.error e, st)
    | .ok data =>
      if !response.ok then (.error ⟨"Error", "Token refresh failed"⟩, st)
      else
        match data.getProp "access_token" with
        | .error e => (.error e, st)
        | .ok a =>
          let st1 := setItem "access_token" a.toStr st
          match data.getProp "refresh_token" with
          | .error e => (.error e, st1)
          | .ok r =>
            let st2 := setItem "refresh_token" r.toStr st1
            match data.getProp "access_token" with
            | .error e => (.error e, st2)
            | .ok result => (.ok result, st2)

/-- The utility function `refreshToken`: the request is sent whether or not a refresh token
is stored. -/
def refreshToken (env : Env) (w : World) : Except JSError JSValue × World :=
  match fetch env (refreshRequest (getItem w.storage "refresh_token")) w with
  | (out, w1) =>
    match refreshTry out w1.storage with
    | (.ok v, st) => (.ok v, w1.withStorage st)
    | (.error error, st) =>
      (.error error,
        (w1.withStorage (removeCredentials st)).emit (.redirect "/NASA/login.html"))

end NASA.login

/-! ## The credential invariant -/

/-- All four credential fields are in storage. -/
def allPresent (st : Storage) : Bool :=
  credentialKeys.all (fun k => (getItem st k).isSome)

/-- None of the four credential fields is in storage. -/
def allAbsent (st : Storage) : Bool :=
  credentialKeys.all (fun k => (getItem st k).isNone)

/-- The four credential fields are all in storage or all missing. -/
def allOrNone (st : Storage) : Bool :=
  allPresent st || allAbsent st

/-- The stored access token, when there is a non-empty one, has three segments whose middle
one decodes to a value with a readable `exp` property. -/
def Decodes (env : Env) (st : Storage) : Prop :=
  ∀ tok, getItem st "access_token" = some tok → tok ≠ "" →
    ∃ a middle c txt payload exp, split tok '.' = [a, middle, c] ∧ env.atob middle = some txt
      ∧ env.jsonParse txt = some payload ∧ payload.getProp "exp" = .ok exp

/-! ## Reading a trace -/

/-- The URL of a `fetch` event. -/
def Event.fetchUrl : Event → Option String
  | .fetch req => some req.url
  | _ => none

/-- The requests of a trace, in order. -/
def requests (trace : List Event) : List Request :=
  trace.filterMap (fun e =>
    match e with
    | .fetch req => some req
    | _ => none)

/-- How many requests of a trace went to `url`. -/
def requestsTo (url : String) (trace : List Event) : Nat :=
  ((requests trace).filter (fun req => req.url == url)).length

/-- The pauses of a trace, in milliseconds, in order. -/
def waits (trace : List Event) : List Nat :=
  trace.filterMap (fun e =>
    match e with
    | .wait ms => some ms
    | _ => none)

/-! ## A concrete browser and concrete servers, for runs on explicit inputs -/

/-- The calls of `atob` the sample tokens need (each line is a fact about the real `atob`);
any other segment, such as `!!!`, counts as undecodable. -/
def sampleAtob (s : String) : Option String :=
  if s = "eyJleHAiOjF9" then some "\x7b\"exp\":1\x7d"
  else if s = "eyJleHAiOjB9" then some "\x7b\"exp\":0\x7d"
  else if s = "eyJleHAiOjk5OTk5OTk5OTl9" then some "\x7b\"exp\":9999999999\x7d"
  else none

/-- The calls of `JSON.parse` the sample tokens need. -/
def sampleParse (s : String) : Option JSValue :=
  if s = "\x7b\"exp\":1\x7d" then some (.obj [("exp", .num 1)])
  else if s = "\x7b\"exp\":0\x7d" then some (.obj [("exp", .num 0)])
  else if s = "\x7b\"exp\":9999999999\x7d" then some (.obj [("exp", .num 9999999999)])
  else none

/-- A browser on `localhost` at epoch second 1700000000, in front of the servers `net`. -/
def sampleEnv (net : Nat → FetchOutcome) : Env :=
  { atob := sampleAtob
    jsonParse := sampleParse
    stringToNumber := fun _ => none
    dateNow := 1700000000000
    hostname := "localhost"
    pathname := "/NASA/index.html"
    ws := false
    net := net }

/-- A token whose payload is the object with `exp` 9999999999. -/
def futureToken : String := "eyJhbGciOiJIUzI1NiJ9.eyJleHAiOjk5OTk5OTk5OTl9.sig"

/-- A token whose payload is the object with `exp` 1. -/
def pastToken : String := "eyJhbGciOiJIUzI1NiJ9.eyJleHAiOjF9.sig"

/-- A token whose payload is the object with `exp` 0. -/
def zeroToken : String := "eyJhbGciOiJIUzI1NiJ9.eyJleHAiOjB9.sig"

/-- A session with all four fields stored, before any request. -/
def sampleWorld (access_token : String) : World :=
  { storage := [("access_token", access_token), ("refresh_token", "r0"),
      ("office_name", "Treasury"), ("wallet_address", "0xabc")]
    fetches := 0
    trace := [] }

/-- A refresh body carrying a new token pair. -/
def refreshedBody (tag : String) : JSValue :=
  .obj [("access_token", .str ("access-" ++ tag)), ("refresh_token", .str ("refresh-" ++ tag)),
    ("office_name", .str "Treasury"), ("wallet_address", .str "0xabc")]

/-- Caller options that override nothing. -/
def noOptions : Options :=
  { method := none, headers := none, body := none, mode := none, credentials := none }

/-- An answer with status 401. -/
def unauthorized : Response :=
  { status := 401, json := .ok (.obj [("detail", .str "Could not validate credentials")]) }

/-- An answer with status 200 to the target request. -/
def balanceReply : Response :=
  { status := 200, json := .ok (.obj [("balance", .num 5)]) }

/-- What Firefox rejects `fetch` with when the network is down. -/
def networkError : JSError :=
  { name := "TypeError", message := "NetworkError when attempting to fetch resource." }

/-- Servers that answer 401 twice, refresh twice, then answer 200. -/
def twice401Net : Nat → FetchOutcome
  | 0 => .responds unauthorized
  | 1 => .responds { status := 200, json := .ok (refreshedBody "1") }
  | 2 => .responds unauthorized
  | 3 => .responds { status := 200, json := .ok (refreshedBody "2") }
  | _ => .responds balanceReply

/-- Servers that answer 401 to every target request and accept every refresh: requests at
even positions are answered 401, those at odd positions (the refreshes) 200. -/
def always401Net (k : Nat) : FetchOutcome :=
  if k % 2 = 0 then .responds unauthorized
  else .responds { status := 200, json := .ok (refreshedBody "n") }

/-- Servers that cannot be reached: every `fetch` rejects with a connectivity fault. -/
def downNet (_ : Nat) : FetchOutcome :=
  .rejects networkError

/-- Servers reached again at the second attempt. -/
def flakyNet : Nat → FetchOutcome
  | 0 => .rejects networkError
  | _ => .responds balanceReply

/-- Servers that accept every refresh with the token pair tagged `1`. -/
def refreshOkNet (_ : Nat) : FetchOutcome :=
  .responds { status := 200, json := .ok (refreshedBody "1") }

/-- Servers that answer every request with status 400 and the detail `invalid token`. -/
def rejectingNet (_ : Nat) : FetchOutcome :=
  .responds { status := 400, json := .ok (.obj [("detail", .str "invalid token")]) }

/-- A target that answers 401 and then 200, behind a refresh endpoint that cannot be
reached. -/
def refreshDownNet : Nat → FetchOutcome
  | 0 => .responds unauthorized
  | 1 => .rejects networkError
  | _ => .responds balanceReply

/-- A target that answers 401, behind a refresh endpoint that answers 400. -/
def refreshRefusedNet : Nat → FetchOutcome
  | 0 => .responds unauthorized
  | _ => .responds { status := 400, json := .ok (.obj [("detail", .str "invalid token")]) }

/-- Servers that answer every request with the 200 reply. -/
def okNet (_ : Nat) : FetchOutcome :=
  .responds balanceReply

/-- Caller options whose headers carry an Authorization entry of their own. -/
def ownAuthOptions : Options :=
  { method := none
    headers := some [("Authorization", "Bearer caller-token"), ("X-Trace", "1")]
    body := none
    mode := none
    credentials := none }

/-- The default headers `fetchWithAuth` starts from, for the token it holds. -/
def defaultHeaders (access_token : JSValue) : Headers :=
  [("Authorization", "Bearer " ++ access_token.toStr),
    ("Content-Type", "application/json"), ("Accept", "application/json")]

/-- The storage after a refresh that was answered with the object `body`. -/
def refreshedStorage (body : List (String × JSValue)) (st : Storage) : Storage :=
  setItem "wallet_address" ((body.lookup "wallet_address").getD .undefined).toStr
    (setItem "office_name" ((body.lookup "office_name").getD .undefined).toStr
      (setItem "refresh_token" ((body.lookup "refresh_token").getD .undefined).toStr
        (setItem "access_token" ((body.lookup "access_token").getD .undefined).toStr st)))

/-- A target that answers 401 once and 200 afterwards, behind a refresh endpoint that
accepts. -/
def once401Net : Nat → FetchOutcome
  | 0 => .responds unauthorized
  | 1 => .responds { status := 200, json := .ok (refreshedBody "1") }
  | _ => .responds balanceReply

/-- A session whose refresh token is missing from storage. -/
def noRefreshWorld (access_token : String) : World :=
  { storage := [("access_token", access_token), ("office_name", "Treasury"),
      ("wallet_address", "0xabc")]
    fetches := 0
    trace := [] }

/-- A browser with nothing in storage. -/
def emptyWorld : World :=
  { storage := [], fetches := 0, trace := [] }

/-- Servers that answer every request with status 200 and a token pair for another office
and wallet. -/
def renamedNet (_ : Nat) : FetchOutcome :=
  .responds { status := 200, json := .ok (.obj [("access_token", .str "access-2"),
    ("refresh_token", .str "refresh-2"), ("office_name", .str "Customs"),
    ("wallet_address", .str "0xdef")]) }

/-- What Chrome rejects `fetch` with when the network is down: a `TypeError` whose message
does not mention `NetworkError`. -/
def failedToFetch : JSError :=
  { name := "TypeError", message := "Failed to fetch" }

/-- Servers that cannot be reached, seen from Chrome. -/
def chromeDownNet (_ : Nat) : FetchOutcome :=
  .rejects failedToFetch

/-! ## `handleApiResponse` (src/NASA/home.js and src/Web3/pages/home.js) -/

/-- Optional property read `v?.key`: `undefined` when `v` is `null` or `undefined`. -/
def JSValue.getPropOptional (v : JSValue) (key : String) : JSValue :=
  match v with
  | .obj fields => (fields.lookup key).getD .undefined
  | _ => .undefined

namespace NASA.home

/-- The function `handleApiResponse`: for a status outside 200-299 the body is read with a
`catch` that turns a failed read into `null`, and an `Error` is thrown; otherwise what
`response.json()` settles to is handed back. -/
def handleApiResponse (response : Response) (errorMessage : String) : Except JSError JSValue :=
  if !response.ok then
    let errorData :=
      match response.json with
      | .ok data => data
      | .error _ => JSValue.null
    let detail := errorData.getPropOptional "detail"
    .error ⟨"Error", if detail.truthy then detail.toStr else errorMessage⟩
  else response.json

end NASA.home

namespace Web3.home

/-- The function `handleApiResponse`. -/
def handleApiResponse (response : Response) (errorMessage : String) : Except JSError JSValue :=
  if !response.ok then
    let errorData :=
      match response.json with
      | .ok data => data
      | .error _ => JSValue.null
    let detail := errorData.getPropOptional "detail"
    .error ⟨"Error", if detail.truthy then detail.toStr else errorMessage⟩
  else response.json

end Web3.home

/-! ## `fetchWithRetry` (src/NASA/home.js) -/

namespace NASA.home

/-- The `for` loop of `fetchWithRetry`, for the request `fetch(url, options)` makes.  The
count `maxRetries` is a whole number (the page only uses the default, 3).  Each pass uses one
unit of `fuel`; `none` means the loop is still running when the fuel is spent. -/
def retryLoop (env : Env) (request : Request) (maxRetries : Int) :
    Nat → Nat → World → Option (Except JSError Returned) × World
  | 0, _, w => (none, w)
  | fuel + 1, i, w =>
    if (i : Int) < maxRetries then
      match fetch env request w with
      | (.responds response, w1) => (some (.ok (.response response)), w1)
      | (.rejects error, w1) =>
        if (i : Int) = maxRetries - 1 then (some (.error error), w1)
        else retryLoop env request maxRetries fuel (i + 1) (w1.emit (.wait (1000 * (i + 1))))
    else (some (.ok .undefined), w)

/-- The function `fetchWithRetry`, run for at most `fuel` passes of its loop. -/
def fetchWithRetry (env : Env) (fuel : Nat) (request : Request) (maxRetries : Int)
    (w : World) : Option (Except JSError Returned) × World :=
  retryLoop env request maxRetries fuel 0 w

end NASA.home

/-- The events of `k` failed attempts, the first of them attempt number `i`: each is the
request followed by a wait of 1000 times its number plus one, in milliseconds. -/
def failedAttempts (request : Request) : Nat → Nat → List Event
  | 0, _ => []
  | k + 1, i => .fetch request :: .wait (1000 * (i + 1)) :: failedAttempts request k (i + 1)

/-! ## `truncateAddress` (src/NASA/citizen-portal.js and CitizenPortal.tsx) -/

namespace NASA.citizenPortal

/-- The function `truncateAddress`; `none` is a missing address.  Strings are sequences of
code units, `substring(0, 8)` keeps the first eight of them and `substring(length - 6)` drops
all but the last six (a negative start counts as 0). -/
def truncateAddress (address : Option String) : String :=
  match address with
  | none => "N/A"
  | some a =>
    if a = "" then "N/A"
    else String.mk (a.toList.take 8) ++ "..." ++ String.mk (a.toList.drop (a.length - 6))

end NASA.citizenPortal

namespace React.CitizenPortal

/-- The function `truncateAddress` of the React page. -/
def truncateAddress (address : Option String) : String :=
  match address with
  | none => "N/A"
  | some a =>
    if a = "" then "N/A"
    else String.mk (a.toList.take 8) ++ "..." ++ String.mk (a.toList.drop (a.length - 6))

end React.CitizenPortal

/-- A request for the payment modal, as `loadPaymentModal` asks for it. -/
def modalRequest : Request :=
  { url := "payment-modal.html", method := none, headers := [("Accept", "text/html")]
    body := none, mode := none, credentials := none }

/-! ## Library functions of the language -/

/-- Functions of the language and the browser that the pages call on user input and on
dates; theorems quantify over all of them. -/
structure Lib where
  /-- The function `parseFloat` on a string. -/
  parseFloat : String → JSNumber
  /-- The time value of `new Date(s)`, in milliseconds; `none` is an invalid date. -/
  dateValue : String → Option Int
  /-- The method `toLowerCase`. -/
  toLowerCase : String → String
  /-- The method `trim`. -/
  trim : String → String

/-! ## `sendTransaction` (src/NASA/home.js) -/

namespace NASA.home

/-- The function `showAlert`: the banner text, its kind, and the timer that hides it. -/
def showAlert (message type : String) (w : World) : World :=
  ((w.emit (.display "alertMessage" message)).emit (.display "alertBanner" type)).emit
    (.timer 5000 "hideAlert")

/-- The options `sendTransaction` hands to `fetchWithAuth`; the body is what `JSON.stringify`
writes for the object with `recipient` and `amount: numAmount`. -/
def sendOptions (recipientAddress : String) (numAmount : JSNumber) : Options :=
  { method := some "POST"
    headers := none
    body := some (.record [("recipient", .value (.str recipientAddress)),
      ("amount", stringifyNumber numAmount)])
    mode := none
    credentials := none }

/-- The `catch` block of `sendTransaction`. -/
def sendCatch (error : JSError) (w : World) : World :=
  showAlert ("Transaction failed: " ++ error.message) "error" w

/-- The function `sendTransaction`, up to its success banner; the reload of balance and
transaction list that follows it (two concurrent calls of `fetchWithAuth` on other endpoints)
is not modelled.  The flag is false when the fuel of the inner `fetchWithAuth` ran out. -/
def sendTransaction (env : Env) (lib : Lib) (fuel : Nat) (recipientAddress amount : String)
    (w : World) : Bool × World :=
  match checkAuth env w with
  | (access_token, w0) =>
    if !access_token.truthy then (true, w0)
    else if recipientAddress = "" ∨ amount = "" then
      (true, sendCatch ⟨"Error", "Please provide both recipient address and amount"⟩ w0)
    else if (lib.parseFloat amount).isNaN || (lib.parseFloat amount).le 0 then
      (true, sendCatch ⟨"Error", "Amount must be a positive number"⟩ w0)
    else
      match fetchWithAuth env fuel "/send/"
          (sendOptions recipientAddress (lib.parseFloat amount)) w0 with
      | (none, w1) => (false, w1)
      | (some (.error error), w1) => (true, sendCatch error w1)
      | (some (.ok .null), w1) =>
        (true, sendCatch ⟨"TypeError", "Cannot read properties of null"⟩ w1)
      | (some (.ok .undefined), w1) =>
        (true, sendCatch ⟨"TypeError", "Cannot read properties of undefined"⟩ w1)
      | (some (.ok (.response response)), w1) =>
        match response.json with
        | .error error => (true, sendCatch error w1)
        | .ok data =>
          if !response.ok then
            match data.getProp "detail" with
            | .error error => (true, sendCatch error w1)
            | .ok detail =>
              (true, sendCatch
                ⟨"Error", if detail.truthy then detail.toStr else "Transaction failed"⟩ w1)
          else (true, showAlert "Transaction completed successfully" "success" w1)

end NASA.home

/-- Library functions for runs on explicit inputs: `parseFloat` and `new Date` as tables of
facts about the real functions on the inputs used (anything else reads as `NaN`, or as an
invalid date; `1e999` is beyond the largest double and reads as `Infinity`), lower-casing of
the ASCII letters, trimming of blanks. -/
def sampleLib : Lib :=
  { parseFloat := fun s =>
      if s = "25" then .fin 25
      else if s = "0" then .fin 0
      else if s = "-5" then .fin (-5)
      else if s = "1500" then .fin 1500
      else if s = "1e999" then .posInf
      else .nan
    dateValue := fun s =>
      if s = "2024-01-01T00:00:00Z" then some 1704067200000
      else if s = "2024-01-02T00:00:00Z" then some 1704153600000
      else if s = "2024-01-03T00:00:00Z" then some 1704240000000
      else none
    toLowerCase := fun s => String.mk (s.toList.map Char.toLower)
    trim := fun s =>
      String.mk (((s.toList.dropWhile (fun c => c == ' ')).reverse.dropWhile
        (fun c => c == ' ')).reverse) }

/-! ## `payTax` (src/NASA/tax-payment.js) -/

namespace NASA.taxPayment

/-- The constant `API_URL`. -/
def API_URL : String := "http://localhost:8000"

/-- The function `showMessage`: the text, its kind, and the timer that hides it. -/
def showMessage (message type : String) (w : World) : World :=
  ((w.emit (.display "message" message)).emit (.display "messageClass" type)).emit
    (.timer 5000 "hideMessage")

/-- The request for the wallet of the finance office. -/
def financeRequest : Request :=
  { url := API_URL ++ "/finance-office-wallet", method := none, headers := [], body := none
    mode := none, credentials := none }

/-- The login request, with the credentials as form fields. -/
def loginRequest (officeName password : String) : Request :=
  { url := API_URL ++ "/token"
    method := some "POST"
    headers := [("Content-Type", "application/x-www-form-urlencoded")]
    body := some (.form [("username", officeName), ("password", password)])
    mode := none
    credentials := none }

/-- The payment request. -/
def sendRequest (financeWallet token : JSValue) (amount : JSNumber)
    (selectedTaxType description : String) : Request :=
  { url := API_URL ++ "/send"
    method := some "POST"
    headers := [("Content-Type", "application/json"),
      ("Authorization", "Bearer " ++ token.toStr)]
    body := some (.record [("recipient_wallet", .value financeWallet),
      ("amount", stringifyNumber amount),
      ("purpose", .value (.str ("TAX PAYMENT: " ++ selectedTaxType ++ " - " ++ description)))])
    mode := none
    credentials := none }

/-- The `catch` block of `payTax`. -/
def payCatch (w : World) : World :=
  showMessage "An error occurred while processing payment" "error" w

/-- The `try` block of `payTax`, entered once the inputs have passed validation.  The receipt
is one `display` event carrying the transaction hash; its other lines repeat the inputs. -/
def processPayment (env : Env) (selectedTaxType officeName password : String)
    (amount : JSNumber) (description : String) (w : World) : World :=
  match fetch env financeRequest w with
  | (.rejects _, w1) => payCatch w1
  | (.responds financeResponse, w1) =>
    if !financeResponse.ok then
      showMessage "Could not retrieve Government Finance Office information" "error" w1
    else
      match financeResponse.json with
      | .error _ => payCatch w1
      | .ok financeData =>
        match financeData.getProp "wallet_address" with
        | .error _ => payCatch w1
        | .ok financeWallet =>
          match fetch env (loginRequest officeName password) w1 with
          | (.rejects _, w2) => payCatch w2
          | (.responds loginResponse, w2) =>
            if !loginResponse.ok then
              showMessage "Invalid office name or password" "error" w2
            else
              match loginResponse.json with
              | .error _ => payCatch w2
              | .ok loginResult =>
                match loginResult.getProp "access_token" with
                | .error _ => payCatch w2
                | .ok token =>
                  match fetch env
                      (sendRequest financeWallet token amount selectedTaxType description)
                      w2 with
                  | (.rejects _, w3) => payCatch w3
                  | (.responds paymentResponse, w3) =>
                    match paymentResponse.json with
                    | .error _ => payCatch w3
                    | .ok paymentResult =>
                      if !paymentResponse.ok then
                        match paymentResult.getProp "detail" with
                        | .error _ => payCatch w3
                        | .ok detail =>
                          showMessage
                            (if detail.truthy then detail.toStr else "Payment failed")
                            "error" w3
                      else
                        match paymentResult.getProp "transaction_hash" with
                        | .error _ => payCatch w3
                        | .ok transactionHash =>
                          showMessage
                            "Tax payment successfully sent to Government Finance Office!"
                            "success"
                            (w3.emit (.display "receiptDetails" transactionHash.toStr))

/-- The function `payTax`; its arguments are the selected tax type and the values of the four
form fields. -/
def payTax (env : Env) (lib : Lib) (selectedTaxType officeNameValue passwordValue amountValue
    descriptionValue : String) (w : World) : World :=
  if selectedTaxType = "" then showMessage "Please select a tax type" "error" w
  else if lib.trim officeNameValue = "" then
    showMessage "Please enter your office name" "error" w
  else if passwordValue = "" then showMessage "Please enter your password" "error" w
  else if !(lib.parseFloat amountValue).truthy || (lib.parseFloat amountValue).le 0 then
    showMessage "Please enter a valid amount" "error" w
  else if lib.trim descriptionValue = "" then
    showMessage "Please enter a reference or description" "error" w
  else
    processPayment env selectedTaxType (lib.trim officeNameValue) passwordValue
      (lib.parseFloat amountValue) (lib.trim descriptionValue) w

end NASA.taxPayment

/-- Servers for a tax payment that goes through: the wallet of the finance office, the login
token, the transaction hash. -/
def taxNet : Nat → FetchOutcome
  | 0 => .responds { status := 200, json := .ok (.obj [("wallet_address", .str "0xfin")]) }
  | 1 => .responds { status := 200, json := .ok (.obj [("access_token", .str "tok")]) }
  | _ => .responds { status := 200, json := .ok (.obj [("transaction_hash", .str "0xabc")]) }

/-! ## The citizen portal (src/NASA/citizen-portal.js and CitizenPortal.tsx)

The records follow `src/nasa-finance-react/src/types/index.ts`; the amount is kept as the
backend sent it, since both pages read it through `parseFloat`. -/

/-- The interface `Transaction`. -/
structure Transaction where
  sender : String
  recipient : String
  amount : JSValue
  timestamp : String
  purpose : Option String
  approved_by : Option String
  block_id : Option String
  validator : Option String

/-- The interface `Block`; `transactions` is `none` when the field is missing. -/
structure Block where
  block_id : String
  timestamp : String
  transactions : Option (List Transaction)
  previous_hash : String
  hash : String
  validator : String

/-- The body of the transactions table: one message row, or one row per transaction.  A row
is determined by its transaction, so a row is given as the transaction it shows. -/
inductive Table where
  | message (text : String)
  | rows (rows : List Transaction)

/-- One step of `Array.prototype.sort`: `a` goes in front of the first element that the
comparator does not put before it.  The comparator returns `none` for `NaN`, which `sort`
reads as 0. -/
def sortInsert {α : Type} (compareFn : α → α → Option Int) (a : α) : List α → List α
  | [] => [a]
  | b :: l =>
    if (match compareFn a b with
        | some v => decide (v ≤ 0)
        | none => true)
    then a :: b :: l
    else b :: sortInsert compareFn a l

/-- The method `Array.prototype.sort` with a comparator, as the stable sort that the language
prescribes when the comparator is consistent. -/
def arraySort {α : Type} (compareFn : α → α → Option Int) : List α → List α
  | [] => []
  | a :: l => sortInsert compareFn a (arraySort compareFn l)

/-- The method `Set.prototype.add` on a set of strings kept in insertion order. -/
def setAdd (s : List String) (a : String) : List String :=
  if a ∈ s then s else s ++ [a]

/-- The row `a` shows a time that is not earlier than the one of row `b`. -/
def NotOlder (lib : Lib) (a b : Transaction) : Prop :=
  ∃ ta tb, lib.dateValue a.timestamp = some ta ∧ lib.dateValue b.timestamp = some tb ∧ tb ≤ ta

namespace NASA.citizenPortal

/-- The constant `backendUrl`. -/
def backendUrl : String := "http://127.0.0.1:8000"

/-- The page: the variable `allTransactions`, the two counters shown, the table body, and the
values of the two filter controls.  The sum `totalFunds` and the time of the last update are
not modelled. -/
structure Page where
  allTransactions : List Transaction
  totalTransactions : Nat
  activeOffices : Nat
  table : Table
  searchPurpose : String
  filterAmount : String

/-- The comparator `(a, b) => new Date(b.timestamp) - new Date(a.timestamp)`. -/
def compareFn (lib : Lib) (a b : Transaction) : Option Int :=
  match lib.dateValue b.timestamp, lib.dateValue a.timestamp with
  | some tb, some ta => some (tb - ta)
  | _, _ => none

/-- The function `displayTransactions`: the table body is rewritten from a sorted copy of the
argument. -/
def displayTransactions (lib : Lib) (transactions : List Transaction) (p : Page) : Page :=
  if transactions.length = 0 then { p with table := .message "No transactions found" }
  else
    let sortedTransactions := arraySort (compareFn lib) transactions
    { p with table := .rows sortedTransactions }

end NASA.citizenPortal

namespace React.CitizenPortal

/-- The interface `TransactionStats`, without the sum `totalFunds`. -/
structure TransactionStats where
  totalTransactions : Nat
  activeOffices : Nat

/-- The state of the component, without the time of the last update. -/
structure State where
  allTransactions : List Transaction
  displayedTransactions : List Transaction
  stats : TransactionStats
  loading : Bool
  error : Option String
  searchPurpose : String
  amountFilter : String

/-- The comparator
`(a, b) => new Date(b.timestamp).getTime() - new Date(a.timestamp).getTime()`. -/
def compareFn (lib : Lib) (a b : Transaction) : Option Int :=
  match lib.dateValue b.timestamp, lib.dateValue a.timestamp with
  | some tb, some ta => some (tb - ta)
  | _, _ => none

/-- The table body that the component renders; the error text is shown as it is stored,
`DOMPurify.sanitize` is not modelled. -/
def tableBody (lib : Lib) (s : State) : Table :=
  if s.loading then .message "Loading public transactions..."
  else
    match s.error with
    | some error =>
      if error ≠ "" then .message ("Error loading transactions: " ++ error)
      else if s.displayedTransactions.length = 0 then .message "No transactions found"
      else .rows (arraySort (compareFn lib) s.displayedTransactions)
    | none =>
      if s.displayedTransactions.length = 0 then .message "No transactions found"
      else .rows (arraySort (compareFn lib) s.displayedTransactions)

end React.CitizenPortal

/-! ## Fixtures of the citizen portal -/

/-- A payment of 25 on 1 January 2024. -/
def januaryFirst : Transaction :=
  { sender := "0xaaaaaaaaaaaaaaaa", recipient := "0xbbbbbbbbbbbbbbbb", amount := .num 25
    timestamp := "2024-01-01T00:00:00Z", purpose := some "Road Repair", approved_by := none
    block_id := none, validator := none }

/-- A payment of 1500 on 3 January 2024. -/
def januaryThird : Transaction :=
  { sender := "0xbbbbbbbbbbbbbbbb", recipient := "0xcccccccccccccccc", amount := .num 1500
    timestamp := "2024-01-03T00:00:00Z", purpose := some "School books"
    approved_by := some "Treasury", block_id := none, validator := none }

/-- A payment on 2 January 2024 whose amount is not a number. -/
def januarySecond : Transaction :=
  { sender := "0xaaaaaaaaaaaaaaaa", recipient := "0xcccccccccccccccc", amount := .str "n/a"
    timestamp := "2024-01-02T00:00:00Z", purpose := none, approved_by := none
    block_id := none, validator := none }

/-- Three transactions, not in the order of their dates. -/
def sampleTransactions : List Transaction :=
  [januaryFirst, januaryThird, januarySecond]

/-- A page before its first load. -/
def samplePage : NASA.citizenPortal.Page :=
  { allTransactions := [], totalTransactions := 0, activeOffices := 0
    table := .message "Loading public transactions...", searchPurpose := ""
    filterAmount := "all" }

/-- A component that has loaded the three transactions. -/
def sampleState : React.CitizenPortal.State :=
  { allTransactions := sampleTransactions, displayedTransactions := sampleTransactions
    stats := { totalTransactions := 3, activeOffices := 3 }
    loading := false, error := none, searchPurpose := "", amountFilter := "all" }

/-! ## `loadBlockchainData` -/

/-- Statement helper: the transactions of one block, each carrying the timestamp, the
identifier and the validator of the block; nothing when the list is missing or empty. -/
def blockTransactions (block : Block) : List Transaction :=
  (block.transactions.getD []).map (fun tx =>
    { tx with timestamp := block.timestamp, block_id := some block.block_id
              validator := some block.validator })

/-- Statement helper: the concatenation, in chain order, of the transactions of the blocks. -/
def chainTransactions (chain : List Block) : List Transaction :=
  (chain.map blockTransactions).flatten

/-- Statement helper: the number of transactions in the lists of the blocks. -/
def transactionCount (chain : List Block) : Nat :=
  (chain.map (fun block => (block.transactions.getD []).length)).sum

/-- Statement helper: the senders and recipients of a list of transactions. -/
def addresses (transactions : List Transaction) : List String :=
  (transactions.map (fun tx => [tx.sender, tx.recipient])).flatten

namespace NASA.citizenPortal

/-- The request of `loadBlockchainData`. -/
def blockchainRequest : Request :=
  { url := backendUrl ++ "/blockchain", method := none, headers := [], body := none
    mode := none, credentials := none }

/-- The callback of `blockchain.chain.forEach`, on the pair of `allTransactions` and
`uniqueAddresses`. -/
def extractBlock (acc : List Transaction × List String) (block : Block) :
    List Transaction × List String :=
  match block.transactions with
  | some transactions =>
    if transactions.length > 0 then
      transactions.foldl (fun acc tx =>
        (acc.1 ++ [{ tx with timestamp := block.timestamp, block_id := some block.block_id
                             validator := some block.validator }],
         setAdd (setAdd acc.2 tx.sender) tx.recipient)) acc
    else acc
  | none => acc

/-- The `catch` block of `loadBlockchainData`. -/
def loadCatch (error : JSError) (p : Page) : Page :=
  { p with table := .message ("Error loading transactions: " ++ error.message) }

/-- The function `loadBlockchainData`.  The argument `chain` is the reading of
`blockchain.chain` as a list of blocks. -/
def loadBlockchainData (env : Env) (lib : Lib) (chain : JSValue → List Block) (p : Page)
    (w : World) : Page × World :=
  match fetch env blockchainRequest w with
  | (.rejects error, w1) => (loadCatch error p, w1)
  | (.responds response, w1) =>
    if !response.ok then (loadCatch ⟨"Error", "Failed to fetch blockchain data"⟩ p, w1)
    else
      match response.json with
      | .error error => (loadCatch error p, w1)
      | .ok blockchain =>
        let extracted := (chain blockchain).foldl extractBlock ([], [])
        let allTransactions := extracted.1
        let uniqueAddresses := extracted.2
        (displayTransactions lib allTransactions
          { p with allTransactions := allTransactions
                   totalTransactions := allTransactions.length
                   activeOffices := uniqueAddresses.length }, w1)

end NASA.citizenPortal

namespace React.CitizenPortal

/-- The callback of `blockchain.chain.forEach`, on the pair of `transactions` and
`uniqueAddresses`. -/
def extractBlock (acc : List Transaction × List String) (block : Block) :
    List Transaction × List String :=
  match block.transactions with
  | some transactions =>
    if transactions.length > 0 then
      transactions.foldl (fun acc tx =>
        (acc.1 ++ [{ tx with timestamp := block.timestamp, block_id := some block.block_id
                             validator := some block.validator }],
         setAdd (setAdd acc.2 tx.sender) tx.recipient)) acc
    else acc
  | none => acc

/-- The function `loadBlockchainData`.  The argument `getBlockchain` is how
`await blockchainAPI.getBlockchain()` settles: the chain of the answer, or the error thrown. -/
def loadBlockchainData (getBlockchain : Except JSError (List Block)) (s : State) : State :=
  match getBlockchain with
  | .error err => { s with loading := false, error := some err.message }
  | .ok chain =>
    let extracted := chain.foldl extractBlock ([], [])
    let transactions := extracted.1
    let uniqueAddresses := extracted.2
    { s with allTransactions := transactions
             displayedTransactions := transactions
             stats := { totalTransactions := transactions.length
                        activeOffices := uniqueAddresses.length }
             loading := false
             error := none }

end React.CitizenPortal

/-- A block without a `transactions` field. -/
def genesisBlock : Block :=
  { block_id := "b0", timestamp := "2024-01-01T00:00:00Z", transactions := none
    previous_hash := "0", hash := "h0", validator := "v0" }

/-- A block with two transactions, which carry a timestamp of their own. -/
def secondBlock : Block :=
  { block_id := "b1", timestamp := "2024-01-02T00:00:00Z"
    transactions := some [januaryFirst, januaryThird]
    previous_hash := "h0", hash := "h1", validator := "v1" }

/-- A block with an empty list and a block with one transaction after the two others. -/
def sampleChain : List Block :=
  [genesisBlock, secondBlock,
   { block_id := "b2", timestamp := "2024-01-03T00:00:00Z", transactions := some []
     previous_hash := "h1", hash := "h2", validator := "v1" },
   { block_id := "b3", timestamp := "2024-01-03T00:00:00Z", transactions := some [januarySecond]
     previous_hash := "h2", hash := "h3", validator := "v2" }]

/-- The answer of the backend to `/blockchain`; its chain is read by `sampleReading`. -/
def blockchainReply : Response :=
  { status := 200, json := .ok (.obj [("length", .num 4)]) }

/-- Servers that answer every request with the blockchain. -/
def chainNet (_ : Nat) : FetchOutcome :=
  .responds blockchainReply

/-- The reading of the chain of `blockchainReply`. -/
def sampleReading (_ : JSValue) : List Block :=
  sampleChain

/-! ## `filterTransactions` -/

namespace NASA.citizenPortal

/-- The callback of the filter by purpose. -/
def matchesSearch (lib : Lib) (searchTerm : String) (tx : Transaction) : Bool :=
  includes (lib.toLowerCase (tx.purpose.getD "")) searchTerm
    || includes (lib.toLowerCase (tx.approved_by.getD "")) searchTerm

/-- The callback of the filter by amount. -/
def keepsAmount (lib : Lib) (amountFilter : String) (tx : Transaction) : Bool :=
  let amount := lib.parseFloat tx.amount.toStr
  if amountFilter = "0-1000" then amount.lt 1000
  else if amountFilter = "1000-10000" then amount.ge 1000 && amount.lt 10000
  else if amountFilter = "10000+" then amount.ge 10000
  else true

/-- The list `filtered` that `filterTransactions` hands to `displayTransactions`. -/
def filtered (lib : Lib) (p : Page) : List Transaction :=
  let searchTerm := lib.toLowerCase p.searchPurpose
  let amountFilter := p.filterAmount
  let filtered := p.allTransactions
  let filtered :=
    if searchTerm ≠ "" then filtered.filter (matchesSearch lib searchTerm) else filtered
  let filtered :=
    if amountFilter ≠ "all" then filtered.filter (keepsAmount lib amountFilter) else filtered
  filtered

/-- The function `filterTransactions`. -/
def filterTransactions (lib : Lib) (p : Page) : Page :=
  displayTransactions lib (filtered lib p) p

end NASA.citizenPortal

namespace React.CitizenPortal

/-- The callback of the filter by purpose. -/
def matchesSearch (lib : Lib) (searchLower : String) (tx : Transaction) : Bool :=
  includes (lib.toLowerCase (tx.purpose.getD "")) searchLower
    || includes (lib.toLowerCase (tx.approved_by.getD "")) searchLower

/-- The callback of the filter by amount. -/
def keepsAmount (lib : Lib) (amountFilter : String) (tx : Transaction) : Bool :=
  let amount := lib.parseFloat tx.amount.toStr
  if amountFilter = "0-1000" then amount.lt 1000
  else if amountFilter = "1000-10000" then amount.ge 1000 && amount.lt 10000
  else if amountFilter = "10000+" then amount.ge 10000
  else true

/-- The list `filtered` that `filterTransactions` stores. -/
def filtered (lib : Lib) (s : State) : List Transaction :=
  let filtered := s.allTransactions
  let filtered :=
    if s.searchPurpose ≠ "" then
      filtered.filter (matchesSearch lib (lib.toLowerCase s.searchPurpose))
    else filtered
  let filtered :=
    if s.amountFilter ≠ "all" then filtered.filter (keepsAmount lib s.amountFilter)
    else filtered
  filtered

/-- The function `filterTransactions`. -/
def filterTransactions (lib : Lib) (s : State) : State :=
  { s with displayedTransactions := filtered lib s }

end React.CitizenPortal

/-- The three amount bands of the filter control. -/
def amountBands : List String :=
  ["0-1000", "1000-10000", "10000+"]

/-- A page that has loaded the three transactions and filters them by the middle band. -/
def filterPage : NASA.citizenPortal.Page :=
  { allTransactions := sampleTransactions, totalTransactions := 3, activeOffices := 3
    table := .rows [januaryThird, januarySecond, januaryFirst], searchPurpose := ""
    filterAmount := "1000-10000" }

/-- Servers that answer every request with status 200 and the JSON body `null`. -/
def nullBodyNet (_ : Nat) : FetchOutcome :=
  .responds { status := 200, json := .ok .null }

/-! ## The token a call of `fetchWithAuth` holds -/

/-- Statement helper: the token a call of `fetchWithAuth` of `src/NASA/home.js` holds once the
request `req`, sent as fetch number `k`, has settled.  It is the `access_token` of the answer
when `req` went to the refresh endpoint and was answered with a 2xx status and a JSON body
whose `access_token` is truthy, and the token held before in every other case. -/
def heldAfter (env : Env) (k : Nat) (held : JSValue) (req : Request) : JSValue :=
  if req.url = NASA.home.API_BASE_URL env ++ "/refresh-token" then
    match env.net k with
    | .rejects _ => held
    | .responds response =>
      if response.ok then
        match response.json with
        | .error _ => held
        | .ok data =>
          match data.getProp "access_token" with
          | .error _ => held
          | .ok token => if token.truthy then token else held
      else held
  else held

/-- Statement helper: the token held after the requests `sent`, the first of which was fetch
number `k`, starting from the token `held`. -/
def heldToken (env : Env) : Nat → JSValue → List Request → JSValue
  | _, held, [] => held
  | k, held, req :: sent => heldToken env (k + 1) (heldAfter env k held req) sent

/-! # Theorems -/

/-! ## localStorage laws -/

theorem getItem_removeItem_self (k : String) (st : Storage) :
    getItem (removeItem k st) k = none := by
  induction st with
  | nil => rfl
  | cons kv rest ih =>
    obtain ⟨a, b⟩ := kv
    by_cases h : a = k
    · simpa [removeItem, getItem, List.filter_cons, h] using ih
    · have h2 : (k == a) = false := by simpa using fun e => h e.symm
      simpa [removeItem, getItem, List.filter_cons, h, List.lookup_cons, h2] using ih

theorem getItem_removeItem_of_ne {k k2 : String} (h : k2 ≠ k) (st : Storage) :
    getItem (removeItem k st) k2 = getItem st k2 := by
  induction st with
  | nil => rfl
  | cons kv rest ih =>
    obtain ⟨a, b⟩ := kv
    by_cases h1 : a = k
    · subst h1
      have h2 : (k2 == a) = false := by simpa using h
      simpa [removeItem, getItem, List.filter_cons, List.lookup_cons, h2] using ih
    · by_cases h3 : k2 = a
      · have h4 : (k2 == a) = true := by simpa using h3
        simp [removeItem, getItem, List.filter_cons, h1, List.lookup_cons, h4]
      · have h4 : (k2 == a) = false := by simpa using h3
        simpa [removeItem, getItem, List.filter_cons, h1, List.lookup_cons, h4] using ih

theorem getItem_setItem_self (k v : String) (st : Storage) :
    getItem (setItem k v st) k = some v := by
  simp [setItem, getItem, List.lookup_cons]

theorem getItem_setItem_of_ne {k k2 : String} (h : k2 ≠ k) (v : String) (st : Storage) :
    getItem (setItem k v st) k2 = getItem st k2 := by
  have h2 : (k2 == k) = false := by simpa using h
  have h3 : getItem (setItem k v st) k2 = getItem (removeItem k st) k2 := by
    simp [setItem, getItem, List.lookup_cons, h2]
  rw [h3, getItem_removeItem_of_ne h]

theorem getItem_removeCredentials {k : String} (hk : k ∈ credentialKeys) (st : Storage) :
    getItem (removeCredentials st) k = none := by
  simp only [credentialKeys, List.mem_cons, List.mem_singleton, List.not_mem_nil, or_false] at hk
  rcases hk with rfl | rfl | rfl | rfl
  · rw [removeCredentials, getItem_removeItem_of_ne (by decide), getItem_removeItem_of_ne (by decide),
      getItem_removeItem_of_ne (by decide), getItem_removeItem_self]
  · rw [removeCredentials, getItem_removeItem_of_ne (by decide), getItem_removeItem_of_ne (by decide),
      getItem_removeItem_self]
  · rw [removeCredentials, getItem_removeItem_of_ne (by decide), getItem_removeItem_self]
  · rw [removeCredentials, getItem_removeItem_self]

theorem getItem_removeCredentials_of_not_mem {k : String} (hk : k ∉ credentialKeys)
    (st : Storage) : getItem (removeCredentials st) k = getItem st k := by
  simp only [credentialKeys, List.mem_cons, List.mem_singleton, List.not_mem_nil, or_false,
    not_or] at hk
  obtain ⟨h1, h2, h3, h4⟩ := hk
  rw [removeCredentials, getItem_removeItem_of_ne h4, getItem_removeItem_of_ne h3,
    getItem_removeItem_of_ne h2, getItem_removeItem_of_ne h1]

/-- C1 (code at the failing input): with a valid stored token and a target that answers 401,
401, 200 (each refresh succeeding), `fetchWithAuth` of `src/NASA/home.js` does not hand the
second 401 back: it refreshes a second time and sends a third target request, whose 200
answer it returns.  On the same input `fetchWithAuth` of `src/Web3/pages/home.js` returns the
second 401 after one refresh. -/
theorem C1_second_401_refreshes_again :
    (NASA.home.fetchWithAuth (sampleEnv twice401Net) 3 "/balance" noOptions
        (sampleWorld futureToken)).1 = some (.ok (.response balanceReply))
    ∧ requestsTo "http://localhost:8000/refresh-token"
        (NASA.home.fetchWithAuth (sampleEnv twice401Net) 3 "/balance" noOptions
          (sampleWorld futureToken)).2.trace = 2
    ∧ requestsTo "http://localhost:8000/balance"
        (NASA.home.fetchWithAuth (sampleEnv twice401Net) 3 "/balance" noOptions
          (sampleWorld futureToken)).2.trace = 3
    ∧ (Web3.home.fetchWithAuth (sampleEnv twice401Net) "/balance" noOptions
        (sampleWorld futureToken)).1 = .ok (.response unauthorized)
    ∧ requestsTo "http://127.0.0.1:8000/refresh-token"
        (Web3.home.fetchWithAuth (sampleEnv twice401Net) "/balance" noOptions
          (sampleWorld futureToken)).2.trace = 1 := by
  refine ⟨by rfl, by rfl, by rfl, by rfl, by rfl⟩

/-! ## Values -/

@[simp] theorem toStr_str (s : String) : (JSValue.str s).toStr = s := by
  simp [JSValue.toStr]

@[simp] theorem truthy_str (s : String) : (JSValue.str s).truthy = (s != "") := rfl

/-! ## Traces -/

theorem requestsTo_append (url : String) (a b : List Event) :
    requestsTo url (a ++ b) = requestsTo url a + requestsTo url b := by
  simp [requestsTo, requests, List.filterMap_append, List.filter_append]

/-! ## The 401 loop of `src/NASA/home.js` -/

/-- One pass of the loop against `always401Net`: a target request, a refresh, and the loop
goes on with the new token. -/
theorem tryBlock_always401 (tok : JSValue) (w : World) (r : String)
    (hr : getItem w.storage "refresh_token" = some r) (hne : r ≠ "")
    (heven : w.fetches % 2 = 0) :
    NASA.home.tryBlock (sampleEnv always401Net) "/balance" noOptions tok w
      = (.ok (.again (.str "access-n")),
          { storage := setItem "wallet_address" "0xabc" (setItem "office_name" "Treasury"
              (setItem "refresh_token" "refresh-n" (setItem "access_token" "access-n" w.storage)))
            fetches := w.fetches + 1 + 1
            trace := w.trace
              ++ [.fetch (NASA.home.targetRequest (sampleEnv always401Net) "/balance" noOptions tok)]
              ++ [.fetch (NASA.home.refreshRequest (sampleEnv always401Net) r)] }) := by
  have hodd : ¬ (w.fetches + 1) % 2 = 0 := by omega
  simp [NASA.home.tryBlock, fetch, sampleEnv, always401Net, heven, unauthorized,
      NASA.home.refreshToken, hr, hne, hodd, NASA.home.refreshTry, Response.ok, refreshedBody,
      JSValue.getProp, List.lookup_cons, World.withStorage]

/-- C2 (code at the failing input): against servers that answer 401 to every target request
and accept every refresh, the loop of `fetchWithAuth` in `src/NASA/home.js` never ends: for every
number `n` of passes it is still running after `n` passes and has by then sent `n` requests to
the target endpoint. -/
theorem C2_loop_unbounded_on_repeated_401 (n : Nat) :
    (NASA.home.fetchWithAuth (sampleEnv always401Net) n "/balance" noOptions
        (sampleWorld futureToken)).1 = none
    ∧ requestsTo "http://localhost:8000/balance"
        (NASA.home.fetchWithAuth (sampleEnv always401Net) n "/balance" noOptions
          (sampleWorld futureToken)).2.trace = n := by
  have loop : ∀ (fuel : Nat) (tok : JSValue) (w : World) (r : String),
      getItem w.storage "refresh_token" = some r → r ≠ "" → w.fetches % 2 = 0 →
      (NASA.home.fetchLoop (sampleEnv always401Net) "/balance" noOptions fuel tok 0 w).1 = none
      ∧ requestsTo "http://localhost:8000/balance"
          (NASA.home.fetchLoop (sampleEnv always401Net) "/balance" noOptions fuel tok 0 w).2.trace
          = requestsTo "http://localhost:8000/balance" w.trace + fuel := by
    intro fuel
    induction fuel with
    | zero => intro tok w r _ _ _; simp [NASA.home.fetchLoop]
    | succ k ih =>
      intro tok w r hr hne heven
      have hstep := tryBlock_always401 tok w r hr hne heven
      have hnext := ih (.str "access-n")
        { storage := setItem "wallet_address" "0xabc" (setItem "office_name" "Treasury"
            (setItem "refresh_token" "refresh-n" (setItem "access_token" "access-n" w.storage)))
          fetches := w.fetches + 1 + 1
          trace := w.trace
            ++ [.fetch (NASA.home.targetRequest (sampleEnv always401Net) "/balance" noOptions tok)]
            ++ [.fetch (NASA.home.refreshRequest (sampleEnv always401Net) r)] }
        "refresh-n"
        (by
          show getItem (setItem "wallet_address" "0xabc" (setItem "office_name" "Treasury"
            (setItem "refresh_token" "refresh-n" (setItem "access_token" "access-n" w.storage))))
            "refresh_token" = some "refresh-n"
          rw [getItem_setItem_of_ne (by decide), getItem_setItem_of_ne (by decide),
            getItem_setItem_self])
        (by decide)
        (by show (w.fetches + 1 + 1) % 2 = 0; omega)
      have hcount : requestsTo "http://localhost:8000/balance"
          (w.trace
            ++ [.fetch (NASA.home.targetRequest (sampleEnv always401Net) "/balance" noOptions tok)]
            ++ [.fetch (NASA.home.refreshRequest (sampleEnv always401Net) r)])
          = requestsTo "http://localhost:8000/balance" w.trace + 1 := by
        rw [requestsTo_append, requestsTo_append]
        rfl
      rw [NASA.home.fetchLoop]
      simp only [NASA.home.maxRetries, Nat.zero_lt_succ, if_true, hstep]
      refine ⟨hnext.1, ?_⟩
      rw [hnext.2, hcount]
      omega
  have hcheck : NASA.home.checkAuth (sampleEnv always401Net) (sampleWorld futureToken)
      = (.str futureToken, sampleWorld futureToken) := by rfl
  have h := loop n (.str futureToken) (sampleWorld futureToken) "r0" (by rfl) (by decide)
    (by rfl)
  rw [NASA.home.fetchWithAuth, hcheck]
  simpa [futureToken, requestsTo, requests, sampleWorld] using h

/-! ## Transport failures in `fetchWithAuth` of `src/NASA/home.js` -/

theorem tryBlock_rejects (env : Env) (endpoint : String) (options : Options) (tok : JSValue)
    (w : World) (e : JSError) (h : env.net w.fetches = .rejects e) :
    NASA.home.tryBlock env endpoint options tok w
      = (.error e,
          { storage := w.storage, fetches := w.fetches + 1
            trace := w.trace ++ [.fetch (NASA.home.targetRequest env endpoint options tok)] }) := by
  simp [NASA.home.tryBlock, fetch, h]

theorem tryBlock_responds (env : Env) (endpoint : String) (options : Options) (tok : JSValue)
    (w : World) (r : Response) (h : env.net w.fetches = .responds r) (hs : r.status ≠ 401) :
    NASA.home.tryBlock env endpoint options tok w
      = (.ok (.done (.response r)),
          { storage := w.storage, fetches := w.fetches + 1
            trace := w.trace ++ [.fetch (NASA.home.targetRequest env endpoint options tok)] }) := by
  simp [NASA.home.tryBlock, fetch, h, hs]

theorem fetchLoop_responds (env : Env) (endpoint : String) (options : Options) (tok : JSValue)
    (fuel retryCount : Nat) (w : World) (r : Response) (hrc : retryCount < 3)
    (h : env.net w.fetches = .responds r) (hs : r.status ≠ 401) :
    NASA.home.fetchLoop env endpoint options (fuel + 1) tok retryCount w
      = (some (.ok (.response r)),
          { storage := w.storage, fetches := w.fetches + 1
            trace := w.trace ++ [.fetch (NASA.home.targetRequest env endpoint options tok)] }) := by
  rw [NASA.home.fetchLoop]
  simp [NASA.home.maxRetries, hrc, tryBlock_responds env endpoint options tok w r h hs]

theorem fetchLoop_rejects_retry (env : Env) (endpoint : String) (options : Options)
    (tok : JSValue) (fuel retryCount : Nat) (w : World) (e : JSError) (hrc : retryCount + 1 < 3)
    (h : env.net w.fetches = .rejects e) (hc : isNetworkError e = true) :
    NASA.home.fetchLoop env endpoint options (fuel + 1) tok retryCount w
      = NASA.home.fetchLoop env endpoint options fuel tok (retryCount + 1)
          { storage := w.storage, fetches := w.fetches + 1
            trace := w.trace ++
              [.fetch (NASA.home.targetRequest env endpoint options tok), .wait 1000] } := by
  have h1 : retryCount < 3 := by omega
  have h2 : retryCount ≠ 2 := by omega
  rw [NASA.home.fetchLoop]
  simp [NASA.home.maxRetries, h1, h2, hc, tryBlock_rejects env endpoint options tok w e h,
    World.emit]

theorem fetchLoop_rejects_last (env : Env) (endpoint : String) (options : Options)
    (tok : JSValue) (fuel : Nat) (w : World) (e : JSError)
    (h : env.net w.fetches = .rejects e) (hc : isNetworkError e = true) :
    NASA.home.fetchLoop env endpoint options (fuel + 1) tok 2 w
      = (some (.error ⟨"Error", networkLostMessage⟩),
          { storage := w.storage, fetches := w.fetches + 1
            trace := w.trace ++ [.fetch (NASA.home.targetRequest env endpoint options tok)] }) := by
  rw [NASA.home.fetchLoop]
  simp [NASA.home.maxRetries, hc, tryBlock_rejects env endpoint options tok w e h]

/-- C3: in `fetchWithAuth` of `src/NASA/home.js`, once `checkAuth` has produced a token, a first
target fetch that fails with a connectivity fault is retried after one wait of 1000 ms, and a
second such failure after one more wait of 1000 ms.  If attempt 2 (or attempt 3) is answered
with a status other than 401, that response is returned and no further fetch is made; if all
three attempts fail, the call throws the error `Network connection lost. Please check your
internet connection.` after exactly three fetches and two waits. -/
theorem C3_network_fault_retried_three_times (env : Env) (endpoint : String) (options : Options)
    (w w0 : World) (tok : JSValue) (fuel : Nat) (e1 : JSError)
    (hauth : NASA.home.checkAuth env w = (tok, w0)) (htok : tok.truthy = true)
    (hfuel : 3 ≤ fuel)
    (h1 : env.net w0.fetches = .rejects e1) (hc1 : isNetworkError e1 = true) :
    (∀ r, env.net (w0.fetches + 1) = .responds r → r.status ≠ 401 →
      NASA.home.fetchWithAuth env fuel endpoint options w
        = (some (.ok (.response r)),
            { storage := w0.storage, fetches := w0.fetches + 2
              trace := w0.trace ++
                [.fetch (NASA.home.targetRequest env endpoint options tok), .wait 1000,
                 .fetch (NASA.home.targetRequest env endpoint options tok)] }))
    ∧ (∀ e2, env.net (w0.fetches + 1) = .rejects e2 → isNetworkError e2 = true →
      (∀ r, env.net (w0.fetches + 2) = .responds r → r.status ≠ 401 →
        NASA.home.fetchWithAuth env fuel endpoint options w
          = (some (.ok (.response r)),
              { storage := w0.storage, fetches := w0.fetches + 3
                trace := w0.trace ++
                  [.fetch (NASA.home.targetRequest env endpoint options tok), .wait 1000,
                   .fetch (NASA.home.targetRequest env endpoint options tok), .wait 1000,
                   .fetch (NASA.home.targetRequest env endpoint options tok)] }))
      ∧ (∀ e3, env.net (w0.fetches + 2) = .rejects e3 → isNetworkError e3 = true →
        NASA.home.fetchWithAuth env fuel endpoint options w
          = (some (.error ⟨"Error",
              "Network connection lost. Please check your internet connection."⟩),
              { storage := w0.storage, fetches := w0.fetches + 3
                trace := w0.trace ++
                  [.fetch (NASA.home.targetRequest env endpoint options tok), .wait 1000,
                   .fetch (NASA.home.targetRequest env endpoint options tok), .wait 1000,
                   .fetch (NASA.home.targetRequest env endpoint options tok)] }))) := by
  obtain ⟨k, rfl⟩ := Nat.exists_eq_add_of_le hfuel
  have hk : 3 + k = k + 1 + 1 + 1 := by omega
  have hstart : NASA.home.fetchWithAuth env (k + 1 + 1 + 1) endpoint options w
      = NASA.home.fetchLoop env endpoint options (k + 1 + 1 + 1) tok 0 w0 := by
    simp [NASA.home.fetchWithAuth, hauth, htok]
  rw [hk, hstart, fetchLoop_rejects_retry env endpoint options tok _ 0 w0 e1 (by omega) h1 hc1]
  refine ⟨?_, ?_⟩
  · intro r h2 hs
    rw [fetchLoop_responds env endpoint options tok _ 1 _ r (by omega) h2 hs]
    simp
  · intro e2 h2 hc2
    rw [fetchLoop_rejects_retry env endpoint options tok _ 1 _ e2 (by omega) h2 hc2]
    refine ⟨?_, ?_⟩
    · intro r h3 hs
      rw [fetchLoop_responds env endpoint options tok _ 2 _ r (by omega) h3 hs]
      simp
    · intro e3 h3 hc3
      rw [fetchLoop_rejects_last env endpoint options tok _ _ e3 h3 hc3]
      simp [networkLostMessage]

theorem C3_network_fault_retried_three_times_witness :
    NASA.home.fetchWithAuth (sampleEnv downNet) 3 "/balance" noOptions (sampleWorld futureToken)
      = (some (.error ⟨"Error",
              "Network connection lost. Please check your internet connection."⟩),
          { storage := (sampleWorld futureToken).storage, fetches := 3
            trace :=
              [.fetch (NASA.home.targetRequest (sampleEnv downNet) "/balance" noOptions
                  (.str futureToken)), .wait 1000,
               .fetch (NASA.home.targetRequest (sampleEnv downNet) "/balance" noOptions
                  (.str futureToken)), .wait 1000,
               .fetch (NASA.home.targetRequest (sampleEnv downNet) "/balance" noOptions
                  (.str futureToken))] })
    ∧ NASA.home.fetchWithAuth (sampleEnv flakyNet) 3 "/balance" noOptions (sampleWorld futureToken)
      = (some (.ok (.response balanceReply)),
          { storage := (sampleWorld futureToken).storage, fetches := 2
            trace :=
              [.fetch (NASA.home.targetRequest (sampleEnv flakyNet) "/balance" noOptions
                  (.str futureToken)), .wait 1000,
               .fetch (NASA.home.targetRequest (sampleEnv flakyNet) "/balance" noOptions
                  (.str futureToken))] }) :=
  ⟨((C3_network_fault_retried_three_times (sampleEnv downNet) "/balance" noOptions
      (sampleWorld futureToken) (sampleWorld futureToken) (.str futureToken) 3 networkError
      (by rfl) (by rfl) (by decide) (by rfl) (by rfl)).2 networkError (by rfl) (by rfl)).2
      networkError (by rfl) (by rfl),
   (C3_network_fault_retried_three_times (sampleEnv flakyNet) "/balance" noOptions
      (sampleWorld futureToken) (sampleWorld futureToken) (.str futureToken) 3 networkError
      (by rfl) (by rfl) (by decide) (by rfl) (by rfl)).1 balanceReply (by rfl) (by decide)⟩

/-! ## `checkAuth` -/

theorem split_empty (sep : Char) : split "" sep = [""] := by
  rfl

/-- A token that splits into three segments is not the empty string. -/
theorem ne_empty_of_split {tok a b c : String} (h : split tok '.' = [a, b, c]) : tok ≠ "" := by
  intro he
  rw [he, split_empty] at h
  simp at h

/-- The path of `checkAuth` (`src/NASA/home.js`) for a token whose payload decodes and whose
`exp` can be read. -/
theorem NASA_checkAuth_decoded (env : Env) (w : World) (tok a middle c txt : String)
    (payload exp : JSValue)
    (hget : getItem w.storage "access_token" = some tok)
    (hsplit : split tok '.' = [a, middle, c])
    (hatob : env.atob middle = some txt) (hparse : env.jsonParse txt = some payload)
    (hexp : payload.getProp "exp" = .ok exp) :
    NASA.home.checkAuth env w
      = if exp.truthy && lessThan env exp (currentTime env) then
          match NASA.home.refreshToken env w with
          | (.ok newAccessToken, w1) => (newAccessToken, w1)
          | (.error _, w1) => NASA.home.checkAuthCatch env w1
        else (.str tok, w) := by
  have hne := ne_empty_of_split hsplit
  simp [NASA.home.checkAuth, hget, hne, hsplit, hatob, hparse, hexp]

/-- The path of `checkAuth` (`src/Web3/pages/home.js`) for a token whose payload decodes and
whose `exp` can be read. -/
theorem Web3_checkAuth_decoded (env : Env) (w : World) (tok a middle c txt : String)
    (payload exp : JSValue)
    (hget : getItem w.storage "access_token" = some tok)
    (hsplit : split tok '.' = [a, middle, c])
    (hatob : env.atob middle = some txt) (hparse : env.jsonParse txt = some payload)
    (hexp : payload.getProp "exp" = .ok exp) :
    Web3.home.checkAuth env w
      = if exp.truthy && lessThan env exp (currentTime env) then
          match Web3.home.refreshToken env w with
          | (.ok newAccessToken, w1) => (newAccessToken, w1)
          | (.error _, w1) => Web3.home.checkAuthCatch w1
        else (.str tok, w) := by
  have hne := ne_empty_of_split hsplit
  simp [Web3.home.checkAuth, hget, hne, hsplit, hatob, hparse, hexp]

/-- C4 (code at the failing input): at epoch second 1700000000 a stored token whose payload is
the object with `exp` 0 is long expired, yet `checkAuth` of both pages returns that very token,
sends nothing and leaves the world as it was, because the test `payload.exp && ...` takes the
number 0 for a missing field.  With `exp` 1 the same call does go to `/refresh-token`. -/
theorem C4_exp_zero_is_not_refreshed :
    (0 : Int) < currentTime (sampleEnv downNet)
    ∧ NASA.home.checkAuth (sampleEnv downNet) (sampleWorld zeroToken)
        = (.str zeroToken, sampleWorld zeroToken)
    ∧ Web3.home.checkAuth (sampleEnv downNet) (sampleWorld zeroToken)
        = (.str zeroToken, sampleWorld zeroToken)
    ∧ requestsTo "http://localhost:8000/refresh-token"
        (NASA.home.checkAuth (sampleEnv downNet) (sampleWorld pastToken)).2.trace = 1
    ∧ requestsTo "http://127.0.0.1:8000/refresh-token"
        (Web3.home.checkAuth (sampleEnv downNet) (sampleWorld pastToken)).2.trace = 1 := by
  refine ⟨by decide, by rfl, by rfl, by rfl, by rfl⟩

/-- C5: for every stored access token of three segments whose middle segment decodes to an
object with a numeric `exp` strictly greater than the current epoch second, `checkAuth` of both
pages returns exactly the stored token and leaves the world untouched: no request is sent (the
request counter and the trace are unchanged) and storage is unchanged. -/
theorem C5_unexpired_token_returned_unchanged (env : Env) (w : World)
    (tok a middle c txt : String) (fields : List (String × JSValue)) (e : Int)
    (hget : getItem w.storage "access_token" = some tok)
    (hsplit : split tok '.' = [a, middle, c])
    (hatob : env.atob middle = some txt)
    (hparse : env.jsonParse txt = some (.obj fields))
    (hexp : fields.lookup "exp" = some (.num e))
    (hfuture : currentTime env < e) :
    NASA.home.checkAuth env w = (.str tok, w) ∧ Web3.home.checkAuth env w = (.str tok, w) := by
  have hprop : (JSValue.obj fields).getProp "exp" = .ok (.num e) := by
    simp [JSValue.getProp, hexp]
  have hlt : lessThan env (.num e) (currentTime env) = false := by
    simp [lessThan, toNumber]
    omega
  constructor
  · rw [NASA_checkAuth_decoded env w tok a middle c txt _ _ hget hsplit hatob hparse hprop]
    simp [hlt]
  · rw [Web3_checkAuth_decoded env w tok a middle c txt _ _ hget hsplit hatob hparse hprop]
    simp [hlt]

theorem C5_unexpired_token_returned_unchanged_witness :
    NASA.home.checkAuth (sampleEnv downNet) (sampleWorld futureToken)
        = (.str futureToken, sampleWorld futureToken)
    ∧ Web3.home.checkAuth (sampleEnv downNet) (sampleWorld futureToken)
        = (.str futureToken, sampleWorld futureToken) :=
  C5_unexpired_token_returned_unchanged (sampleEnv downNet) (sampleWorld futureToken)
    futureToken "eyJhbGciOiJIUzI1NiJ9" "eyJleHAiOjk5OTk5OTk5OTl9" "sig"
    "\x7b\"exp\":9999999999\x7d" [("exp", .num 9999999999)] 9999999999
    (by rfl) (by rfl) (by rfl) (by rfl) (by rfl) (by decide)

/-- An expired token with a non-zero `exp`: `checkAuth` of `src/NASA/home.js` hands over to
`refreshToken`, once, and answers with what the refresh produced (`null` when it threw). -/
theorem NASA_checkAuth_expired (env : Env) (w : World) (tok a middle c txt : String)
    (fields : List (String × JSValue)) (e : Int)
    (hget : getItem w.storage "access_token" = some tok)
    (hsplit : split tok '.' = [a, middle, c])
    (hatob : env.atob middle = some txt)
    (hparse : env.jsonParse txt = some (.obj fields))
    (hexp : fields.lookup "exp" = some (.num e))
    (hnz : e ≠ 0) (hpast : e < currentTime env) :
    NASA.home.checkAuth env w
      = match NASA.home.refreshToken env w with
        | (.ok newAccessToken, w1) => (newAccessToken, w1)
        | (.error _, w1) => NASA.home.checkAuthCatch env w1 := by
  have hprop : (JSValue.obj fields).getProp "exp" = .ok (.num e) := by
    simp [JSValue.getProp, hexp]
  rw [NASA_checkAuth_decoded env w tok a middle c txt _ _ hget hsplit hatob hparse hprop]
  simp [lessThan, toNumber, JSValue.truthy, hnz, hpast]

/-- The same for `checkAuth` of `src/Web3/pages/home.js`. -/
theorem Web3_checkAuth_expired (env : Env) (w : World) (tok a middle c txt : String)
    (fields : List (String × JSValue)) (e : Int)
    (hget : getItem w.storage "access_token" = some tok)
    (hsplit : split tok '.' = [a, middle, c])
    (hatob : env.atob middle = some txt)
    (hparse : env.jsonParse txt = some (.obj fields))
    (hexp : fields.lookup "exp" = some (.num e))
    (hnz : e ≠ 0) (hpast : e < currentTime env) :
    Web3.home.checkAuth env w
      = match Web3.home.refreshToken env w with
        | (.ok newAccessToken, w1) => (newAccessToken, w1)
        | (.error _, w1) => Web3.home.checkAuthCatch w1 := by
  have hprop : (JSValue.obj fields).getProp "exp" = .ok (.num e) := by
    simp [JSValue.getProp, hexp]
  rw [Web3_checkAuth_decoded env w tok a middle c txt _ _ hget hsplit hatob hparse hprop]
  simp [lessThan, toNumber, JSValue.truthy, hnz, hpast]

/-- The malformed-token path of `checkAuth` in `src/NASA/home.js`. -/
theorem NASA_checkAuth_malformed (env : Env) (w : World) (tok : String)
    (hget : getItem w.storage "access_token" = some tok) (hne : tok ≠ "")
    (hmal : (split tok '.').length ≠ 3
      ∨ ∃ a middle c, split tok '.' = [a, middle, c]
          ∧ (env.atob middle = none
            ∨ ∃ txt, env.atob middle = some txt ∧ env.jsonParse txt = none)) :
    NASA.home.checkAuth env w
      = (.null,
          { storage := removeItem "access_token" w.storage, fetches := w.fetches
            trace := w.trace ++ [.redirect (beforeLast '/' env.pathname ++ "/login.html")] }) := by
  rcases hmal with hlen | ⟨a, middle, c, hsplit, hdec⟩
  · rcases hs : split tok '.' with _ | ⟨p1, _ | ⟨p2, _ | ⟨p3, _ | ⟨p4, rest⟩⟩⟩⟩ <;>
      simp [hs] at hlen <;>
      simp [NASA.home.checkAuth, hget, hne, hs, NASA.home.navigateToLogin, World.emit,
        World.withStorage]
  · rcases hdec with hatob | ⟨txt, hatob, hparse⟩
    · simp [NASA.home.checkAuth, hget, hne, hsplit, hatob, NASA.home.checkAuthCatch,
        NASA.home.navigateToLogin, World.emit, World.withStorage]
    · simp [NASA.home.checkAuth, hget, hne, hsplit, hatob, hparse, NASA.home.checkAuthCatch,
        NASA.home.navigateToLogin, World.emit, World.withStorage]

/-- The malformed-token path of `checkAuth` in `src/Web3/pages/home.js`. -/
theorem Web3_checkAuth_malformed (env : Env) (w : World) (tok : String)
    (hget : getItem w.storage "access_token" = some tok) (hne : tok ≠ "")
    (hmal : (split tok '.').length ≠ 3
      ∨ ∃ a middle c, split tok '.' = [a, middle, c]
          ∧ (env.atob middle = none
            ∨ ∃ txt, env.atob middle = some txt ∧ env.jsonParse txt = none)) :
    Web3.home.checkAuth env w
      = (.null,
          { storage := removeItem "access_token" w.storage, fetches := w.fetches
            trace := w.trace ++ [.redirect "/login.html"] }) := by
  rcases hmal with hlen | ⟨a, middle, c, hsplit, hdec⟩
  · rcases hs : split tok '.' with _ | ⟨p1, _ | ⟨p2, _ | ⟨p3, _ | ⟨p4, rest⟩⟩⟩⟩ <;>
      simp [hs] at hlen <;>
      simp [Web3.home.checkAuth, hget, hne, hs, World.emit, World.withStorage]
  · rcases hdec with hatob | ⟨txt, hatob, hparse⟩
    · simp [Web3.home.checkAuth, hget, hne, hsplit, hatob, Web3.home.checkAuthCatch,
        World.emit, World.withStorage]
    · simp [Web3.home.checkAuth, hget, hne, hsplit, hatob, hparse, Web3.home.checkAuthCatch,
        World.emit, World.withStorage]

/-- C6 (counterexample): the stored token `garbage` has one segment, and after `checkAuth`
of either page the refresh token, the office name and the wallet address are still in
storage. -/
theorem C6_malformed_token_keeps_other_fields :
    (split "garbage" '.').length ≠ 3
    ∧ getItem (NASA.home.checkAuth (sampleEnv downNet) (sampleWorld "garbage")).2.storage
        "refresh_token" = some "r0"
    ∧ getItem (NASA.home.checkAuth (sampleEnv downNet) (sampleWorld "garbage")).2.storage
        "office_name" = some "Treasury"
    ∧ getItem (NASA.home.checkAuth (sampleEnv downNet) (sampleWorld "garbage")).2.storage
        "wallet_address" = some "0xabc"
    ∧ getItem (Web3.home.checkAuth (sampleEnv downNet) (sampleWorld "garbage")).2.storage
        "refresh_token" = some "r0" := by
  refine ⟨by decide, by rfl, by rfl, by rfl, by rfl⟩

/-- C6 (amended): for every non-empty stored access token that is malformed (it does not split
into exactly three segments on `.`, or its middle segment is not base64-decodable, or the
decoded text is not valid JSON), `checkAuth` of both pages returns `null`, sends no request
(the request counter is unchanged and the only new event is the redirect to the login page),
and removes `access_token` from storage while every other key keeps its value. -/
theorem C6_malformed_token_removes_access_token_only (env : Env) (w : World) (tok : String)
    (hget : getItem w.storage "access_token" = some tok) (hne : tok ≠ "")
    (hmal : (split tok '.').length ≠ 3
      ∨ ∃ a middle c, split tok '.' = [a, middle, c]
          ∧ (env.atob middle = none
            ∨ ∃ txt, env.atob middle = some txt ∧ env.jsonParse txt = none)) :
    NASA.home.checkAuth env w
        = (.null,
            { storage := removeItem "access_token" w.storage, fetches := w.fetches
              trace := w.trace ++ [.redirect (beforeLast '/' env.pathname ++ "/login.html")] })
    ∧ Web3.home.checkAuth env w
        = (.null,
            { storage := removeItem "access_token" w.storage, fetches := w.fetches
              trace := w.trace ++ [.redirect "/login.html"] })
    ∧ getItem (removeItem "access_token" w.storage) "access_token" = none
    ∧ ∀ k, k ≠ "access_token" →
        getItem (removeItem "access_token" w.storage) k = getItem w.storage k :=
  ⟨NASA_checkAuth_malformed env w tok hget hne hmal,
    Web3_checkAuth_malformed env w tok hget hne hmal,
    getItem_removeItem_self _ _,
    fun _ hk => getItem_removeItem_of_ne hk _⟩

theorem C6_malformed_token_removes_access_token_only_witness :
    NASA.home.checkAuth (sampleEnv downNet) (sampleWorld "a.!!!.c")
        = (.null,
            { storage := removeItem "access_token" (sampleWorld "a.!!!.c").storage, fetches := 0
              trace := [.redirect "/NASA/login.html"] })
    ∧ Web3.home.checkAuth (sampleEnv downNet) (sampleWorld "a.!!!.c")
        = (.null,
            { storage := removeItem "access_token" (sampleWorld "a.!!!.c").storage, fetches := 0
              trace := [.redirect "/login.html"] }) :=
  ⟨(C6_malformed_token_removes_access_token_only (sampleEnv downNet) (sampleWorld "a.!!!.c")
      "a.!!!.c" (by rfl) (by decide)
      (Or.inr ⟨"a", "!!!", "c", by rfl, Or.inl (by rfl)⟩)).1,
   (C6_malformed_token_removes_access_token_only (sampleEnv downNet) (sampleWorld "a.!!!.c")
      "a.!!!.c" (by rfl) (by decide)
      (Or.inr ⟨"a", "!!!", "c", by rfl, Or.inl (by rfl)⟩)).2.1⟩

/-! ## `refreshToken` -/

/-- The storage after the four `setItem` calls of a successful refresh. -/
theorem getItem_after_refresh (a r o wa : String) (st : Storage) :
    getItem (setItem "wallet_address" wa (setItem "office_name" o
        (setItem "refresh_token" r (setItem "access_token" a st)))) "access_token" = some a
    ∧ getItem (setItem "wallet_address" wa (setItem "office_name" o
        (setItem "refresh_token" r (setItem "access_token" a st)))) "refresh_token" = some r
    ∧ getItem (setItem "wallet_address" wa (setItem "office_name" o
        (setItem "refresh_token" r (setItem "access_token" a st)))) "office_name" = some o
    ∧ getItem (setItem "wallet_address" wa (setItem "office_name" o
        (setItem "refresh_token" r (setItem "access_token" a st)))) "wallet_address" = some wa := by
  refine ⟨?_, ?_, ?_, ?_⟩
  · rw [getItem_setItem_of_ne (by decide), getItem_setItem_of_ne (by decide),
      getItem_setItem_of_ne (by decide), getItem_setItem_self]
  · rw [getItem_setItem_of_ne (by decide), getItem_setItem_of_ne (by decide),
      getItem_setItem_self]
  · rw [getItem_setItem_of_ne (by decide), getItem_setItem_self]
  · rw [getItem_setItem_self]

/-- Whatever `refreshToken` of `src/NASA/home.js` throws, the four fields are gone. -/
theorem NASA_refreshToken_throw_clears (env : Env) (w : World) (e : JSError)
    (h : (NASA.home.refreshToken env w).1 = .error e) :
    ∀ k ∈ credentialKeys, getItem (NASA.home.refreshToken env w).2.storage k = none := by
  intro k hk
  unfold NASA.home.refreshToken at h ⊢
  cases hr : getItem w.storage "refresh_token" with
  | none => simp [hr] at h
  | some r =>
    by_cases hne : r = ""
    · simp [hr, hne] at h
    · simp only [hr, hne, if_false] at h ⊢
      rcases hrt : NASA.home.refreshTry (fetch env (NASA.home.refreshRequest env r) w).1
          (fetch env (NASA.home.refreshRequest env r) w).2.storage with ⟨res, st⟩
      cases res with
      | ok v => simp [hrt] at h
      | error err =>
        simp only [hrt]
        exact getItem_removeCredentials hk st

/-- Whatever `refreshToken` of `src/Web3/pages/home.js` throws, the four fields are gone. -/
theorem Web3_refreshToken_throw_clears (env : Env) (w : World) (e : JSError)
    (h : (Web3.home.refreshToken env w).1 = .error e) :
    ∀ k ∈ credentialKeys, getItem (Web3.home.refreshToken env w).2.storage k = none := by
  intro k hk
  unfold Web3.home.refreshToken at h ⊢
  cases hr : getItem w.storage "refresh_token" with
  | none => simp [hr] at h
  | some r =>
    by_cases hne : r = ""
    · simp [hr, hne] at h
    · simp only [hr, hne, if_false] at h ⊢
      rcases hrt : Web3.home.refreshTry (fetch env (Web3.home.refreshRequest r) w).1
          (fetch env (Web3.home.refreshRequest r) w).2.storage with ⟨res, st⟩
      cases res with
      | ok v => simp [hrt] at h
      | error err =>
        simp only [hrt]
        exact getItem_removeCredentials hk st

/-- Whatever the utility `refreshToken` of `src/NASA/login.js` throws, the four fields are
gone. -/
theorem login_refreshToken_throw_clears (env : Env) (w : World) (e : JSError)
    (h : (NASA.login.refreshToken env w).1 = .error e) :
    ∀ k ∈ credentialKeys, getItem (NASA.login.refreshToken env w).2.storage k = none := by
  intro k hk
  unfold NASA.login.refreshToken at h ⊢
  rcases hrt : NASA.login.refreshTry
      (fetch env (NASA.login.refreshRequest (getItem w.storage "refresh_token")) w).1
      (fetch env (NASA.login.refreshRequest (getItem w.storage "refresh_token")) w).2.storage
    with ⟨res, st⟩
  cases res with
  | ok v => simp [hrt] at h
  | error err =>
    simp only [hrt]
    exact getItem_removeCredentials hk st

/-- A property read on a value other than `null` and `undefined` does not throw. -/
theorem getProp_of_defined (data : JSValue) (h1 : data ≠ .null) (h2 : data ≠ .undefined)
    (k : String) : data.getProp k = .ok (data.getPropOptional k) := by
  cases data with
  | null => exact absurd rfl h1
  | undefined => exact absurd rfl h2
  | obj fields => rfl
  | bool b => rfl
  | num n => rfl
  | str s => rfl
  | arr items => rfl

/-- C7 (counterexample): with the refresh token `r0` stored and a refresh endpoint that answers
200 with the JSON body `null`, `refreshToken` of both pages does not return: it throws the
`TypeError` of reading `data.access_token`, and afterwards none of the four persisted fields
holds anything, so none was replaced by a field of the body. -/
theorem C7_null_body_clears_credentials :
    getItem (sampleWorld pastToken).storage "refresh_token" = some "r0"
    ∧ nullBodyNet 0 = .responds { status := 200, json := .ok .null }
    ∧ (NASA.home.refreshToken (sampleEnv nullBodyNet) (sampleWorld pastToken)).1
        = .error ⟨"TypeError", "Cannot read properties of null"⟩
    ∧ (credentialKeys.map
        (getItem (NASA.home.refreshToken (sampleEnv nullBodyNet)
          (sampleWorld pastToken)).2.storage)) = [none, none, none, none]
    ∧ (Web3.home.refreshToken (sampleEnv nullBodyNet) (sampleWorld pastToken)).1
        = .error ⟨"TypeError", "Cannot read properties of null"⟩
    ∧ (credentialKeys.map
        (getItem (Web3.home.refreshToken (sampleEnv nullBodyNet)
          (sampleWorld pastToken)).2.storage)) = [none, none, none, none] := by
  refine ⟨by rfl, by rfl, by rfl, by rfl, by rfl, by rfl⟩

/-- C7 (amended): for `refreshToken` of `src/NASA/home.js` and of `src/Web3/pages/home.js`,
whenever a non-empty refresh token is stored and the refresh endpoint answers with a 2xx status
and a JSON body.  If the body is not `null`, the function returns the body's `access_token` and
afterwards each of the four persisted fields `access_token`, `refresh_token`, `office_name`,
`wallet_address` holds the string form of the body's field of the same name (`undefined` for a
field the body lacks), whatever it held before.  If the body is `null`, the function throws a
`TypeError` and the four fields are removed. -/
theorem C7_refresh_success_replaces_all_four (env : Env) (w : World) (r : String)
    (resp : Response) (data : JSValue)
    (hr : getItem w.storage "refresh_token" = some r) (hne : r ≠ "")
    (hnet : env.net w.fetches = .responds resp) (hok : resp.ok = true)
    (hjson : resp.json = .ok data) :
    (data ≠ .null → data ≠ .undefined →
      ((∃ a, data.getProp "access_token" = .ok a ∧ (NASA.home.refreshToken env w).1 = .ok a)
        ∧ ∀ k ∈ credentialKeys, ∃ v, data.getProp k = .ok v
            ∧ getItem (NASA.home.refreshToken env w).2.storage k = some v.toStr)
      ∧ ((∃ a, data.getProp "access_token" = .ok a ∧ (Web3.home.refreshToken env w).1 = .ok a)
        ∧ ∀ k ∈ credentialKeys, ∃ v, data.getProp k = .ok v
            ∧ getItem (Web3.home.refreshToken env w).2.storage k = some v.toStr))
    ∧ (data = .null →
      ((NASA.home.refreshToken env w).1 = .error ⟨"TypeError", "Cannot read properties of null"⟩
        ∧ ∀ k ∈ credentialKeys, getItem (NASA.home.refreshToken env w).2.storage k = none)
      ∧ ((Web3.home.refreshToken env w).1
          = .error ⟨"TypeError", "Cannot read properties of null"⟩
        ∧ ∀ k ∈ credentialKeys, getItem (Web3.home.refreshToken env w).2.storage k = none)) := by
  refine ⟨?_, ?_⟩
  · intro hnull hundef
    have hget := getProp_of_defined data hnull hundef
    have hkeys := getItem_after_refresh
      (data.getPropOptional "access_token").toStr
      (data.getPropOptional "refresh_token").toStr
      (data.getPropOptional "office_name").toStr
      (data.getPropOptional "wallet_address").toStr w.storage
    obtain ⟨h1, h2, h3, h4⟩ := hkeys
    constructor
    · have hrun : NASA.home.refreshToken env w
          = (.ok (data.getPropOptional "access_token"),
              { storage := setItem "wallet_address"
                  (data.getPropOptional "wallet_address").toStr
                  (setItem "office_name" (data.getPropOptional "office_name").toStr
                    (setItem "refresh_token" (data.getPropOptional "refresh_token").toStr
                      (setItem "access_token"
                        (data.getPropOptional "access_token").toStr w.storage)))
                fetches := w.fetches + 1
                trace := w.trace ++ [.fetch (NASA.home.refreshRequest env r)] }) := by
        simp [NASA.home.refreshToken, hr, hne, fetch, hnet, NASA.home.refreshTry, hjson, hok,
          hget, World.withStorage]
      rw [hrun]
      refine ⟨⟨_, hget "access_token", rfl⟩, ?_⟩
      intro k hk
      refine ⟨_, hget k, ?_⟩
      simp only [credentialKeys, List.mem_cons, List.mem_singleton, List.not_mem_nil,
        or_false] at hk
      rcases hk with rfl | rfl | rfl | rfl
      · exact h1
      · exact h2
      · exact h3
      · exact h4
    · have hrun : Web3.home.refreshToken env w
          = (.ok (data.getPropOptional "access_token"),
              { storage := setItem "wallet_address"
                  (data.getPropOptional "wallet_address").toStr
                  (setItem "office_name" (data.getPropOptional "office_name").toStr
                    (setItem "refresh_token" (data.getPropOptional "refresh_token").toStr
                      (setItem "access_token"
                        (data.getPropOptional "access_token").toStr w.storage)))
                fetches := w.fetches + 1
                trace := w.trace ++ [.fetch (Web3.home.refreshRequest r)] }) := by
        simp [Web3.home.refreshToken, hr, hne, fetch, hnet, Web3.home.refreshTry, hjson, hok,
          hget, World.withStorage]
      rw [hrun]
      refine ⟨⟨_, hget "access_token", rfl⟩, ?_⟩
      intro k hk
      refine ⟨_, hget k, ?_⟩
      simp only [credentialKeys, List.mem_cons, List.mem_singleton, List.not_mem_nil,
        or_false] at hk
      rcases hk with rfl | rfl | rfl | rfl
      · exact h1
      · exact h2
      · exact h3
      · exact h4
  · intro hnull
    subst hnull
    constructor
    · have hrun : NASA.home.refreshToken env w
          = (.error ⟨"TypeError", "Cannot read properties of null"⟩,
              { storage := removeCredentials w.storage
                fetches := w.fetches + 1
                trace := w.trace ++ [.fetch (NASA.home.refreshRequest env r),
                  .redirect "/login.html"] }) := by
        simp [NASA.home.refreshToken, hr, hne, fetch, hnet, NASA.home.refreshTry, hjson, hok,
          JSValue.getProp, World.withStorage, World.emit]
      rw [hrun]
      exact ⟨rfl, fun k hk => getItem_removeCredentials hk _⟩
    · have hthrow : (Web3.home.refreshToken env w).1
          = .error ⟨"TypeError", "Cannot read properties of null"⟩ := by
        simp [Web3.home.refreshToken, hr, hne, fetch, hnet, Web3.home.refreshTry, hjson, hok,
          JSValue.getProp]
      exact ⟨hthrow, Web3_refreshToken_throw_clears env w _ hthrow⟩

theorem C7_refresh_success_replaces_all_four_witness :
    ((∃ a, (refreshedBody "1").getProp "access_token" = .ok a
        ∧ (NASA.home.refreshToken (sampleEnv refreshOkNet) (sampleWorld pastToken)).1 = .ok a)
      ∧ ∀ k ∈ credentialKeys, ∃ v, (refreshedBody "1").getProp k = .ok v
          ∧ getItem (NASA.home.refreshToken (sampleEnv refreshOkNet)
              (sampleWorld pastToken)).2.storage k = some v.toStr)
    ∧ (NASA.home.refreshToken (sampleEnv nullBodyNet) (sampleWorld pastToken)).1
        = .error ⟨"TypeError", "Cannot read properties of null"⟩ :=
  ⟨((C7_refresh_success_replaces_all_four (sampleEnv refreshOkNet) (sampleWorld pastToken) "r0"
      { status := 200, json := .ok (refreshedBody "1") } (refreshedBody "1")
      (by rfl) (by decide) (by rfl) (by rfl) (by rfl)).1
      (by simp [refreshedBody]) (by simp [refreshedBody])).1,
   ((C7_refresh_success_replaces_all_four (sampleEnv nullBodyNet) (sampleWorld pastToken) "r0"
      { status := 200, json := .ok .null } .null
      (by rfl) (by decide) (by rfl) (by rfl) (by rfl)).2 rfl).1.1⟩

theorem NASA_refreshToken_fails (env : Env) (w : World) (r : String)
    (hr : getItem w.storage "refresh_token" = some r) (hne : r ≠ "")
    (hfail : (∃ e, env.net w.fetches = .rejects e)
      ∨ ∃ resp, env.net w.fetches = .responds resp ∧ resp.ok = false) :
    ∃ e, (NASA.home.refreshToken env w).1 = .error e := by
  rcases hfail with ⟨e, hnet⟩ | ⟨resp, hnet, hok⟩
  · exact ⟨e, by simp [NASA.home.refreshToken, hr, hne, fetch, hnet, NASA.home.refreshTry]⟩
  · cases hj : resp.json with
    | error e =>
      exact ⟨e, by simp [NASA.home.refreshToken, hr, hne, fetch, hnet, NASA.home.refreshTry, hj]⟩
    | ok data =>
      cases hd : data.getProp "detail" with
      | error e =>
        exact ⟨e, by
          simp [NASA.home.refreshToken, hr, hne, fetch, hnet, NASA.home.refreshTry, hj, hok, hd]⟩
      | ok detail =>
        exact ⟨⟨"Error", if detail.truthy then detail.toStr else "Token refresh failed"⟩, by
          simp [NASA.home.refreshToken, hr, hne, fetch, hnet, NASA.home.refreshTry, hj, hok, hd]⟩

theorem Web3_refreshToken_fails (env : Env) (w : World) (r : String)
    (hr : getItem w.storage "refresh_token" = some r) (hne : r ≠ "")
    (hfail : (∃ e, env.net w.fetches = .rejects e)
      ∨ ∃ resp, env.net w.fetches = .responds resp ∧ resp.ok = false) :
    ∃ e, (Web3.home.refreshToken env w).1 = .error e := by
  rcases hfail with ⟨e, hnet⟩ | ⟨resp, hnet, hok⟩
  · exact ⟨e, by simp [Web3.home.refreshToken, hr, hne, fetch, hnet, Web3.home.refreshTry]⟩
  · cases hj : resp.json with
    | error e =>
      exact ⟨e, by simp [Web3.home.refreshToken, hr, hne, fetch, hnet, Web3.home.refreshTry, hj]⟩
    | ok data =>
      cases hd : data.getProp "detail" with
      | error e =>
        exact ⟨e, by
          simp [Web3.home.refreshToken, hr, hne, fetch, hnet, Web3.home.refreshTry, hj, hok, hd]⟩
      | ok detail =>
        exact ⟨⟨"Error", if detail.truthy then detail.toStr else "Token refresh failed"⟩, by
          simp [Web3.home.refreshToken, hr, hne, fetch, hnet, Web3.home.refreshTry, hj, hok, hd]⟩

theorem login_refreshToken_fails (env : Env) (w : World)
    (hfail : (∃ e, env.net w.fetches = .rejects e)
      ∨ ∃ resp, env.net w.fetches = .responds resp ∧ resp.ok = false) :
    ∃ e, (NASA.login.refreshToken env w).1 = .error e := by
  rcases hfail with ⟨e, hnet⟩ | ⟨resp, hnet, hok⟩
  · exact ⟨e, by simp [NASA.login.refreshToken, fetch, hnet, NASA.login.refreshTry]⟩
  · cases hj : resp.json with
    | error e =>
      exact ⟨e, by simp [NASA.login.refreshToken, fetch, hnet, NASA.login.refreshTry, hj]⟩
    | ok data =>
      exact ⟨⟨"Error", "Token refresh failed"⟩, by
        simp [NASA.login.refreshToken, fetch, hnet, NASA.login.refreshTry, hj, hok]⟩

/-- C8: for each of the three `refreshToken` functions, whenever the refresh request is sent
(in the two `home.js` files: a non-empty refresh token is stored; in `login.js`: always) and
fails, either because `fetch` rejects or because the endpoint answers with a status outside
200-299, the function throws and afterwards none of `access_token`, `refresh_token`,
`office_name`, `wallet_address` is in storage - the same for both kinds of failure. -/
theorem C8_refresh_failure_clears_and_throws (env : Env) (w : World)
    (hfail : (∃ e, env.net w.fetches = .rejects e)
      ∨ ∃ resp, env.net w.fetches = .responds resp ∧ resp.ok = false) :
    (∀ r, getItem w.storage "refresh_token" = some r → r ≠ "" →
      (∃ e, (NASA.home.refreshToken env w).1 = .error e)
      ∧ ∀ k ∈ credentialKeys, getItem (NASA.home.refreshToken env w).2.storage k = none)
    ∧ (∀ r, getItem w.storage "refresh_token" = some r → r ≠ "" →
      (∃ e, (Web3.home.refreshToken env w).1 = .error e)
      ∧ ∀ k ∈ credentialKeys, getItem (Web3.home.refreshToken env w).2.storage k = none)
    ∧ ((∃ e, (NASA.login.refreshToken env w).1 = .error e)
      ∧ ∀ k ∈ credentialKeys, getItem (NASA.login.refreshToken env w).2.storage k = none) := by
  refine ⟨?_, ?_, ?_⟩
  · intro r hr hne
    obtain ⟨e, he⟩ := NASA_refreshToken_fails env w r hr hne hfail
    exact ⟨⟨e, he⟩, NASA_refreshToken_throw_clears env w e he⟩
  · intro r hr hne
    obtain ⟨e, he⟩ := Web3_refreshToken_fails env w r hr hne hfail
    exact ⟨⟨e, he⟩, Web3_refreshToken_throw_clears env w e he⟩
  · obtain ⟨e, he⟩ := login_refreshToken_fails env w hfail
    exact ⟨⟨e, he⟩, login_refreshToken_throw_clears env w e he⟩

theorem C8_refresh_failure_clears_and_throws_witness :
    ((∃ e, (NASA.home.refreshToken (sampleEnv downNet) (sampleWorld pastToken)).1 = .error e)
      ∧ ∀ k ∈ credentialKeys,
          getItem (NASA.home.refreshToken (sampleEnv downNet) (sampleWorld pastToken)).2.storage k
            = none)
    ∧ ((∃ e, (NASA.login.refreshToken (sampleEnv rejectingNet) (sampleWorld pastToken)).1
          = .error e)
      ∧ ∀ k ∈ credentialKeys,
          getItem
            (NASA.login.refreshToken (sampleEnv rejectingNet) (sampleWorld pastToken)).2.storage k
            = none) :=
  ⟨(C8_refresh_failure_clears_and_throws (sampleEnv downNet) (sampleWorld pastToken)
      (Or.inl ⟨networkError, by rfl⟩)).1 "r0" (by rfl) (by decide),
   (C8_refresh_failure_clears_and_throws (sampleEnv rejectingNet) (sampleWorld pastToken)
      (Or.inr ⟨{ status := 400, json := .ok (.obj [("detail", .str "invalid token")]) },
        by rfl, by rfl⟩)).2.2⟩

/-! ## A refresh that fails inside `fetchWithAuth` -/

/-- C9 (code at the failing input): with a valid stored token, a target that answers 401 and
a refresh whose `fetch` rejects with a `TypeError` mentioning `NetworkError`, `fetchWithAuth` of
`src/NASA/home.js` does not throw the refresh failure: its `catch` block takes it for a
connectivity fault of the target request, waits 1000 ms and sends the target request again
(with the credentials already cleared), and returns that second answer.  When the refresh
is refused with status 400 instead, the failure is thrown at once and nothing more is sent. -/
theorem C9_refresh_network_failure_is_retried :
    (NASA.home.fetchWithAuth (sampleEnv refreshDownNet) 3 "/balance" noOptions
        (sampleWorld futureToken)).1 = some (.ok (.response balanceReply))
    ∧ (NASA.home.fetchWithAuth (sampleEnv refreshDownNet) 3 "/balance" noOptions
        (sampleWorld futureToken)).2.trace
      = [.fetch (NASA.home.targetRequest (sampleEnv refreshDownNet) "/balance" noOptions
            (.str futureToken)),
         .fetch (NASA.home.refreshRequest (sampleEnv refreshDownNet) "r0"),
         .redirect "/login.html",
         .wait 1000,
         .fetch (NASA.home.targetRequest (sampleEnv refreshDownNet) "/balance" noOptions
            (.str futureToken))]
    ∧ (NASA.home.fetchWithAuth (sampleEnv refreshDownNet) 3 "/balance" noOptions
        (sampleWorld futureToken)).2.storage = []
    ∧ (NASA.home.fetchWithAuth (sampleEnv refreshRefusedNet) 3 "/balance" noOptions
        (sampleWorld futureToken)).1 = some (.error ⟨"Error", "invalid token"⟩)
    ∧ (NASA.home.fetchWithAuth (sampleEnv refreshRefusedNet) 3 "/balance" noOptions
        (sampleWorld futureToken)).2.fetches = 2 := by
  refine ⟨by rfl, by rfl, by rfl, by rfl, by rfl⟩

/-! ## The credential invariant -/

theorem allPresent_iff (st : Storage) :
    allPresent st = true ↔ ∀ k ∈ credentialKeys, (getItem st k).isSome = true := by
  simp [allPresent]

theorem allAbsent_iff (st : Storage) :
    allAbsent st = true ↔ ∀ k ∈ credentialKeys, getItem st k = none := by
  simp [allAbsent]

theorem allOrNone_of_allAbsent {st : Storage} (h : ∀ k ∈ credentialKeys, getItem st k = none) :
    allOrNone st = true := by
  simp [allOrNone, (allAbsent_iff st).2 h]

theorem allOrNone_of_allPresent {st : Storage}
    (h : ∀ k ∈ credentialKeys, (getItem st k).isSome = true) : allOrNone st = true := by
  simp [allOrNone, (allPresent_iff st).2 h]

theorem allOrNone_removeCredentials (st : Storage) : allOrNone (removeCredentials st) = true :=
  allOrNone_of_allAbsent (fun _ hk => getItem_removeCredentials hk st)

theorem allOrNone_after_refresh (a r o wa : String) (st : Storage) :
    allOrNone (setItem "wallet_address" wa (setItem "office_name" o
      (setItem "refresh_token" r (setItem "access_token" a st)))) = true := by
  obtain ⟨h1, h2, h3, h4⟩ := getItem_after_refresh a r o wa st
  apply allOrNone_of_allPresent
  intro k hk
  simp only [credentialKeys, List.mem_cons, List.mem_singleton, List.not_mem_nil,
    or_false] at hk
  rcases hk with rfl | rfl | rfl | rfl
  · rw [h1]; rfl
  · rw [h2]; rfl
  · rw [h3]; rfl
  · rw [h4]; rfl

/-- Reading a property throws for the value, not for the key. -/
theorem getProp_ok_of_ok {v a : JSValue} {k : String} (h : v.getProp k = .ok a) (k2 : String) :
    ∃ b, v.getProp k2 = .ok b := by
  cases v <;> simp [JSValue.getProp] at h ⊢

/-- A successful pass through the `try` block of `refreshToken` (`src/NASA/home.js`) has written
all four fields. -/
theorem NASA_refreshTry_ok (out : FetchOutcome) (st st2 : Storage) (v : JSValue)
    (h : NASA.home.refreshTry out st = (.ok v, st2)) :
    ∃ a r o wa, st2 = setItem "wallet_address" wa (setItem "office_name" o
      (setItem "refresh_token" r (setItem "access_token" a st))) := by
  unfold NASA.home.refreshTry at h
  repeat' split at h
  all_goals
    first
    | (cases h; done)
    | (simp only [Prod.mk.injEq] at h
       obtain ⟨_, h2⟩ := h
       exact ⟨_, _, _, _, h2.symm⟩)

/-- A successful pass through the `try` block of `refreshToken` (`src/Web3/pages/home.js`) has
written all four fields. -/
theorem Web3_refreshTry_ok (out : FetchOutcome) (st st2 : Storage) (v : JSValue)
    (h : Web3.home.refreshTry out st = (.ok v, st2)) :
    ∃ a r o wa, st2 = setItem "wallet_address" wa (setItem "office_name" o
      (setItem "refresh_token" r (setItem "access_token" a st))) := by
  unfold Web3.home.refreshTry at h
  repeat' split at h
  all_goals
    first
    | (cases h; done)
    | (simp only [Prod.mk.injEq] at h
       obtain ⟨_, h2⟩ := h
       exact ⟨_, _, _, _, h2.symm⟩)

/-- A successful pass through the `try` block of the utility `refreshToken`
(`src/NASA/login.js`) has written the two tokens and nothing else. -/
theorem login_refreshTry_ok (out : FetchOutcome) (st st2 : Storage) (v : JSValue)
    (h : NASA.login.refreshTry out st = (.ok v, st2)) :
    ∃ a r, st2 = setItem "refresh_token" r (setItem "access_token" a st) := by
  unfold NASA.login.refreshTry at h
  repeat' split at h
  all_goals
    first
    | (cases h; done)
    | (simp only [Prod.mk.injEq] at h
       obtain ⟨_, h2⟩ := h
       exact ⟨_, _, h2.symm⟩)

theorem NASA_refreshToken_allOrNone (env : Env) (w : World) (h : allOrNone w.storage = true) :
    allOrNone (NASA.home.refreshToken env w).2.storage = true := by
  unfold NASA.home.refreshToken
  cases hr : getItem w.storage "refresh_token" with
  | none => simpa [World.emit] using h
  | some r =>
    by_cases hne : r = ""
    · simpa [hne, World.emit] using h
    · simp only [hne, if_false]
      rcases hrt : NASA.home.refreshTry (fetch env (NASA.home.refreshRequest env r) w).1
          (fetch env (NASA.home.refreshRequest env r) w).2.storage with ⟨res, st⟩
      cases res with
      | ok v =>
        obtain ⟨a, r2, o, wa, hst⟩ := NASA_refreshTry_ok _ _ _ _ hrt
        simp only [World.withStorage, hst]
        exact allOrNone_after_refresh _ _ _ _ _
      | error err =>
        simp only [World.withStorage, World.emit]
        exact allOrNone_removeCredentials st

theorem Web3_refreshToken_allOrNone (env : Env) (w : World) (h : allOrNone w.storage = true) :
    allOrNone (Web3.home.refreshToken env w).2.storage = true := by
  unfold Web3.home.refreshToken
  cases hr : getItem w.storage "refresh_token" with
  | none => simpa [World.emit] using h
  | some r =>
    by_cases hne : r = ""
    · simpa [hne, World.emit] using h
    · simp only [hne, if_false]
      rcases hrt : Web3.home.refreshTry (fetch env (Web3.home.refreshRequest r) w).1
          (fetch env (Web3.home.refreshRequest r) w).2.storage with ⟨res, st⟩
      cases res with
      | ok v =>
        obtain ⟨a, r2, o, wa, hst⟩ := Web3_refreshTry_ok _ _ _ _ hrt
        simp only [World.withStorage, hst]
        exact allOrNone_after_refresh _ _ _ _ _
      | error err =>
        simp only [World.withStorage, World.emit]
        exact allOrNone_removeCredentials st

theorem allOrNone_nil : allOrNone [] = true := by
  rfl

theorem NASA_handleLogout_allOrNone (env : Env) (w : World) (h : allOrNone w.storage = true) :
    allOrNone (NASA.home.handleLogout env w).storage = true := by
  unfold NASA.home.handleLogout
  cases hget : getItem w.storage "access_token" with
  | none => simpa [World.emit] using h
  | some token =>
    by_cases hne : token = ""
    · simpa [hne, World.emit] using h
    · cases hnet : env.net w.fetches with
      | rejects e => simpa [hne, fetch, hnet, World.emit] using h
      | responds response =>
        cases hj : response.json with
        | error e => simpa [hne, fetch, hnet, hj, World.emit] using h
        | ok data =>
          by_cases hok : response.ok = true
          · simp only [hne, fetch, hnet, hj, hok, if_true, if_false]
            simp only [NASA.home.navigateToLogin, World.emit, World.withStorage]
            exact allOrNone_nil
          · cases hm : data.getProp "message" with
            | error e => simpa [hne, fetch, hnet, hj, hok, hm, World.emit] using h
            | ok m => simpa [hne, fetch, hnet, hj, hok, hm, World.emit] using h

theorem Web3_handleLogout_allOrNone (env : Env) (w : World) (h : allOrNone w.storage = true) :
    allOrNone (Web3.home.handleLogout env w).storage = true := by
  unfold Web3.home.handleLogout
  cases hget : getItem w.storage "access_token" with
  | none => simpa [World.emit] using h
  | some token =>
    by_cases hne : token = ""
    · simpa [hne, World.emit] using h
    · cases hnet : env.net w.fetches with
      | rejects e => simpa [hne, fetch, hnet, World.emit] using h
      | responds response =>
        cases hj : response.json with
        | error e => simpa [hne, fetch, hnet, hj, World.emit] using h
        | ok data =>
          by_cases hok : response.ok = true
          · cases hm : data.getProp "message" with
            | error e =>
              simp only [hne, fetch, hnet, hj, hok, hm, if_true, if_false, World.emit,
                World.withStorage]
              exact allOrNone_removeCredentials _
            | ok m =>
              simp only [hne, fetch, hnet, hj, hok, hm, if_true, if_false, World.emit,
                World.withStorage]
              exact allOrNone_removeCredentials _
          · cases hm : data.getProp "message" with
            | error e => simpa [hne, fetch, hnet, hj, hok, hm, World.emit] using h
            | ok m => simpa [hne, fetch, hnet, hj, hok, hm, World.emit] using h

theorem login_onSubmit_allOrNone (env : Env) (isLogin : Bool) (officeName password : String)
    (w : World) (h : allOrNone w.storage = true) :
    allOrNone (NASA.login.onSubmit env isLogin officeName password w).storage = true := by
  unfold NASA.login.onSubmit
  cases hnet : env.net w.fetches with
  | rejects e => simpa [fetch, hnet, World.emit] using h
  | responds response =>
    cases hj : response.json with
    | error e => simpa [fetch, hnet, hj, World.emit] using h
    | ok data =>
      by_cases hok : response.ok = true
      · cases isLogin with
        | false => simpa [fetch, hnet, hj, hok, World.emit] using h
        | true =>
          cases ha : data.getProp "access_token" with
          | error e => simpa [fetch, hnet, hj, hok, ha, World.emit] using h
          | ok a =>
            obtain ⟨r, hr⟩ := getProp_ok_of_ok ha "refresh_token"
            obtain ⟨o, ho⟩ := getProp_ok_of_ok ha "office_name"
            obtain ⟨wa, hwa⟩ := getProp_ok_of_ok ha "wallet_address"
            simp only [fetch, hnet, hj, hok, ha, hr, ho, hwa, World.emit, World.withStorage,
              Bool.not_true, if_true, if_false, Bool.false_eq_true]
            exact allOrNone_after_refresh _ _ _ _ _
      · cases hd : data.getProp "detail" with
        | error e => simpa [fetch, hnet, hj, hok, hd, World.emit] using h
        | ok d => simpa [fetch, hnet, hj, hok, hd, World.emit] using h

theorem getItem_removeItem_none {st : Storage} {k : String} (h : getItem st k = none)
    (k2 : String) : getItem (removeItem k2 st) k = none := by
  by_cases hk : k = k2
  · subst hk
    exact getItem_removeItem_self _ _
  · rw [getItem_removeItem_of_ne hk]
    exact h

theorem NASA_checkAuth_allOrNone (env : Env) (w : World) (h : allOrNone w.storage = true)
    (hdec : Decodes env w.storage) :
    allOrNone (NASA.home.checkAuth env w).2.storage = true := by
  cases hget : getItem w.storage "access_token" with
  | none => simpa [NASA.home.checkAuth, hget, NASA.home.navigateToLogin, World.emit] using h
  | some tok =>
    by_cases hne : tok = ""
    · simpa [NASA.home.checkAuth, hget, hne, NASA.home.navigateToLogin, World.emit] using h
    · obtain ⟨a, middle, c, txt, payload, exp, hsplit, hatob, hparse, hexp⟩ := hdec tok hget hne
      rw [NASA_checkAuth_decoded env w tok a middle c txt payload exp hget hsplit hatob hparse
        hexp]
      by_cases hcond : (exp.truthy && lessThan env exp (currentTime env)) = true
      · simp only [hcond, if_true]
        have hinv := NASA_refreshToken_allOrNone env w h
        have hclr := NASA_refreshToken_throw_clears env w
        rcases hrt : NASA.home.refreshToken env w with ⟨res, w1⟩
        rw [hrt] at hinv hclr
        cases res with
        | ok v => exact hinv
        | error e =>
          simp only [NASA.home.checkAuthCatch, NASA.home.navigateToLogin, World.emit,
            World.withStorage]
          exact allOrNone_of_allAbsent
            (fun k hk => getItem_removeItem_none (hclr e rfl k hk) _)
      · simpa [hcond] using h

theorem Web3_checkAuth_allOrNone (env : Env) (w : World) (h : allOrNone w.storage = true)
    (hdec : Decodes env w.storage) :
    allOrNone (Web3.home.checkAuth env w).2.storage = true := by
  cases hget : getItem w.storage "access_token" with
  | none => simpa [Web3.home.checkAuth, hget, World.emit] using h
  | some tok =>
    by_cases hne : tok = ""
    · simpa [Web3.home.checkAuth, hget, hne, World.emit] using h
    · obtain ⟨a, middle, c, txt, payload, exp, hsplit, hatob, hparse, hexp⟩ := hdec tok hget hne
      rw [Web3_checkAuth_decoded env w tok a middle c txt payload exp hget hsplit hatob hparse
        hexp]
      by_cases hcond : (exp.truthy && lessThan env exp (currentTime env)) = true
      · simp only [hcond, if_true]
        have hinv := Web3_refreshToken_allOrNone env w h
        have hclr := Web3_refreshToken_throw_clears env w
        rcases hrt : Web3.home.refreshToken env w with ⟨res, w1⟩
        rw [hrt] at hinv hclr
        cases res with
        | ok v => exact hinv
        | error e =>
          simp only [Web3.home.checkAuthCatch, World.emit, World.withStorage]
          exact allOrNone_of_allAbsent
            (fun k hk => getItem_removeItem_none (hclr e rfl k hk) _)
      · simpa [hcond] using h

theorem login_refreshToken_allOrNone (env : Env) (w : World)
    (h : allPresent w.storage = true ∨ ∃ e, (NASA.login.refreshToken env w).1 = .error e) :
    allOrNone (NASA.login.refreshToken env w).2.storage = true := by
  rcases h with h | ⟨e, he⟩
  · unfold NASA.login.refreshToken
    simp only [fetch]
    rcases hrt : NASA.login.refreshTry (env.net w.fetches) w.storage with ⟨res, st⟩
    cases res with
    | ok v =>
      obtain ⟨a, r, hst⟩ := login_refreshTry_ok _ _ _ _ hrt
      have hall := (allPresent_iff w.storage).1 h
      simp only [World.withStorage, hst]
      apply allOrNone_of_allPresent
      intro k hk
      have hold := hall k hk
      simp only [credentialKeys, List.mem_cons, List.mem_singleton, List.not_mem_nil,
        or_false] at hk
      rcases hk with rfl | rfl | rfl | rfl
      · rw [getItem_setItem_of_ne (by decide), getItem_setItem_self]; rfl
      · rw [getItem_setItem_self]; rfl
      · rw [getItem_setItem_of_ne (by decide), getItem_setItem_of_ne (by decide)]; exact hold
      · rw [getItem_setItem_of_ne (by decide), getItem_setItem_of_ne (by decide)]; exact hold
    | error err =>
      simp only [World.withStorage, World.emit]
      exact allOrNone_removeCredentials st
  · exact allOrNone_of_allAbsent (login_refreshToken_throw_clears env w e he)

/-- C10 (counterexample): from a session with all four fields stored and the malformed access
token `garbage`, `checkAuth` of `src/NASA/home.js` removes `access_token` and leaves
`refresh_token` in place, so the four fields are neither all present nor all absent. -/
theorem C10_checkAuth_breaks_all_or_none :
    allOrNone (sampleWorld "garbage").storage = true
    ∧ allOrNone (NASA.home.checkAuth (sampleEnv downNet) (sampleWorld "garbage")).2.storage
        = false
    ∧ getItem (NASA.home.checkAuth (sampleEnv downNet) (sampleWorld "garbage")).2.storage
        "access_token" = none
    ∧ getItem (NASA.home.checkAuth (sampleEnv downNet) (sampleWorld "garbage")).2.storage
        "refresh_token" = some "r0" := by
  refine ⟨by rfl, by rfl, by rfl, by rfl⟩

/-- C10 (amended): starting from a storage state in which `access_token`, `refresh_token`,
`office_name` and `wallet_address` are all present or all absent, the login submit handler,
`refreshToken` of `src/NASA/home.js` and of `src/Web3/pages/home.js` and `handleLogout` of both
pages leave them all present or all absent; `checkAuth` of both pages does so whenever the
stored access token is absent, empty or decodes (three segments, the middle one decodable to a
value with a readable `exp`); and the utility `refreshToken` of `src/NASA/login.js` does so
when it starts from the all-present state or when it throws. -/
theorem C10_credentials_all_or_none (env : Env) (w : World) (h : allOrNone w.storage = true) :
    (∀ isLogin officeName password,
      allOrNone (NASA.login.onSubmit env isLogin officeName password w).storage = true)
    ∧ allOrNone (NASA.home.refreshToken env w).2.storage = true
    ∧ allOrNone (Web3.home.refreshToken env w).2.storage = true
    ∧ allOrNone (NASA.home.handleLogout env w).storage = true
    ∧ allOrNone (Web3.home.handleLogout env w).storage = true
    ∧ (Decodes env w.storage →
        allOrNone (NASA.home.checkAuth env w).2.storage = true
        ∧ allOrNone (Web3.home.checkAuth env w).2.storage = true)
    ∧ (allPresent w.storage = true ∨ (∃ e, (NASA.login.refreshToken env w).1 = .error e) →
        allOrNone (NASA.login.refreshToken env w).2.storage = true) :=
  ⟨fun isLogin officeName password => login_onSubmit_allOrNone env isLogin officeName password w h,
    NASA_refreshToken_allOrNone env w h,
    Web3_refreshToken_allOrNone env w h,
    NASA_handleLogout_allOrNone env w h,
    Web3_handleLogout_allOrNone env w h,
    fun hdec => ⟨NASA_checkAuth_allOrNone env w h hdec, Web3_checkAuth_allOrNone env w h hdec⟩,
    login_refreshToken_allOrNone env w⟩

theorem C10_credentials_all_or_none_witness :
    allOrNone (sampleWorld pastToken).storage = true
    ∧ allOrNone (NASA.home.refreshToken (sampleEnv refreshOkNet) (sampleWorld pastToken)).2.storage
        = true
    ∧ allOrNone (NASA.login.onSubmit (sampleEnv refreshOkNet) true "Treasury" "secret"
        (sampleWorld pastToken)).storage = true :=
  ⟨by rfl,
    (C10_credentials_all_or_none (sampleEnv refreshOkNet) (sampleWorld pastToken) (by rfl)).2.1,
    (C10_credentials_all_or_none (sampleEnv refreshOkNet) (sampleWorld pastToken) (by rfl)).1
      true "Treasury" "secret"⟩

/-! ## Headers of the target request -/

theorem lookup_map_override (a b : Headers) (k : String) :
    (a.map (fun kv => (kv.1, (b.lookup kv.1).getD kv.2))).lookup k
      = (a.lookup k).map (fun v => (b.lookup k).getD v) := by
  induction a with
  | nil => rfl
  | cons kv rest ih =>
    obtain ⟨x, y⟩ := kv
    by_cases h : k = x
    · subst h
      simp [List.lookup_cons]
    · have h2 : (k == x) = false := by simpa using h
      simp [List.lookup_cons, h2, ih]

theorem lookup_filter_new (a b : Headers) (k : String) (h : a.lookup k = none) :
    (b.filter (fun kv => (a.lookup kv.1).isNone)).lookup k = b.lookup k := by
  induction b with
  | nil => rfl
  | cons kv rest ih =>
    obtain ⟨x, y⟩ := kv
    by_cases hk : k = x
    · subst hk
      simp [List.filter_cons, h, List.lookup_cons]
    · have h2 : (k == x) = false := by simpa using hk
      by_cases hx : (a.lookup x).isNone = true
      · simp [List.filter_cons, hx, List.lookup_cons, h2, ih]
      · simp [List.filter_cons, hx, List.lookup_cons, h2, ih]

/-- What the merged header object holds under `k`: the caller's entry when there is one, the
default otherwise. -/
theorem lookup_spread (a b : Headers) (k : String) :
    (spread a b).lookup k
      = match b.lookup k with
        | some v => some v
        | none => a.lookup k := by
  rw [spread, List.lookup_append, lookup_map_override]
  cases ha : a.lookup k with
  | none =>
    rw [lookup_filter_new a b k ha]
    cases b.lookup k <;> rfl
  | some v =>
    cases b.lookup k <;> rfl

/-! ## Which requests a call sends -/

theorem requests_append (a b : List Event) : requests (a ++ b) = requests a ++ requests b := by
  simp [requests, List.filterMap_append]

/-- The requests `refreshToken` of `src/NASA/home.js` adds: none, or the one refresh
request. -/
theorem NASA_refreshToken_requests (env : Env) (w : World) :
    requests (NASA.home.refreshToken env w).2.trace = requests w.trace
    ∨ ∃ r, requests (NASA.home.refreshToken env w).2.trace
        = requests w.trace ++ [NASA.home.refreshRequest env r] := by
  unfold NASA.home.refreshToken
  cases hr : getItem w.storage "refresh_token" with
  | none => left; simp [World.emit, requests_append, requests]
  | some r =>
    by_cases hne : r = ""
    · left; simp [hne, World.emit, requests_append, requests]
    · right
      refine ⟨r, ?_⟩
      simp only [hne, if_false, fetch]
      rcases NASA.home.refreshTry (env.net w.fetches) w.storage with ⟨res, st⟩
      cases res <;> simp [World.emit, World.withStorage, requests_append, requests]

/-- The requests `refreshToken` of `src/Web3/pages/home.js` adds. -/
theorem Web3_refreshToken_requests (env : Env) (w : World) :
    requests (Web3.home.refreshToken env w).2.trace = requests w.trace
    ∨ ∃ r, requests (Web3.home.refreshToken env w).2.trace
        = requests w.trace ++ [Web3.home.refreshRequest r] := by
  unfold Web3.home.refreshToken
  cases hr : getItem w.storage "refresh_token" with
  | none => left; simp [World.emit, requests_append, requests]
  | some r =>
    by_cases hne : r = ""
    · left; simp [hne, World.emit, requests_append, requests]
    · right
      refine ⟨r, ?_⟩
      simp only [hne, if_false, fetch]
      rcases Web3.home.refreshTry (env.net w.fetches) w.storage with ⟨res, st⟩
      cases res <;> simp [World.emit, World.withStorage, requests_append, requests]

/-- One pass of the loop of `src/NASA/home.js` sends the target request built from the token
the loop holds and, after it, at most the refresh request. -/
theorem NASA_tryBlock_requests (env : Env) (endpoint : String) (options : Options)
    (tok : JSValue) (w : World) :
    requests (NASA.home.tryBlock env endpoint options tok w).2.trace
        = requests w.trace ++ [NASA.home.targetRequest env endpoint options tok]
    ∨ ∃ r, requests (NASA.home.tryBlock env endpoint options tok w).2.trace
        = requests w.trace ++ [NASA.home.targetRequest env endpoint options tok,
            NASA.home.refreshRequest env r] := by
  unfold NASA.home.tryBlock
  simp only [fetch]
  cases hnet : env.net w.fetches with
  | rejects e => left; simp [requests_append, requests]
  | responds response =>
    by_cases hs : response.status = 401
    · simp only [hs, if_true]
      have href := NASA_refreshToken_requests env
        { storage := w.storage, fetches := w.fetches + 1
          trace := w.trace ++ [.fetch (NASA.home.targetRequest env endpoint options tok)] }
      rcases hrt : NASA.home.refreshToken env
        { storage := w.storage, fetches := w.fetches + 1
          trace := w.trace ++ [.fetch (NASA.home.targetRequest env endpoint options tok)] }
        with ⟨res, w2⟩
      rw [hrt] at href
      have hbase : requests (w.trace ++ [Event.fetch (NASA.home.targetRequest env endpoint
          options tok)]) = requests w.trace ++ [NASA.home.targetRequest env endpoint options tok] := by
        simp [requests_append, requests]
      rw [hbase] at href
      cases res with
      | error e =>
        rcases href with h | ⟨r, h⟩
        · left; simpa using h
        · right; exact ⟨r, by simpa using h⟩
      | ok t =>
        by_cases ht : t.truthy = true
        · rcases href with h | ⟨r, h⟩
          · left; simpa [ht] using h
          · right; exact ⟨r, by simpa [ht] using h⟩
        · rcases href with h | ⟨r, h⟩
          · left; simpa [ht] using h
          · right; exact ⟨r, by simpa [ht] using h⟩
    · left; simp [hs, requests_append, requests]

/-- When a pass ends with `continue` after a 401, the token the loop goes on with is the one
`refreshToken` returned. -/
theorem NASA_tryBlock_again (env : Env) (endpoint : String) (options : Options)
    (tok t : JSValue) (w : World)
    (h : (NASA.home.tryBlock env endpoint options tok w).1 = .ok (.again t)) :
    (∃ r1, env.net w.fetches = .responds r1 ∧ r1.status = 401)
    ∧ (NASA.home.refreshToken env
        (fetch env (NASA.home.targetRequest env endpoint options tok) w).2).1 = .ok t := by
  unfold NASA.home.tryBlock at h
  simp only [fetch] at h ⊢
  cases hnet : env.net w.fetches with
  | rejects e => simp [hnet] at h
  | responds response =>
    by_cases hs : response.status = 401
    · refine ⟨⟨response, rfl, hs⟩, ?_⟩
      simp only [hnet, hs, if_true] at h
      rcases hrt : NASA.home.refreshToken env
        { storage := w.storage, fetches := w.fetches + 1
          trace := w.trace ++ [.fetch (NASA.home.targetRequest env endpoint options tok)] }
        with ⟨res, w2⟩
      rw [hrt] at h
      cases res with
      | error e => simp at h
      | ok t2 =>
        by_cases ht : t2.truthy = true
        · simp [ht] at h
          simp [h]
        · simp [ht] at h
    · simp [hnet, hs] at h

/-- Every request the loop of `src/NASA/home.js` sends is a refresh request or a target request
built by `targetRequest` from some token. -/
theorem NASA_fetchLoop_requests (env : Env) (endpoint : String) (options : Options) :
    ∀ (fuel : Nat) (tok : JSValue) (retryCount : Nat) (w : World),
      ∃ L, requests (NASA.home.fetchLoop env endpoint options fuel tok retryCount w).2.trace
          = requests w.trace ++ L
        ∧ ∀ req ∈ L, (∃ r, req = NASA.home.refreshRequest env r)
            ∨ ∃ t, req = NASA.home.targetRequest env endpoint options t := by
  intro fuel
  induction fuel with
  | zero =>
    intro tok rc w
    exact ⟨[], by simp [NASA.home.fetchLoop], by simp⟩
  | succ k ih =>
    intro tok rc w
    rw [NASA.home.fetchLoop]
    by_cases hrc : rc < NASA.home.maxRetries
    · simp only [hrc, if_true]
      have hpass := NASA_tryBlock_requests env endpoint options tok w
      rcases htb : NASA.home.tryBlock env endpoint options tok w with ⟨res, w1⟩
      rw [htb] at hpass
      have hpass2 : ∃ L1, requests w1.trace = requests w.trace ++ L1
          ∧ ∀ req ∈ L1, (∃ r, req = NASA.home.refreshRequest env r)
            ∨ ∃ t, req = NASA.home.targetRequest env endpoint options t := by
        rcases hpass with h | ⟨r, h⟩
        · exact ⟨_, h, by simp⟩
        · refine ⟨_, h, ?_⟩
          intro req hreq
          simp only [List.mem_cons, List.mem_singleton, List.not_mem_nil, or_false] at hreq
          rcases hreq with rfl | rfl
          · exact Or.inr ⟨tok, rfl⟩
          · exact Or.inl ⟨r, rfl⟩
      obtain ⟨L1, hL1, hgood1⟩ := hpass2
      have extend : ∀ (w2 : World) (res2 : Option (Except JSError Returned) × World),
          requests w2.trace = requests w1.trace →
          (∃ L, requests res2.2.trace = requests w2.trace ++ L
            ∧ ∀ req ∈ L, (∃ r, req = NASA.home.refreshRequest env r)
              ∨ ∃ t, req = NASA.home.targetRequest env endpoint options t) →
          ∃ L, requests res2.2.trace = requests w.trace ++ L
            ∧ ∀ req ∈ L, (∃ r, req = NASA.home.refreshRequest env r)
              ∨ ∃ t, req = NASA.home.targetRequest env endpoint options t := by
        intro w2 res2 hw2 ⟨L2, hL2, hgood2⟩
        refine ⟨L1 ++ L2, ?_, ?_⟩
        · rw [hL2, hw2, hL1, List.append_assoc]
        · intro req hreq
          rcases List.mem_append.1 hreq with h | h
          · exact hgood1 req h
          · exact hgood2 req h
      cases res with
      | ok tr =>
        cases tr with
        | done v => exact ⟨L1, hL1, hgood1⟩
        | again t => exact extend w1 _ rfl (ih t rc w1)
      | error e =>
        by_cases hc : isNetworkError e = true
        · by_cases hlast : rc + 1 = NASA.home.maxRetries
          · simp only [hc, hlast, if_true]
            exact ⟨L1, hL1, hgood1⟩
          · simp only [hc, hlast, if_true, if_false]
            exact extend (w1.emit (.wait 1000)) _
              (by simp [World.emit, requests_append, requests])
              (ih tok (rc + 1) (w1.emit (.wait 1000)))
        · simp only [hc, if_false]
          exact ⟨L1, hL1, hgood1⟩
    · simp only [hrc, if_false]
      exact ⟨[], by simp, by simp⟩

/-- The requests one call of `fetchWithAuth` of `src/Web3/pages/home.js` sends after
`checkAuth`: nothing, or the target request built from the token of `checkAuth`, then at most one
refresh request, then at most one more target request, built from the token that refresh
returned. -/
theorem Web3_fetchWithAuth_requests (env : Env) (endpoint : String) (options : Options)
    (w : World) :
    requests (Web3.home.fetchWithAuth env endpoint options w).2.trace
        = requests (Web3.home.checkAuth env w).2.trace
    ∨ requests (Web3.home.fetchWithAuth env endpoint options w).2.trace
        = requests (Web3.home.checkAuth env w).2.trace
          ++ [Web3.home.targetRequest endpoint options (Web3.home.checkAuth env w).1]
    ∨ (∃ r, requests (Web3.home.fetchWithAuth env endpoint options w).2.trace
        = requests (Web3.home.checkAuth env w).2.trace
          ++ [Web3.home.targetRequest endpoint options (Web3.home.checkAuth env w).1,
              Web3.home.refreshRequest r])
    ∨ ∃ r t, (Web3.home.refreshToken env
          (fetch env (Web3.home.targetRequest endpoint options (Web3.home.checkAuth env w).1)
            (Web3.home.checkAuth env w).2).2).1 = .ok t
        ∧ requests (Web3.home.fetchWithAuth env endpoint options w).2.trace
          = requests (Web3.home.checkAuth env w).2.trace
            ++ [Web3.home.targetRequest endpoint options (Web3.home.checkAuth env w).1,
                Web3.home.refreshRequest r, Web3.home.targetRequest endpoint options t] := by
  unfold Web3.home.fetchWithAuth
  rcases Web3.home.checkAuth env w with ⟨tok, w0⟩
  by_cases htok : tok.truthy = true
  · simp only [htok, Bool.not_true, if_false, fetch, Bool.false_eq_true]
    cases hnet : env.net w0.fetches with
    | rejects e => right; left; simp [requests_append, requests]
    | responds response =>
      by_cases hs : response.status = 401
      · simp only [hs, if_true]
        have href := Web3_refreshToken_requests env
          { storage := w0.storage, fetches := w0.fetches + 1
            trace := w0.trace ++ [.fetch (Web3.home.targetRequest endpoint options tok)] }
        have hbase : requests (w0.trace ++ [Event.fetch (Web3.home.targetRequest endpoint
            options tok)]) = requests w0.trace ++ [Web3.home.targetRequest endpoint options tok] := by
          simp [requests_append, requests]
        rw [hbase] at href
        rcases hrt : Web3.home.refreshToken env
          { storage := w0.storage, fetches := w0.fetches + 1
            trace := w0.trace ++ [.fetch (Web3.home.targetRequest endpoint options tok)] }
          with ⟨res, w2⟩
        rw [hrt] at href
        cases res with
        | error e =>
          rcases href with h | ⟨r, h⟩
          · right; left; simpa using h
          · right; right; left; exact ⟨r, by simpa using h⟩
        | ok t =>
          by_cases ht : t.truthy = true
          · simp only [ht, Bool.not_true, if_false, Bool.false_eq_true]
            rcases href with h | ⟨r, h⟩
            · exfalso
              revert hrt
              unfold Web3.home.refreshToken
              intro hrt
              cases hr : getItem w0.storage "refresh_token" with
              | none =>
                simp [hr] at hrt
                rw [← hrt.1] at ht
                simp [JSValue.truthy] at ht
              | some r =>
                by_cases hne : r = ""
                · simp [hr, hne] at hrt
                  rw [← hrt.1] at ht
                  simp [JSValue.truthy] at ht
                · simp only [hr, hne, if_false, fetch] at hrt
                  rcases hry : Web3.home.refreshTry (env.net (w0.fetches + 1)) w0.storage
                    with ⟨res2, st⟩
                  rw [hry] at hrt
                  cases res2 with
                  | ok v =>
                    simp only [World.withStorage, Prod.mk.injEq] at hrt
                    rw [← hrt.2] at h
                    simp [requests_append, requests] at h
                  | error e => simp at hrt
            · right; right; right
              refine ⟨r, t, rfl, ?_⟩
              have h2 : requests w2.trace = requests w0.trace
                  ++ [Web3.home.targetRequest endpoint options tok]
                  ++ [Web3.home.refreshRequest r] := h
              cases env.net w2.fetches <;>
                (simp only [requests_append]
                 rw [h2]
                 simp [requests])
          · simp only [ht, Bool.not_false, if_true]
            rcases href with h | ⟨r, h⟩
            · right; left; simpa using h
            · right; right; left; exact ⟨r, by simpa using h⟩
      · right; left; simp [hs, requests_append, requests]
  · left; simp [htok]

/-- C11 (counterexample): with a valid stored token and caller options whose headers hold
`Authorization: Bearer caller-token`, the one request `fetchWithAuth` sends to the target
carries the caller's entry, in both pages, and not `Bearer ` followed by the stored token. -/
theorem C11_caller_authorization_wins :
    (requests (NASA.home.fetchWithAuth (sampleEnv okNet) 1 "/balance" ownAuthOptions
        (sampleWorld futureToken)).2.trace).map (fun req => req.headers.lookup "Authorization")
      = [some "Bearer caller-token"]
    ∧ (requests (Web3.home.fetchWithAuth (sampleEnv okNet) "/balance" ownAuthOptions
        (sampleWorld futureToken)).2.trace).map (fun req => req.headers.lookup "Authorization")
      = [some "Bearer caller-token"]
    ∧ (NASA.home.checkAuth (sampleEnv okNet) (sampleWorld futureToken)).1.toStr = futureToken
    ∧ "Bearer caller-token" ≠ "Bearer " ++ futureToken := by
  refine ⟨by rfl, by rfl, by rfl, by decide⟩

/-! ## A 401, a refresh and one retry -/

/-- A stored token that is not expired: `checkAuth` of `src/NASA/home.js` returns it and
touches nothing. -/
theorem NASA_checkAuth_valid (env : Env) (w : World) (tok a middle c txt : String)
    (fields : List (String × JSValue)) (e : Int)
    (hget : getItem w.storage "access_token" = some tok)
    (hsplit : split tok '.' = [a, middle, c])
    (hatob : env.atob middle = some txt)
    (hparse : env.jsonParse txt = some (.obj fields))
    (hexp : fields.lookup "exp" = some (.num e))
    (hfuture : currentTime env < e) :
    NASA.home.checkAuth env w = (.str tok, w) := by
  have hprop : (JSValue.obj fields).getProp "exp" = .ok (.num e) := by
    simp [JSValue.getProp, hexp]
  have hlt : lessThan env (.num e) (currentTime env) = false := by
    simp [lessThan, toNumber]
    omega
  rw [NASA_checkAuth_decoded env w tok a middle c txt _ _ hget hsplit hatob hparse hprop]
  simp [hlt]

/-- The same for `checkAuth` of `src/Web3/pages/home.js`. -/
theorem Web3_checkAuth_valid (env : Env) (w : World) (tok a middle c txt : String)
    (fields : List (String × JSValue)) (e : Int)
    (hget : getItem w.storage "access_token" = some tok)
    (hsplit : split tok '.' = [a, middle, c])
    (hatob : env.atob middle = some txt)
    (hparse : env.jsonParse txt = some (.obj fields))
    (hexp : fields.lookup "exp" = some (.num e))
    (hfuture : currentTime env < e) :
    Web3.home.checkAuth env w = (.str tok, w) := by
  have hprop : (JSValue.obj fields).getProp "exp" = .ok (.num e) := by
    simp [JSValue.getProp, hexp]
  have hlt : lessThan env (.num e) (currentTime env) = false := by
    simp [lessThan, toNumber]
    omega
  rw [Web3_checkAuth_decoded env w tok a middle c txt _ _ hget hsplit hatob hparse hprop]
  simp [hlt]


/-- A refresh answered with a 2xx status and the object `body`, in `src/NASA/home.js`. -/
theorem NASA_refreshToken_success (env : Env) (w : World) (r : String) (resp : Response)
    (body : List (String × JSValue))
    (hr : getItem w.storage "refresh_token" = some r) (hne : r ≠ "")
    (hnet : env.net w.fetches = .responds resp) (hok : resp.ok = true)
    (hjson : resp.json = .ok (.obj body)) :
    NASA.home.refreshToken env w
      = (.ok ((body.lookup "access_token").getD .undefined),
          { storage := refreshedStorage body w.storage, fetches := w.fetches + 1
            trace := w.trace ++ [.fetch (NASA.home.refreshRequest env r)] }) := by
  simp [NASA.home.refreshToken, hr, hne, fetch, hnet, NASA.home.refreshTry, hjson, hok,
    JSValue.getProp, World.withStorage, refreshedStorage]

/-- A refresh answered with a 2xx status and the object `body`, in
`src/Web3/pages/home.js`. -/
theorem Web3_refreshToken_success (env : Env) (w : World) (r : String) (resp : Response)
    (body : List (String × JSValue))
    (hr : getItem w.storage "refresh_token" = some r) (hne : r ≠ "")
    (hnet : env.net w.fetches = .responds resp) (hok : resp.ok = true)
    (hjson : resp.json = .ok (.obj body)) :
    Web3.home.refreshToken env w
      = (.ok ((body.lookup "access_token").getD .undefined),
          { storage := refreshedStorage body w.storage, fetches := w.fetches + 1
            trace := w.trace ++ [.fetch (Web3.home.refreshRequest r)] }) := by
  simp [Web3.home.refreshToken, hr, hne, fetch, hnet, Web3.home.refreshTry, hjson, hok,
    JSValue.getProp, World.withStorage, refreshedStorage]

/-- C12: whenever the stored token is valid (three segments, payload an object whose `exp` lies
in the future), the first target response has status 401, the refresh succeeds (a refresh token
is stored and `/refresh-token` answers 2xx with an object carrying a non-empty `access_token`)
and the retried target request is answered with a status other than 401, `fetchWithAuth` of
both pages returns exactly that second response, and the requests it made are exactly the
target request with the stored token, one refresh request, and the target request with the new
token: two to the target endpoint and one to `/refresh-token`. -/
theorem C12_refresh_then_retry_returns_second_response (env : Env) (w : World)
    (endpoint : String) (options : Options) (fuel : Nat)
    (tok a middle c txt r : String) (fields body : List (String × JSValue)) (e : Int)
    (resp1 resp2 resp3 : Response)
    (hget : getItem w.storage "access_token" = some tok)
    (hsplit : split tok '.' = [a, middle, c])
    (hatob : env.atob middle = some txt)
    (hparse : env.jsonParse txt = some (.obj fields))
    (hexp : fields.lookup "exp" = some (.num e))
    (hfuture : currentTime env < e)
    (hr : getItem w.storage "refresh_token" = some r) (hne : r ≠ "")
    (h1 : env.net w.fetches = .responds resp1) (hs1 : resp1.status = 401)
    (h2 : env.net (w.fetches + 1) = .responds resp2) (hok : resp2.ok = true)
    (hjson : resp2.json = .ok (.obj body))
    (hnew : ((body.lookup "access_token").getD .undefined).truthy = true)
    (h3 : env.net (w.fetches + 2) = .responds resp3) (hs3 : resp3.status ≠ 401)
    (hfuel : 2 ≤ fuel) :
    NASA.home.fetchWithAuth env fuel endpoint options w
        = (some (.ok (.response resp3)),
            { storage := refreshedStorage body w.storage, fetches := w.fetches + 3
              trace := w.trace ++
                [.fetch (NASA.home.targetRequest env endpoint options (.str tok)),
                 .fetch (NASA.home.refreshRequest env r),
                 .fetch (NASA.home.targetRequest env endpoint options
                    ((body.lookup "access_token").getD .undefined))] })
    ∧ Web3.home.fetchWithAuth env endpoint options w
        = (.ok (.response resp3),
            { storage := refreshedStorage body w.storage, fetches := w.fetches + 3
              trace := w.trace ++
                [.fetch (Web3.home.targetRequest endpoint options (.str tok)),
                 .fetch (Web3.home.refreshRequest r),
                 .fetch (Web3.home.targetRequest endpoint options
                    ((body.lookup "access_token").getD .undefined))] }) := by
  have hne0 := ne_empty_of_split hsplit
  constructor
  · obtain ⟨k, rfl⟩ := Nat.exists_eq_add_of_le hfuel
    have hk : 2 + k = k + 1 + 1 := by omega
    have hcheck := NASA_checkAuth_valid env w tok a middle c txt fields e hget hsplit hatob
      hparse hexp hfuture
    have href := NASA_refreshToken_success env
      { storage := w.storage, fetches := w.fetches + 1
        trace := w.trace ++ [.fetch (NASA.home.targetRequest env endpoint options (.str tok))] }
      r resp2 body hr hne h2 hok hjson
    have hpass : NASA.home.tryBlock env endpoint options (.str tok) w
        = (.ok (.again ((body.lookup "access_token").getD .undefined)),
            { storage := refreshedStorage body w.storage, fetches := w.fetches + 1 + 1
              trace := w.trace
                ++ [.fetch (NASA.home.targetRequest env endpoint options (.str tok))]
                ++ [.fetch (NASA.home.refreshRequest env r)] }) := by
      simp only [NASA.home.tryBlock, fetch, h1, hs1, if_true, href, hnew, Bool.not_true,
        Bool.false_eq_true, if_false]
    rw [hk, NASA.home.fetchWithAuth, hcheck]
    simp only [truthy_str, bne_iff_ne, ne_eq, hne0, not_false_eq_true, decide_True,
      Bool.not_true, Bool.false_eq_true, if_false]
    rw [NASA.home.fetchLoop]
    simp only [NASA.home.maxRetries, Nat.zero_lt_succ, if_true, hpass]
    rw [fetchLoop_responds env endpoint options _ k 0 _ resp3 (by omega) h3 hs3]
    simp [hne0]
  · have hcheck := Web3_checkAuth_valid env w tok a middle c txt fields e hget hsplit hatob
      hparse hexp hfuture
    have href := Web3_refreshToken_success env
      { storage := w.storage, fetches := w.fetches + 1
        trace := w.trace ++ [.fetch (Web3.home.targetRequest endpoint options (.str tok))] }
      r resp2 body hr hne h2 hok hjson
    rw [Web3.home.fetchWithAuth, hcheck]
    simp [hne0, fetch, h1, hs1, href, hnew, h3]

theorem C12_refresh_then_retry_returns_second_response_witness :
    (NASA.home.fetchWithAuth (sampleEnv once401Net) 2 "/balance" noOptions
        (sampleWorld futureToken)).1 = some (.ok (.response balanceReply))
    ∧ requests (NASA.home.fetchWithAuth (sampleEnv once401Net) 2 "/balance" noOptions
        (sampleWorld futureToken)).2.trace
      = [NASA.home.targetRequest (sampleEnv once401Net) "/balance" noOptions (.str futureToken),
         NASA.home.refreshRequest (sampleEnv once401Net) "r0",
         NASA.home.targetRequest (sampleEnv once401Net) "/balance" noOptions (.str "access-1")]
    ∧ (Web3.home.fetchWithAuth (sampleEnv once401Net) "/balance" noOptions
        (sampleWorld futureToken)).1 = .ok (.response balanceReply) :=
  ⟨congrArg Prod.fst
      (C12_refresh_then_retry_returns_second_response (sampleEnv once401Net)
        (sampleWorld futureToken) "/balance" noOptions 2 futureToken "eyJhbGciOiJIUzI1NiJ9"
        "eyJleHAiOjk5OTk5OTk5OTl9" "sig" "\x7b\"exp\":9999999999\x7d" "r0"
        [("exp", .num 9999999999)]
        [("access_token", .str "access-1"), ("refresh_token", .str "refresh-1"),
          ("office_name", .str "Treasury"), ("wallet_address", .str "0xabc")]
        9999999999 unauthorized { status := 200, json := .ok (refreshedBody "1") } balanceReply
        (by rfl) (by rfl) (by rfl) (by rfl) (by rfl) (by decide) (by rfl) (by decide)
        (by rfl) (by rfl) (by rfl) (by rfl) (by rfl) (by rfl) (by rfl) (by decide)
        (by decide)).1,
   congrArg (fun res => requests res.2.trace)
      (C12_refresh_then_retry_returns_second_response (sampleEnv once401Net)
        (sampleWorld futureToken) "/balance" noOptions 2 futureToken "eyJhbGciOiJIUzI1NiJ9"
        "eyJleHAiOjk5OTk5OTk5OTl9" "sig" "\x7b\"exp\":9999999999\x7d" "r0"
        [("exp", .num 9999999999)]
        [("access_token", .str "access-1"), ("refresh_token", .str "refresh-1"),
          ("office_name", .str "Treasury"), ("wallet_address", .str "0xabc")]
        9999999999 unauthorized { status := 200, json := .ok (refreshedBody "1") } balanceReply
        (by rfl) (by rfl) (by rfl) (by rfl) (by rfl) (by decide) (by rfl) (by decide)
        (by rfl) (by rfl) (by rfl) (by rfl) (by rfl) (by rfl) (by rfl) (by decide)
        (by decide)).1,
   congrArg Prod.fst
      (C12_refresh_then_retry_returns_second_response (sampleEnv once401Net)
        (sampleWorld futureToken) "/balance" noOptions 2 futureToken "eyJhbGciOiJIUzI1NiJ9"
        "eyJleHAiOjk5OTk5OTk5OTl9" "sig" "\x7b\"exp\":9999999999\x7d" "r0"
        [("exp", .num 9999999999)]
        [("access_token", .str "access-1"), ("refresh_token", .str "refresh-1"),
          ("office_name", .str "Treasury"), ("wallet_address", .str "0xabc")]
        9999999999 unauthorized { status := 200, json := .ok (refreshedBody "1") } balanceReply
        (by rfl) (by rfl) (by rfl) (by rfl) (by rfl) (by decide) (by rfl) (by decide)
        (by rfl) (by rfl) (by rfl) (by rfl) (by rfl) (by rfl) (by rfl) (by decide)
        (by decide)).2⟩

/-! ## `fetchWithAuth` of `src/Web3/pages/home.js` -/

/-- C13: every run of `fetchWithAuth` of `src/Web3/pages/home.js` sends, after `checkAuth`,
nothing, or one target request, or a target request and a refresh request, or a target request,
a refresh request and a second target request - never more than two target requests nor more
than one refresh.  When the first response is 401 and the refresh returns a token, whatever
the second `fetch` is answered with (a 401 included) is returned to the caller, and after the
refresh only the second target request is sent. -/
theorem C13_web3_single_refresh_single_retry (env : Env) (endpoint : String)
    (options : Options) (w : World) :
    (requests (Web3.home.fetchWithAuth env endpoint options w).2.trace
        = requests (Web3.home.checkAuth env w).2.trace
      ∨ requests (Web3.home.fetchWithAuth env endpoint options w).2.trace
        = requests (Web3.home.checkAuth env w).2.trace
          ++ [Web3.home.targetRequest endpoint options (Web3.home.checkAuth env w).1]
      ∨ (∃ r, requests (Web3.home.fetchWithAuth env endpoint options w).2.trace
        = requests (Web3.home.checkAuth env w).2.trace
          ++ [Web3.home.targetRequest endpoint options (Web3.home.checkAuth env w).1,
              Web3.home.refreshRequest r])
      ∨ ∃ r t, (Web3.home.refreshToken env
            (fetch env (Web3.home.targetRequest endpoint options (Web3.home.checkAuth env w).1)
              (Web3.home.checkAuth env w).2).2).1 = .ok t
          ∧ requests (Web3.home.fetchWithAuth env endpoint options w).2.trace
            = requests (Web3.home.checkAuth env w).2.trace
              ++ [Web3.home.targetRequest endpoint options (Web3.home.checkAuth env w).1,
                  Web3.home.refreshRequest r, Web3.home.targetRequest endpoint options t])
    ∧ ∀ (tok t : JSValue) (w0 w2 : World) (resp1 resp2 : Response),
        Web3.home.checkAuth env w = (tok, w0) → tok.truthy = true →
        env.net w0.fetches = .responds resp1 → resp1.status = 401 →
        Web3.home.refreshToken env
          (fetch env (Web3.home.targetRequest endpoint options tok) w0).2 = (.ok t, w2) →
        t.truthy = true →
        env.net w2.fetches = .responds resp2 →
        Web3.home.fetchWithAuth env endpoint options w
          = (.ok (.response resp2),
              { storage := w2.storage, fetches := w2.fetches + 1
                trace := w2.trace ++ [.fetch (Web3.home.targetRequest endpoint options t)] }) := by
  refine ⟨Web3_fetchWithAuth_requests env endpoint options w, ?_⟩
  intro tok t w0 w2 resp1 resp2 hauth htok h1 hs1 href ht h2
  simp only [fetch] at href
  simp [Web3.home.fetchWithAuth, hauth, htok, fetch, h1, hs1, href, ht, h2]

theorem C13_web3_single_refresh_single_retry_witness :
    Web3.home.fetchWithAuth (sampleEnv twice401Net) "/balance" noOptions
        (sampleWorld futureToken)
      = (.ok (.response unauthorized),
          { storage := refreshedStorage
              [("access_token", .str "access-1"), ("refresh_token", .str "refresh-1"),
                ("office_name", .str "Treasury"), ("wallet_address", .str "0xabc")]
              (sampleWorld futureToken).storage
            fetches := 3
            trace :=
              [.fetch (Web3.home.targetRequest "/balance" noOptions (.str futureToken)),
               .fetch (Web3.home.refreshRequest "r0"),
               .fetch (Web3.home.targetRequest "/balance" noOptions (.str "access-1"))] }) :=
  (C13_web3_single_refresh_single_retry (sampleEnv twice401Net) "/balance" noOptions
      (sampleWorld futureToken)).2 (.str futureToken) (.str "access-1")
    (sampleWorld futureToken)
    { storage := refreshedStorage
        [("access_token", .str "access-1"), ("refresh_token", .str "refresh-1"),
          ("office_name", .str "Treasury"), ("wallet_address", .str "0xabc")]
        (sampleWorld futureToken).storage
      fetches := 2
      trace :=
        [.fetch (Web3.home.targetRequest "/balance" noOptions (.str futureToken)),
         .fetch (Web3.home.refreshRequest "r0")] }
    unauthorized unauthorized (by rfl) (by rfl) (by rfl) (by rfl) (by rfl) (by rfl) (by rfl)

/-! ## No refresh token in storage -/

/-- With no refresh token in storage `refreshToken` of `src/NASA/home.js` returns `null` at once:
the only effect is the redirect to the login page. -/
theorem NASA_refreshToken_no_token (env : Env) (w : World)
    (h : getItem w.storage "refresh_token" = none) :
    NASA.home.refreshToken env w = (.ok .null, w.emit (.redirect "/login.html")) := by
  simp [NASA.home.refreshToken, h]

/-- The same for `refreshToken` of `src/Web3/pages/home.js`. -/
theorem Web3_refreshToken_no_token (env : Env) (w : World)
    (h : getItem w.storage "refresh_token" = none) :
    Web3.home.refreshToken env w = (.ok .null, w.emit (.redirect "/login.html")) := by
  simp [Web3.home.refreshToken, h]

/-- A token with a non-zero `exp` in the past and no refresh token in storage: `checkAuth` of
both pages yields `null`, sends nothing and leaves storage as it was. -/
theorem checkAuth_expired_no_refresh_token (env : Env) (w : World) (tok a middle c txt : String)
    (fields : List (String × JSValue)) (e : Int)
    (hget : getItem w.storage "access_token" = some tok)
    (hsplit : split tok '.' = [a, middle, c])
    (hatob : env.atob middle = some txt)
    (hparse : env.jsonParse txt = some (.obj fields))
    (hexp : fields.lookup "exp" = some (.num e))
    (hnz : e ≠ 0) (hpast : e < currentTime env)
    (hnone : getItem w.storage "refresh_token" = none) :
    NASA.home.checkAuth env w = (.null, w.emit (.redirect "/login.html"))
    ∧ Web3.home.checkAuth env w = (.null, w.emit (.redirect "/login.html")) := by
  constructor
  · rw [NASA_checkAuth_expired env w tok a middle c txt fields e hget hsplit hatob hparse hexp
      hnz hpast, NASA_refreshToken_no_token env w hnone]
  · rw [Web3_checkAuth_expired env w tok a middle c txt fields e hget hsplit hatob hparse hexp
      hnz hpast, Web3_refreshToken_no_token env w hnone]

/-- C14 (code at the failing input): with no refresh token in storage `refreshToken` of both
pages returns `null` without a request, and `checkAuth` on the token with `exp` 1 yields `null`
without a request; but on the token with `exp` 0, expired just the same at epoch second
1700000000, `checkAuth` of both pages yields the stored token, not `null`. -/
theorem C14_expired_zero_token_is_returned :
    NASA.home.refreshToken (sampleEnv downNet) (noRefreshWorld zeroToken)
        = (.ok .null, (noRefreshWorld zeroToken).emit (.redirect "/login.html"))
    ∧ Web3.home.refreshToken (sampleEnv downNet) (noRefreshWorld zeroToken)
        = (.ok .null, (noRefreshWorld zeroToken).emit (.redirect "/login.html"))
    ∧ NASA.home.checkAuth (sampleEnv downNet) (noRefreshWorld pastToken)
        = (.null, (noRefreshWorld pastToken).emit (.redirect "/login.html"))
    ∧ Web3.home.checkAuth (sampleEnv downNet) (noRefreshWorld pastToken)
        = (.null, (noRefreshWorld pastToken).emit (.redirect "/login.html"))
    ∧ (0 : Int) < currentTime (sampleEnv downNet)
    ∧ NASA.home.checkAuth (sampleEnv downNet) (noRefreshWorld zeroToken)
        = (.str zeroToken, noRefreshWorld zeroToken)
    ∧ Web3.home.checkAuth (sampleEnv downNet) (noRefreshWorld zeroToken)
        = (.str zeroToken, noRefreshWorld zeroToken) := by
  refine ⟨by rfl, by rfl, by rfl, by rfl, by decide, by rfl, by rfl⟩

/-! ## The refresh utility of `src/NASA/login.js` -/

/-- C15 (code at the failing input): with all four fields stored and a refresh answered 200
with a body naming another office and wallet, the utility `refreshToken` of `src/NASA/login.js`
returns the new access token and replaces the two tokens, but `office_name` and
`wallet_address` keep their old values; `refreshToken` of `src/NASA/home.js` replaces all four
on the same input. -/
theorem C15_login_refresh_keeps_office_and_wallet :
    (NASA.login.refreshToken (sampleEnv renamedNet) (sampleWorld pastToken)).1
        = .ok (.str "access-2")
    ∧ getItem (NASA.login.refreshToken (sampleEnv renamedNet) (sampleWorld pastToken)).2.storage
        "access_token" = some "access-2"
    ∧ getItem (NASA.login.refreshToken (sampleEnv renamedNet) (sampleWorld pastToken)).2.storage
        "refresh_token" = some "refresh-2"
    ∧ getItem (NASA.login.refreshToken (sampleEnv renamedNet) (sampleWorld pastToken)).2.storage
        "office_name" = some "Treasury"
    ∧ getItem (NASA.login.refreshToken (sampleEnv renamedNet) (sampleWorld pastToken)).2.storage
        "wallet_address" = some "0xabc"
    ∧ getItem (NASA.home.refreshToken (sampleEnv renamedNet) (sampleWorld pastToken)).2.storage
        "office_name" = some "Customs"
    ∧ getItem (NASA.home.refreshToken (sampleEnv renamedNet) (sampleWorld pastToken)).2.storage
        "wallet_address" = some "0xdef" := by
  refine ⟨by rfl, by rfl, by rfl, by rfl, by rfl, by rfl, by rfl⟩

/-! ## The message of a refused refresh -/

/-- A refresh answered with a status outside 200-299 and the object `body`, in
`src/NASA/home.js`: the error thrown and the world left behind. -/
theorem NASA_refreshToken_refused (env : Env) (w : World) (r : String) (resp : Response)
    (body : List (String × JSValue))
    (hr : getItem w.storage "refresh_token" = some r) (hne : r ≠ "")
    (hnet : env.net w.fetches = .responds resp) (hok : resp.ok = false)
    (hjson : resp.json = .ok (.obj body)) :
    NASA.home.refreshToken env w
      = (.error ⟨"Error",
            if ((body.lookup "detail").getD .undefined).truthy
            then ((body.lookup "detail").getD .undefined).toStr else "Token refresh failed"⟩,
          { storage := removeCredentials w.storage, fetches := w.fetches + 1
            trace := w.trace ++ [.fetch (NASA.home.refreshRequest env r),
              .redirect "/login.html"] }) := by
  simp [NASA.home.refreshToken, hr, hne, fetch, hnet, NASA.home.refreshTry, hjson, hok,
    JSValue.getProp, World.withStorage, World.emit]

/-- The same for `src/Web3/pages/home.js`. -/
theorem Web3_refreshToken_refused (env : Env) (w : World) (r : String) (resp : Response)
    (body : List (String × JSValue))
    (hr : getItem w.storage "refresh_token" = some r) (hne : r ≠ "")
    (hnet : env.net w.fetches = .responds resp) (hok : resp.ok = false)
    (hjson : resp.json = .ok (.obj body)) :
    Web3.home.refreshToken env w
      = (.error ⟨"Error",
            if ((body.lookup "detail").getD .undefined).truthy
            then ((body.lookup "detail").getD .undefined).toStr else "Token refresh failed"⟩,
          { storage := removeCredentials w.storage, fetches := w.fetches + 1
            trace := w.trace ++ [.fetch (Web3.home.refreshRequest r),
              .redirect "/login.html"] }) := by
  simp [Web3.home.refreshToken, hr, hne, fetch, hnet, Web3.home.refreshTry, hjson, hok,
    JSValue.getProp, World.withStorage, World.emit]

/-- C16: for `refreshToken` of `src/NASA/home.js` and of `src/Web3/pages/home.js`, when the
refresh request is sent and answered with a status outside 200-299 and a JSON object as body:
if the body's `detail` is a non-empty string `d`, the error thrown has message `d`; if the body
has no `detail`, or an empty one, the message is `Token refresh failed`; and in every case none
of the four persisted fields is left in storage. -/
theorem C16_refused_refresh_message (env : Env) (w : World) (r : String) (resp : Response)
    (body : List (String × JSValue))
    (hr : getItem w.storage "refresh_token" = some r) (hne : r ≠ "")
    (hnet : env.net w.fetches = .responds resp) (hok : resp.ok = false)
    (hjson : resp.json = .ok (.obj body)) :
    (∀ d, body.lookup "detail" = some (.str d) → d ≠ "" →
      (NASA.home.refreshToken env w).1 = .error ⟨"Error", d⟩
      ∧ (Web3.home.refreshToken env w).1 = .error ⟨"Error", d⟩)
    ∧ (body.lookup "detail" = none ∨ body.lookup "detail" = some (.str "") →
      (NASA.home.refreshToken env w).1 = .error ⟨"Error", "Token refresh failed"⟩
      ∧ (Web3.home.refreshToken env w).1 = .error ⟨"Error", "Token refresh failed"⟩)
    ∧ (∀ k ∈ credentialKeys,
      getItem (NASA.home.refreshToken env w).2.storage k = none
      ∧ getItem (Web3.home.refreshToken env w).2.storage k = none) := by
  rw [NASA_refreshToken_refused env w r resp body hr hne hnet hok hjson,
    Web3_refreshToken_refused env w r resp body hr hne hnet hok hjson]
  refine ⟨?_, ?_, ?_⟩
  · intro d hd hdne
    simp [hd, hdne]
  · rintro (hd | hd) <;> simp [hd, JSValue.truthy]
  · intro k hk
    exact ⟨getItem_removeCredentials hk _, getItem_removeCredentials hk _⟩

theorem C16_refused_refresh_message_witness :
    (NASA.home.refreshToken (sampleEnv rejectingNet) (sampleWorld pastToken)).1
        = .error ⟨"Error", "invalid token"⟩
    ∧ (Web3.home.refreshToken (sampleEnv rejectingNet) (sampleWorld pastToken)).1
        = .error ⟨"Error", "invalid token"⟩ :=
  (C16_refused_refresh_message (sampleEnv rejectingNet) (sampleWorld pastToken) "r0"
    { status := 400, json := .ok (.obj [("detail", .str "invalid token")]) }
    [("detail", .str "invalid token")] (by rfl) (by decide) (by rfl) (by rfl) (by rfl)).1
    "invalid token" (by rfl) (by decide)

/-! ## Errors that are not connectivity faults -/

/-- C17: in the loop of `fetchWithAuth` of `src/NASA/home.js`, at any count of earlier failed
attempts below the maximum, a target `fetch` that rejects with an error which is not a
connectivity fault (the test on name `TypeError` and message containing `NetworkError` fails)
ends the call: that same error is thrown, and the only effect of the pass is the one request,
with no wait and no further request; in particular so for the first attempt of a call. -/
theorem C17_other_errors_rethrown_at_once (env : Env) (endpoint : String) (options : Options)
    (tok : JSValue) (fuel retryCount : Nat) (w : World) (e : JSError)
    (hrc : retryCount < NASA.home.maxRetries)
    (hnet : env.net w.fetches = .rejects e) (hc : isNetworkError e = false) :
    NASA.home.fetchLoop env endpoint options (fuel + 1) tok retryCount w
        = (some (.error e),
            { storage := w.storage, fetches := w.fetches + 1
              trace := w.trace ++ [.fetch (NASA.home.targetRequest env endpoint options tok)] })
    ∧ ∀ w', NASA.home.checkAuth env w' = (tok, w) → tok.truthy = true →
        NASA.home.fetchWithAuth env (fuel + 1) endpoint options w'
          = (some (.error e),
              { storage := w.storage, fetches := w.fetches + 1
                trace := w.trace
                  ++ [.fetch (NASA.home.targetRequest env endpoint options tok)] }) := by
  have hloop : ∀ rc, rc < NASA.home.maxRetries →
      NASA.home.fetchLoop env endpoint options (fuel + 1) tok rc w
        = (some (.error e),
            { storage := w.storage, fetches := w.fetches + 1
              trace := w.trace
                ++ [.fetch (NASA.home.targetRequest env endpoint options tok)] }) := by
    intro rc h
    rw [NASA.home.fetchLoop]
    simp [h, hc, tryBlock_rejects env endpoint options tok w e hnet]
  refine ⟨hloop retryCount hrc, ?_⟩
  intro w' hauth htok
  rw [NASA.home.fetchWithAuth, hauth]
  simp only [htok, Bool.not_true, Bool.false_eq_true, if_false]
  exact hloop 0 (by decide)

theorem C17_other_errors_rethrown_at_once_witness :
    isNetworkError failedToFetch = false
    ∧ NASA.home.fetchWithAuth (sampleEnv chromeDownNet) 1 "/balance" noOptions
        (sampleWorld futureToken)
      = (some (.error failedToFetch),
          { storage := (sampleWorld futureToken).storage, fetches := 1
            trace :=
              [.fetch (NASA.home.targetRequest (sampleEnv chromeDownNet) "/balance" noOptions
                (.str futureToken))] }) :=
  ⟨by rfl,
    (C17_other_errors_rethrown_at_once (sampleEnv chromeDownNet) "/balance" noOptions
      (.str futureToken) 0 0 (sampleWorld futureToken) failedToFetch (by decide) (by rfl)
      (by rfl)).2 (sampleWorld futureToken) (by rfl) (by rfl)⟩

/-! ## No token from `checkAuth` -/

/-- C18: whenever `checkAuth` yields no token (a falsy value: `null` for a missing or malformed
token or a refresh that threw, or whatever falsy value the refresh returned), `fetchWithAuth`
of both pages returns `null` and the world is the one `checkAuth` left: no request is sent to
the target endpoint.  In particular so when no access token is stored. -/
theorem C18_no_token_aborts_with_null (env : Env) (endpoint : String) (options : Options)
    (fuel : Nat) (w : World) :
    ((NASA.home.checkAuth env w).1.truthy = false →
      NASA.home.fetchWithAuth env fuel endpoint options w
        = (some (.ok .null), (NASA.home.checkAuth env w).2))
    ∧ ((Web3.home.checkAuth env w).1.truthy = false →
      Web3.home.fetchWithAuth env endpoint options w
        = (.ok .null, (Web3.home.checkAuth env w).2))
    ∧ (getItem w.storage "access_token" = none →
      NASA.home.fetchWithAuth env fuel endpoint options w
          = (some (.ok .null), NASA.home.navigateToLogin env w)
      ∧ Web3.home.fetchWithAuth env endpoint options w
          = (.ok .null, w.emit (.redirect "/login.html"))) := by
  refine ⟨?_, ?_, ?_⟩
  · intro h
    rw [NASA.home.fetchWithAuth]
    rcases hc : NASA.home.checkAuth env w with ⟨tok, w0⟩
    rw [hc] at h
    simp only [] at h
    simp [h]
  · intro h
    rw [Web3.home.fetchWithAuth]
    rcases hc : Web3.home.checkAuth env w with ⟨tok, w0⟩
    rw [hc] at h
    simp only [] at h
    simp [h]
  · intro h
    constructor
    · simp [NASA.home.fetchWithAuth, NASA.home.checkAuth, h, JSValue.truthy]
    · simp [Web3.home.fetchWithAuth, Web3.home.checkAuth, h, JSValue.truthy]

theorem C18_no_token_aborts_with_null_witness :
    NASA.home.fetchWithAuth (sampleEnv okNet) 3 "/balance" noOptions emptyWorld
        = (some (.ok .null),
            { storage := [], fetches := 0, trace := [.redirect "/NASA/login.html"] })
    ∧ Web3.home.fetchWithAuth (sampleEnv okNet) "/balance" noOptions (sampleWorld "garbage")
        = (.ok .null, (Web3.home.checkAuth (sampleEnv okNet) (sampleWorld "garbage")).2) :=
  ⟨((C18_no_token_aborts_with_null (sampleEnv okNet) "/balance" noOptions 3 emptyWorld).2.2
      (by rfl)).1,
   (C18_no_token_aborts_with_null (sampleEnv okNet) "/balance" noOptions 3
      (sampleWorld "garbage")).2.1 (by rfl)⟩

/-! ## The submit handler of `src/NASA/login.js` -/

/-- C19 (counterexample): in registration mode, with nothing in storage and `/register`
answered 200 with a full token body, the submit handler writes nothing: storage is still
empty, and the user is told to sign in. -/
theorem C19_registration_stores_nothing :
    (requests (NASA.login.onSubmit (sampleEnv refreshOkNet) false "Treasury" "secret"
        emptyWorld).trace).map (fun req => req.url) = ["http://127.0.0.1:8000/register"]
    ∧ (NASA.login.onSubmit (sampleEnv refreshOkNet) false "Treasury" "secret"
        emptyWorld).storage = []
    ∧ getItem (NASA.login.onSubmit (sampleEnv refreshOkNet) false "Treasury" "secret"
        emptyWorld).storage "access_token" = none
    ∧ (NASA.login.onSubmit (sampleEnv refreshOkNet) false "Treasury" "secret" emptyWorld).trace
        = [.fetch
            { url := "http://127.0.0.1:8000/register"
              method := some "POST"
              headers := [("Content-Type", "application/json")]
              body := some (.json (.obj [("office_name", .str "Treasury"),
                ("password", .str "secret")]))
              mode := none
              credentials := none },
           .display "successMessage" "Registration successful! Please sign in.",
           .timer 2000 "toggleAuth.click"] := by
  refine ⟨by rfl, by rfl, by rfl, by rfl⟩

/-- C19 (amended): for the submit handler of `src/NASA/login.js`: in login mode (POST `/token`),
whenever the backend answers 2xx with a JSON object, `access_token`, `refresh_token`,
`office_name` and `wallet_address` are written to storage from the body's fields of the same
names; in registration mode (POST `/register`) storage is left unchanged whatever the answer;
and in either mode storage is left unchanged on a non-2xx answer and when `fetch` rejects. -/
theorem C19_submit_writes_tokens_in_login_mode_only (env : Env) (officeName password : String)
    (w : World) :
    (∀ resp body, env.net w.fetches = .responds resp → resp.ok = true →
      resp.json = .ok (.obj body) →
      (NASA.login.onSubmit env true officeName password w).storage
          = refreshedStorage body w.storage
      ∧ ∀ k ∈ credentialKeys,
          getItem (NASA.login.onSubmit env true officeName password w).storage k
            = some ((body.lookup k).getD .undefined).toStr)
    ∧ (NASA.login.onSubmit env false officeName password w).storage = w.storage
    ∧ (∀ isLogin resp, env.net w.fetches = .responds resp → resp.ok = false →
      (NASA.login.onSubmit env isLogin officeName password w).storage = w.storage)
    ∧ (∀ isLogin e, env.net w.fetches = .rejects e →
      (NASA.login.onSubmit env isLogin officeName password w).storage = w.storage) := by
  refine ⟨?_, ?_, ?_, ?_⟩
  · intro resp body hnet hok hjson
    have hrun : (NASA.login.onSubmit env true officeName password w).storage
        = refreshedStorage body w.storage := by
      simp [NASA.login.onSubmit, fetch, hnet, hjson, hok, JSValue.getProp, World.emit,
        World.withStorage, refreshedStorage]
    refine ⟨hrun, ?_⟩
    rw [hrun]
    obtain ⟨h1, h2, h3, h4⟩ := getItem_after_refresh
      ((body.lookup "access_token").getD .undefined).toStr
      ((body.lookup "refresh_token").getD .undefined).toStr
      ((body.lookup "office_name").getD .undefined).toStr
      ((body.lookup "wallet_address").getD .undefined).toStr w.storage
    intro k hk
    simp only [credentialKeys, List.mem_cons, List.mem_singleton, List.not_mem_nil,
      or_false] at hk
    rcases hk with rfl | rfl | rfl | rfl
    · exact h1
    · exact h2
    · exact h3
    · exact h4
  · unfold NASA.login.onSubmit
    cases hnet : env.net w.fetches with
    | rejects e => simp [fetch, hnet, World.emit]
    | responds response =>
      cases hj : response.json with
      | error e => simp [fetch, hnet, hj, World.emit]
      | ok data =>
        by_cases hok : response.ok = true
        · simp [fetch, hnet, hj, hok, World.emit]
        · cases hd : data.getProp "detail" with
          | error e => simp [fetch, hnet, hj, hok, hd, World.emit]
          | ok d => simp [fetch, hnet, hj, hok, hd, World.emit]
  · intro isLogin resp hnet hok
    unfold NASA.login.onSubmit
    cases hj : resp.json with
    | error e => simp [fetch, hnet, hj, World.emit]
    | ok data =>
      cases hd : data.getProp "detail" with
      | error e => simp [fetch, hnet, hj, hok, hd, World.emit]
      | ok d => simp [fetch, hnet, hj, hok, hd, World.emit]
  · intro isLogin e hnet
    simp [NASA.login.onSubmit, fetch, hnet, World.emit]

theorem C19_submit_writes_tokens_in_login_mode_only_witness :
    getItem (NASA.login.onSubmit (sampleEnv renamedNet) true "Customs" "secret"
        emptyWorld).storage "office_name" = some "Customs"
    ∧ (NASA.login.onSubmit (sampleEnv rejectingNet) true "Customs" "secret"
        (sampleWorld pastToken)).storage = (sampleWorld pastToken).storage :=
  ⟨((C19_submit_writes_tokens_in_login_mode_only (sampleEnv renamedNet) "Customs" "secret"
      emptyWorld).1
      { status := 200, json := .ok (.obj [("access_token", .str "access-2"),
          ("refresh_token", .str "refresh-2"), ("office_name", .str "Customs"),
          ("wallet_address", .str "0xdef")]) }
      [("access_token", .str "access-2"), ("refresh_token", .str "refresh-2"),
        ("office_name", .str "Customs"), ("wallet_address", .str "0xdef")]
      (by rfl) (by rfl) (by rfl)).2 "office_name" (by decide),
   (C19_submit_writes_tokens_in_login_mode_only (sampleEnv rejectingNet) "Customs" "secret"
      (sampleWorld pastToken)).2.2.1 true
      { status := 400, json := .ok (.obj [("detail", .str "invalid token")]) }
      (by rfl) (by rfl)⟩

/-! ## `handleLogout` -/

/-- C20 (counterexample): with all four fields stored, a `/logout` answered with status 400, or
not reachable at all, leaves every field in storage, in both pages. -/
theorem C20_failed_logout_keeps_credentials :
    (NASA.home.handleLogout (sampleEnv rejectingNet) (sampleWorld futureToken)).storage
        = (sampleWorld futureToken).storage
    ∧ (Web3.home.handleLogout (sampleEnv rejectingNet) (sampleWorld futureToken)).storage
        = (sampleWorld futureToken).storage
    ∧ (NASA.home.handleLogout (sampleEnv downNet) (sampleWorld futureToken)).storage
        = (sampleWorld futureToken).storage
    ∧ (Web3.home.handleLogout (sampleEnv downNet) (sampleWorld futureToken)).storage
        = (sampleWorld futureToken).storage
    ∧ getItem (NASA.home.handleLogout (sampleEnv rejectingNet) (sampleWorld futureToken)).storage
        "access_token" = some futureToken
    ∧ getItem (Web3.home.handleLogout (sampleEnv downNet) (sampleWorld futureToken)).storage
        "refresh_token" = some "r0" := by
  refine ⟨by rfl, by rfl, by rfl, by rfl, by rfl, by rfl⟩

/-- C20 (amended): for `handleLogout` of both pages, run with a non-empty access token in
storage: when `/logout` answers 2xx with a JSON body, none of `access_token`, `refresh_token`,
`office_name`, `wallet_address` remains in storage when it completes (`src/NASA/home.js` empties
the whole storage); when `/logout` answers with a status outside 200-299, when the body is not
JSON, or when `fetch` rejects, storage is left as it was. -/
theorem C20_logout_clears_on_success_only (env : Env) (w : World) (token : String)
    (hget : getItem w.storage "access_token" = some token) (hne : token ≠ "") :
    (∀ resp data, env.net w.fetches = .responds resp → resp.ok = true →
      resp.json = .ok data →
      (NASA.home.handleLogout env w).storage = []
      ∧ (Web3.home.handleLogout env w).storage = removeCredentials w.storage
      ∧ ∀ k ∈ credentialKeys,
          getItem (NASA.home.handleLogout env w).storage k = none
          ∧ getItem (Web3.home.handleLogout env w).storage k = none)
    ∧ (∀ resp, env.net w.fetches = .responds resp → resp.ok = false →
      (NASA.home.handleLogout env w).storage = w.storage
      ∧ (Web3.home.handleLogout env w).storage = w.storage)
    ∧ (∀ resp e, env.net w.fetches = .responds resp → resp.json = .error e →
      (NASA.home.handleLogout env w).storage = w.storage
      ∧ (Web3.home.handleLogout env w).storage = w.storage)
    ∧ (∀ e, env.net w.fetches = .rejects e →
      (NASA.home.handleLogout env w).storage = w.storage
      ∧ (Web3.home.handleLogout env w).storage = w.storage) := by
  refine ⟨?_, ?_, ?_, ?_⟩
  · intro resp data hnet hok hjson
    have hN : (NASA.home.handleLogout env w).storage = [] := by
      simp [NASA.home.handleLogout, hget, hne, fetch, hnet, hjson, hok,
        NASA.home.navigateToLogin, World.emit, World.withStorage]
    have hW : (Web3.home.handleLogout env w).storage = removeCredentials w.storage := by
      cases hm : data.getProp "message" with
      | error e =>
        simp [Web3.home.handleLogout, hget, hne, fetch, hnet, hjson, hok, hm, World.emit,
          World.withStorage]
      | ok m =>
        simp [Web3.home.handleLogout, hget, hne, fetch, hnet, hjson, hok, hm, World.emit,
          World.withStorage]
    refine ⟨hN, hW, ?_⟩
    intro k hk
    rw [hN, hW]
    exact ⟨rfl, getItem_removeCredentials hk _⟩
  · intro resp hnet hok
    cases hj : resp.json with
    | error e =>
      constructor
      · simp [NASA.home.handleLogout, hget, hne, fetch, hnet, hj, World.emit]
      · simp [Web3.home.handleLogout, hget, hne, fetch, hnet, hj, World.emit]
    | ok data =>
      cases hm : data.getProp "message" with
      | error e =>
        constructor
        · simp [NASA.home.handleLogout, hget, hne, fetch, hnet, hj, hok, hm, World.emit]
        · simp [Web3.home.handleLogout, hget, hne, fetch, hnet, hj, hok, hm, World.emit]
      | ok m =>
        constructor
        · simp [NASA.home.handleLogout, hget, hne, fetch, hnet, hj, hok, hm, World.emit]
        · simp [Web3.home.handleLogout, hget, hne, fetch, hnet, hj, hok, hm, World.emit]
  · intro resp e hnet hj
    constructor
    · simp [NASA.home.handleLogout, hget, hne, fetch, hnet, hj, World.emit]
    · simp [Web3.home.handleLogout, hget, hne, fetch, hnet, hj, World.emit]
  · intro e hnet
    constructor
    · simp [NASA.home.handleLogout, hget, hne, fetch, hnet, World.emit]
    · simp [Web3.home.handleLogout, hget, hne, fetch, hnet, World.emit]

theorem C20_logout_clears_on_success_only_witness :
    (NASA.home.handleLogout (sampleEnv okNet) (sampleWorld futureToken)).storage = []
    ∧ getItem (Web3.home.handleLogout (sampleEnv okNet) (sampleWorld futureToken)).storage
        "refresh_token" = none :=
  ⟨((C20_logout_clears_on_success_only (sampleEnv okNet) (sampleWorld futureToken) futureToken
      (by rfl) (by decide)).1 balanceReply (.obj [("balance", .num 5)])
      (by rfl) (by rfl) (by rfl)).1,
   (((C20_logout_clears_on_success_only (sampleEnv okNet) (sampleWorld futureToken) futureToken
      (by rfl) (by decide)).1 balanceReply (.obj [("balance", .num 5)])
      (by rfl) (by rfl) (by rfl)).2.2 "refresh_token" (by decide)).2⟩

/-! ## `handleApiResponse` -/

/-- C21: `handleApiResponse` of both pages hands back, for a response with a 2xx status, what
`response.json()` settles to, so the parsed body when there is one.  For a response with any
other status it throws an `Error`: its message is the body's `detail` when the body is a JSON
object with a non-empty string under `detail` (and the string form of any other truthy
`detail`), and the caller's `errorMessage` when the body cannot be parsed, is not an object, or
has no `detail` or a falsy one; the error of a failed parse is never what is thrown. -/
theorem C21_handleApiResponse_outcomes (response : Response) (errorMessage : String) :
    (response.ok = true →
      NASA.home.handleApiResponse response errorMessage = response.json
      ∧ Web3.home.handleApiResponse response errorMessage = response.json)
    ∧ (response.ok = false →
      (∀ body d, response.json = .ok (.obj body) → body.lookup "detail" = some (.str d) →
        d ≠ "" →
        NASA.home.handleApiResponse response errorMessage = .error ⟨"Error", d⟩
        ∧ Web3.home.handleApiResponse response errorMessage = .error ⟨"Error", d⟩)
      ∧ (∀ data, response.json = .ok data → (data.getPropOptional "detail").truthy = true →
        NASA.home.handleApiResponse response errorMessage
            = .error ⟨"Error", (data.getPropOptional "detail").toStr⟩
        ∧ Web3.home.handleApiResponse response errorMessage
            = .error ⟨"Error", (data.getPropOptional "detail").toStr⟩)
      ∧ (∀ data, response.json = .ok data → (data.getPropOptional "detail").truthy = false →
        NASA.home.handleApiResponse response errorMessage = .error ⟨"Error", errorMessage⟩
        ∧ Web3.home.handleApiResponse response errorMessage = .error ⟨"Error", errorMessage⟩)
      ∧ (∀ e, response.json = .error e →
        NASA.home.handleApiResponse response errorMessage = .error ⟨"Error", errorMessage⟩
        ∧ Web3.home.handleApiResponse response errorMessage
            = .error ⟨"Error", errorMessage⟩)) := by
  refine ⟨?_, ?_⟩
  · intro hok
    simp [NASA.home.handleApiResponse, Web3.home.handleApiResponse, hok]
  · intro hok
    refine ⟨?_, ?_, ?_, ?_⟩
    · intro body d hjson hd hne
      simp [NASA.home.handleApiResponse, Web3.home.handleApiResponse, hok, hjson,
        JSValue.getPropOptional, hd, hne]
    · intro data hjson ht
      simp [NASA.home.handleApiResponse, Web3.home.handleApiResponse, hok, hjson, ht]
    · intro data hjson ht
      simp [NASA.home.handleApiResponse, Web3.home.handleApiResponse, hok, hjson, ht]
    · intro e hjson
      simp [NASA.home.handleApiResponse, Web3.home.handleApiResponse, hok, hjson,
        JSValue.getPropOptional, JSValue.truthy]

theorem C21_handleApiResponse_outcomes_witness :
    NASA.home.handleApiResponse balanceReply "Failed to fetch balance"
        = .ok (.obj [("balance", .num 5)])
    ∧ Web3.home.handleApiResponse unauthorized "Failed to fetch balance"
        = .error ⟨"Error", "Could not validate credentials"⟩
    ∧ NASA.home.handleApiResponse { status := 502, json := .error ⟨"SyntaxError", "bad"⟩ }
        "Failed to fetch balance" = .error ⟨"Error", "Failed to fetch balance"⟩ :=
  ⟨((C21_handleApiResponse_outcomes balanceReply "Failed to fetch balance").1 (by rfl)).1,
   ((C21_handleApiResponse_outcomes unauthorized "Failed to fetch balance").2 (by rfl)).1
      [("detail", .str "Could not validate credentials")] "Could not validate credentials"
      (by rfl) (by rfl) (by decide) |>.2,
   (((C21_handleApiResponse_outcomes { status := 502, json := .error ⟨"SyntaxError", "bad"⟩ }
      "Failed to fetch balance").2 (by rfl)).2.2.2 ⟨"SyntaxError", "bad"⟩ (by rfl)).1⟩

/-! ## The end of the loop in `fetchWithAuth` of `src/NASA/home.js` -/

/-- What a pass of the loop returns, when it returns: `null`, or the response `fetch` just
produced. -/
theorem NASA_tryBlock_done (env : Env) (endpoint : String) (options : Options)
    (tok : JSValue) (w : World) (v : Returned)
    (h : (NASA.home.tryBlock env endpoint options tok w).1 = .ok (.done v)) :
    v = .null ∨ ∃ r, v = .response r ∧ env.net w.fetches = .responds r := by
  unfold NASA.home.tryBlock at h
  simp only [fetch] at h
  cases hnet : env.net w.fetches with
  | rejects e => simp [hnet] at h
  | responds response =>
    by_cases hs : response.status = 401
    · simp only [hnet, hs, if_true] at h
      rcases hrt : NASA.home.refreshToken env
        { storage := w.storage, fetches := w.fetches + 1
          trace := w.trace ++ [.fetch (NASA.home.targetRequest env endpoint options tok)] }
        with ⟨res, w2⟩
      rw [hrt] at h
      cases res with
      | error e => simp at h
      | ok t =>
        by_cases ht : t.truthy = true
        · simp [ht] at h
        · simp [ht] at h
          exact Or.inl h.symm
    · simp [hnet, hs] at h
      exact Or.inr ⟨response, h.symm, rfl⟩

/-- The loop of `fetchWithAuth`, entered with fewer than `maxRetries` failures counted, never
ends by falling out of the `while`: whatever it returns is `null` or a response that some
`fetch` of the run produced. -/
theorem NASA_fetchLoop_returns (env : Env) (endpoint : String) (options : Options) :
    ∀ (fuel : Nat) (tok : JSValue) (retryCount : Nat) (w : World) (v : Returned),
      retryCount < NASA.home.maxRetries →
      (NASA.home.fetchLoop env endpoint options fuel tok retryCount w).1 = some (.ok v) →
      v = .null ∨ ∃ r k, v = .response r ∧ env.net k = .responds r := by
  intro fuel
  induction fuel with
  | zero =>
    intro tok rc w v _ h
    simp [NASA.home.fetchLoop] at h
  | succ n ih =>
    intro tok rc w v hrc h
    rw [NASA.home.fetchLoop] at h
    simp only [hrc, if_true] at h
    have hdone := NASA_tryBlock_done env endpoint options tok w
    rcases htb : NASA.home.tryBlock env endpoint options tok w with ⟨res, w1⟩
    rw [htb] at h hdone
    cases res with
    | ok tr =>
      cases tr with
      | done v2 =>
        simp only [Option.some.injEq, Except.ok.injEq] at h
        subst h
        rcases hdone v2 rfl with h1 | ⟨r, h1, h2⟩
        · exact Or.inl h1
        · exact Or.inr ⟨r, w.fetches, h1, h2⟩
      | again t => exact ih t rc w1 v hrc h
    | error e =>
      by_cases hc : isNetworkError e = true
      · by_cases hlast : rc + 1 = NASA.home.maxRetries
        · simp [hc, hlast] at h
        · simp only [hc, hlast, if_true, if_false] at h
          have hrc2 : rc + 1 < NASA.home.maxRetries := by
            simp only [NASA.home.maxRetries] at hrc hlast ⊢
            omega
          exact ih tok (rc + 1) _ v hrc2 h
      · simp [hc] at h

/-- C25: a call of `fetchWithAuth` of `src/NASA/home.js` that completes never resolves to
`undefined`: if it returns, it returns `null` or a response object that a `fetch` of the run
produced (otherwise it throws), because the loop is entered with `retryCount` 0 and the count
reaches `maxRetries` only in the `catch` block, on a path that throws. -/
theorem C25_fall_through_unreachable (env : Env) (fuel : Nat) (endpoint : String)
    (options : Options) (w : World) :
    (NASA.home.fetchWithAuth env fuel endpoint options w).1 ≠ some (.ok .undefined)
    ∧ ∀ v, (NASA.home.fetchWithAuth env fuel endpoint options w).1 = some (.ok v) →
        v = .null ∨ ∃ r k, v = .response r ∧ env.net k = .responds r := by
  have key : ∀ v, (NASA.home.fetchWithAuth env fuel endpoint options w).1 = some (.ok v) →
      v = .null ∨ ∃ r k, v = .response r ∧ env.net k = .responds r := by
    intro v h
    rw [NASA.home.fetchWithAuth] at h
    rcases hc : NASA.home.checkAuth env w with ⟨tok, w0⟩
    rw [hc] at h
    by_cases htok : tok.truthy = true
    · simp only [htok, Bool.not_true, Bool.false_eq_true, if_false] at h
      exact NASA_fetchLoop_returns env endpoint options fuel tok 0 w0 v (by decide) h
    · simp [htok] at h
      exact Or.inl h.symm
  refine ⟨?_, key⟩
  intro h
  rcases key _ h with h1 | ⟨r, k, h1, _⟩
  · cases h1
  · cases h1

theorem C25_fall_through_unreachable_witness :
    (NASA.home.fetchWithAuth (sampleEnv once401Net) 2 "/balance" noOptions
        (sampleWorld futureToken)).1 ≠ some (.ok .undefined)
    ∧ (Returned.response balanceReply = .null
      ∨ ∃ r k, Returned.response balanceReply = .response r
          ∧ (sampleEnv once401Net).net k = .responds r) :=
  ⟨(C25_fall_through_unreachable (sampleEnv once401Net) 2 "/balance" noOptions
      (sampleWorld futureToken)).1,
   (C25_fall_through_unreachable (sampleEnv once401Net) 2 "/balance" noOptions
      (sampleWorld futureToken)).2 (.response balanceReply) (by rfl)⟩

/-! ## The two `fetchWithAuth` side by side -/

/-- C26 (code at the failing input): from the same storage (a valid token, refresh token
`r0`) and the same replies (the target answers 401 once and 200 afterwards, no target `fetch`
throws, the `fetch` of `/refresh-token` rejects with a `NetworkError` `TypeError`),
`fetchWithAuth` of `src/NASA/home.js` sends two target requests and returns the 200 response,
while `fetchWithAuth` of `src/Web3/pages/home.js` sends one and throws the refresh failure. -/
theorem C26_refresh_network_failure_breaks_equivalence :
    refreshDownNet 0 = .responds unauthorized
    ∧ refreshDownNet 1 = .rejects networkError
    ∧ refreshDownNet 2 = .responds balanceReply
    ∧ (NASA.home.fetchWithAuth (sampleEnv refreshDownNet) 3 "/balance" noOptions
        (sampleWorld futureToken)).1 = some (.ok (.response balanceReply))
    ∧ (Web3.home.fetchWithAuth (sampleEnv refreshDownNet) "/balance" noOptions
        (sampleWorld futureToken)).1 = .error networkError
    ∧ requestsTo "http://localhost:8000/balance"
        (NASA.home.fetchWithAuth (sampleEnv refreshDownNet) 3 "/balance" noOptions
          (sampleWorld futureToken)).2.trace = 2
    ∧ requestsTo "http://127.0.0.1:8000/balance"
        (Web3.home.fetchWithAuth (sampleEnv refreshDownNet) "/balance" noOptions
          (sampleWorld futureToken)).2.trace = 1
    ∧ (requests (NASA.home.fetchWithAuth (sampleEnv refreshDownNet) 3 "/balance" noOptions
        (sampleWorld futureToken)).2.trace).length = 3
    ∧ (requests (Web3.home.fetchWithAuth (sampleEnv refreshDownNet) "/balance" noOptions
        (sampleWorld futureToken)).2.trace).length = 2 := by
  refine ⟨by rfl, by rfl, by rfl, by rfl, by rfl, by rfl, by rfl, by rfl, by rfl⟩

/-! ## `fetchWithRetry` -/

/-- After `k` failed attempts that are not the last one allowed, the loop of `fetchWithRetry`
is at attempt `i + k`, having sent `k` requests and waited after each. -/
theorem retryLoop_failures (env : Env) (request : Request) (maxRetries : Int) :
    ∀ (k i fuel : Nat) (w : World),
      ((i + k : Nat) : Int) < maxRetries →
      (∀ j, j < k → ∃ e, env.net (w.fetches + j) = .rejects e) →
      NASA.home.retryLoop env request maxRetries (fuel + k) i w
        = NASA.home.retryLoop env request maxRetries fuel (i + k)
            { storage := w.storage, fetches := w.fetches + k
              trace := w.trace ++ failedAttempts request k i } := by
  intro k
  induction k with
  | zero =>
    intro i fuel w _ _
    simp [failedAttempts]
  | succ n ih =>
    intro i fuel w hlt hfail
    obtain ⟨e, he⟩ := hfail 0 (by omega)
    have hi : (i : Int) < maxRetries := by omega
    have hnl : ¬ (i : Int) = maxRetries - 1 := by omega
    have hstep : NASA.home.retryLoop env request maxRetries (fuel + n + 1) i w
        = NASA.home.retryLoop env request maxRetries (fuel + n) (i + 1)
            { storage := w.storage, fetches := w.fetches + 1
              trace := w.trace ++ [.fetch request, .wait (1000 * (i + 1))] } := by
      rw [NASA.home.retryLoop]
      simp only [Nat.add_zero] at he
      simp [hi, hnl, fetch, he, World.emit]
    have hnext := ih (i + 1) fuel
      { storage := w.storage, fetches := w.fetches + 1
        trace := w.trace ++ [.fetch request, .wait (1000 * (i + 1))] }
      (by omega)
      (by
        intro j hj
        obtain ⟨e2, he2⟩ := hfail (j + 1) (by omega)
        exact ⟨e2, by
          show env.net (w.fetches + 1 + j) = _
          rw [← he2]
          congr 1
          omega⟩)
    have hidx : i + 1 + n = i + (n + 1) := by omega
    have hfu : fuel + (n + 1) = fuel + n + 1 := by omega
    rw [hfu, hstep, hnext, hidx]
    simp [failedAttempts, Nat.add_assoc, Nat.add_comm 1 n]

/-- C29: `fetchWithRetry` of `src/NASA/home.js`, given enough fuel for its passes.  For
`maxRetries <= 0` it makes no call and resolves to `undefined`.  For `maxRetries >= 1`: when the
first `k` attempts fail, with errors of any kind, and attempt `k` (counted from 0, `k` less than
`maxRetries`) is answered, that response is returned after `k + 1` requests, a wait of
1000 * (i + 1) ms following failed attempt `i` and nothing following the answer; when all
`maxRetries` attempts fail, the error of the last one is thrown after exactly `maxRetries`
requests, with the same waits between them and none after the last. -/
theorem C29_fetchWithRetry_attempts_and_delays (env : Env) (request : Request)
    (maxRetries : Int) (fuel : Nat) (w : World) :
    (maxRetries ≤ 0 → 1 ≤ fuel →
      NASA.home.fetchWithRetry env fuel request maxRetries w = (some (.ok .undefined), w))
    ∧ (∀ (k : Nat) (r : Response), (k : Int) < maxRetries → k + 1 ≤ fuel →
      (∀ j, j < k → ∃ e, env.net (w.fetches + j) = .rejects e) →
      env.net (w.fetches + k) = .responds r →
      NASA.home.fetchWithRetry env fuel request maxRetries w
        = (some (.ok (.response r)),
            { storage := w.storage, fetches := w.fetches + k + 1
              trace := w.trace ++ failedAttempts request k 0 ++ [.fetch request] }))
    ∧ (∀ (k : Nat) (e : JSError), (k : Int) + 1 = maxRetries → k + 1 ≤ fuel →
      (∀ j, j < k → ∃ e2, env.net (w.fetches + j) = .rejects e2) →
      env.net (w.fetches + k) = .rejects e →
      NASA.home.fetchWithRetry env fuel request maxRetries w
        = (some (.error e),
            { storage := w.storage, fetches := w.fetches + k + 1
              trace := w.trace ++ failedAttempts request k 0 ++ [.fetch request] })) := by
  refine ⟨?_, ?_, ?_⟩
  · intro hm hfuel
    obtain ⟨f, rfl⟩ := Nat.exists_eq_add_of_le hfuel
    have h0 : ¬ ((0 : Nat) : Int) < maxRetries := by omega
    have hf : 1 + f = f + 1 := by omega
    rw [NASA.home.fetchWithRetry, hf, NASA.home.retryLoop]
    simp only [h0, if_false]
  · intro k r hk hfuel hfail hnet
    obtain ⟨f, rfl⟩ := Nat.exists_eq_add_of_le hfuel
    have hf : k + 1 + f = (f + 1) + k := by omega
    rw [NASA.home.fetchWithRetry, hf,
      retryLoop_failures env request maxRetries k 0 (f + 1) w (by omega) hfail,
      NASA.home.retryLoop]
    simp [hk, fetch, hnet]
  · intro k e hk hfuel hfail hnet
    obtain ⟨f, rfl⟩ := Nat.exists_eq_add_of_le hfuel
    have hf : k + 1 + f = (f + 1) + k := by omega
    rw [NASA.home.fetchWithRetry, hf,
      retryLoop_failures env request maxRetries k 0 (f + 1) w (by omega) hfail,
      NASA.home.retryLoop]
    have hk2 : (k : Int) < maxRetries := by omega
    have hk3 : (k : Int) = maxRetries - 1 := by omega
    simp [hk2, hk3, fetch, hnet]

theorem C29_fetchWithRetry_attempts_and_delays_witness :
    NASA.home.fetchWithRetry (sampleEnv downNet) 3 modalRequest 3 emptyWorld
        = (some (.error networkError),
            { storage := [], fetches := 3
              trace := [.fetch modalRequest, .wait 1000, .fetch modalRequest, .wait 2000,
                .fetch modalRequest] })
    ∧ NASA.home.fetchWithRetry (sampleEnv flakyNet) 3 modalRequest 3 emptyWorld
        = (some (.ok (.response balanceReply)),
            { storage := [], fetches := 2
              trace := [.fetch modalRequest, .wait 1000, .fetch modalRequest] })
    ∧ NASA.home.fetchWithRetry (sampleEnv downNet) 1 modalRequest 0 emptyWorld
        = (some (.ok .undefined), emptyWorld) :=
  ⟨(C29_fetchWithRetry_attempts_and_delays (sampleEnv downNet) modalRequest 3 3
      emptyWorld).2.2 2 networkError (by decide) (by decide)
      (fun _ _ => ⟨networkError, rfl⟩) (by rfl),
   (C29_fetchWithRetry_attempts_and_delays (sampleEnv flakyNet) modalRequest 3 3
      emptyWorld).2.1 1 balanceReply (by decide) (by decide)
      (fun j hj => ⟨networkError, by
        have h0 : j = 0 := by omega
        subst h0
        rfl⟩) (by rfl),
   (C29_fetchWithRetry_attempts_and_delays (sampleEnv downNet) modalRequest 0 1
      emptyWorld).1 (by decide) (by decide)⟩

/-! ## `truncateAddress` -/

theorem truncateAddress_of_chars (l : List Char) (h : l ≠ []) :
    NASA.citizenPortal.truncateAddress (some (String.mk l))
      = String.mk (l.take 8 ++ ['.', '.', '.'] ++ l.drop (l.length - 6)) := by
  have hne : String.mk l ≠ "" := by
    intro he
    apply h
    have := congrArg String.data he
    simpa using this
  simp only [NASA.citizenPortal.truncateAddress, hne, if_false]
  rfl

/-- C30: `truncateAddress`, defined alike in `src/NASA/citizen-portal.js` and in
`CitizenPortal.tsx`.  A missing or empty address gives `N/A`.  A non-empty address `a` gives
its first min(8, |a|) characters, three dots, and its last min(6, |a|) characters.  For
|a| >= 14 the result has length 17 and the two shown parts are disjoint pieces of `a`; for
|a| < 14 the suffix starts before the prefix ends; for |a| <= 6 the result is `a`, three dots
and `a` again, longer than `a`.  The two implementations agree on every input. -/
theorem C30_truncateAddress_shape (a : String) :
    NASA.citizenPortal.truncateAddress none = "N/A"
    ∧ NASA.citizenPortal.truncateAddress (some "") = "N/A"
    ∧ (a ≠ "" →
      NASA.citizenPortal.truncateAddress (some a)
        = String.mk (a.toList.take (min 8 a.length)) ++ "..."
            ++ String.mk (a.toList.drop (a.length - min 6 a.length)))
    ∧ (14 ≤ a.length →
      (NASA.citizenPortal.truncateAddress (some a)).length = 17
      ∧ ∃ mid, a.toList = a.toList.take 8 ++ mid ++ a.toList.drop (a.length - 6))
    ∧ (a ≠ "" → a.length < 14 → a.length - min 6 a.length < min 8 a.length)
    ∧ (a ≠ "" → a.length ≤ 6 →
      NASA.citizenPortal.truncateAddress (some a) = a ++ "..." ++ a
      ∧ a.length < (NASA.citizenPortal.truncateAddress (some a)).length)
    ∧ ∀ x, React.CitizenPortal.truncateAddress x = NASA.citizenPortal.truncateAddress x := by
  obtain ⟨l⟩ := a
  have hlen : (String.mk l).length = l.length := rfl
  have hlist : (String.mk l).toList = l := rfl
  have hnil : String.mk l ≠ "" → l ≠ [] := by
    intro h hl
    apply h
    rw [hl]
  refine ⟨by rfl, by rfl, ?_, ?_, ?_, ?_, ?_⟩
  · intro hne
    rw [truncateAddress_of_chars l (hnil hne), hlen, hlist]
    have h1 : l.take (min 8 l.length) = l.take 8 := by
      rcases Nat.le_total 8 l.length with h | h
      · rw [Nat.min_eq_left h]
      · rw [Nat.min_eq_right h, List.take_length, List.take_of_length_le h]
    have h2 : l.length - min 6 l.length = l.length - 6 := by omega
    rw [h1, h2]
    rfl
  · intro h14
    rw [hlen] at h14
    have hl : l ≠ [] := by
      intro hl
      rw [hl] at h14
      simp at h14
    rw [truncateAddress_of_chars l hl, hlist, hlen]
    constructor
    · show (l.take 8 ++ ['.', '.', '.'] ++ l.drop (l.length - 6)).length = 17
      simp only [List.length_append, List.length_take, List.length_drop, List.length_cons,
        List.length_nil]
      omega
    · refine ⟨(l.drop 8).take (l.length - 14), ?_⟩
      have h3 : l.drop (l.length - 6) = (l.drop 8).drop (l.length - 14) := by
        rw [List.drop_drop]
        congr 1
        omega
      rw [h3, List.append_assoc, List.take_append_drop, List.take_append_drop]
  · intro hne hlt
    have hlt2 : l.length < 14 := hlt
    have hpos : 0 < l.length := List.length_pos.2 (hnil hne)
    show l.length - min 6 l.length < min 8 l.length
    omega
  · intro hne h6
    rw [hlen] at h6
    rw [truncateAddress_of_chars l (hnil hne), hlen]
    have h1 : l.take 8 = l := List.take_of_length_le (by omega)
    have h2 : l.length - 6 = 0 := by omega
    rw [h1, h2, List.drop_zero]
    constructor
    · rfl
    · show l.length < (l ++ ['.', '.', '.'] ++ l).length
      simp only [List.length_append, List.length_cons, List.length_nil]
      omega
  · intro x
    rfl

theorem C30_truncateAddress_shape_witness :
    NASA.citizenPortal.truncateAddress (some "0x1234567890abcdef") = "0x123456...abcdef"
    ∧ (NASA.citizenPortal.truncateAddress (some "0x1234567890abcdef")).length = 17
    ∧ NASA.citizenPortal.truncateAddress (some "0xab") = "0xab" ++ "..." ++ "0xab" :=
  ⟨by rfl,
   ((C30_truncateAddress_shape "0x1234567890abcdef").2.2.2.1 (by decide)).1,
   ((C30_truncateAddress_shape "0xab").2.2.2.2.2.1 (by decide) (by decide)).1⟩

/-! ## `sendTransaction` -/

/-- The requests `checkAuth` of `src/NASA/home.js` adds: none, or one refresh request. -/
theorem NASA_checkAuth_requests (env : Env) (w : World) :
    requests (NASA.home.checkAuth env w).2.trace = requests w.trace
    ∨ ∃ r, requests (NASA.home.checkAuth env w).2.trace
        = requests w.trace ++ [NASA.home.refreshRequest env r] := by
  have hnav : ∀ w2 : World, requests (NASA.home.navigateToLogin env w2).trace
      = requests w2.trace := by
    intro w2
    simp [NASA.home.navigateToLogin, World.emit, requests_append, requests]
  unfold NASA.home.checkAuth
  cases hget : getItem w.storage "access_token" with
  | none => left; simp [hnav]
  | some tok =>
    by_cases hne : tok = ""
    · left; simp [hne, hnav]
    · simp only [hne, if_false]
      rcases hs : split tok '.' with _ | ⟨p1, _ | ⟨p2, _ | ⟨p3, _ | ⟨p4, rest⟩⟩⟩⟩
      · left; simp [hnav, World.withStorage]
      · left; simp [hnav, World.withStorage]
      · left; simp [hnav, World.withStorage]
      · simp only []
        cases hdec : (env.atob p2).bind env.jsonParse with
        | none => left; simp [NASA.home.checkAuthCatch, hnav, World.withStorage]
        | some payload =>
          simp only []
          cases hexp : payload.getProp "exp" with
          | error e => left; simp [NASA.home.checkAuthCatch, hnav, World.withStorage]
          | ok exp =>
            simp only []
            by_cases hcond : (exp.truthy && lessThan env exp (currentTime env)) = true
            · simp only [hcond, if_true]
              have href := NASA_refreshToken_requests env w
              rcases hrt : NASA.home.refreshToken env w with ⟨res, w1⟩
              rw [hrt] at href
              cases res with
              | ok v => exact href
              | error e =>
                simp only [NASA.home.checkAuthCatch, hnav, World.withStorage]
                exact href
            · left; simp [hcond]
      · left; simp [hnav, World.withStorage]

/-- Every request a call of `fetchWithAuth` of `src/NASA/home.js` sends is a refresh request or
a target request built by `targetRequest` from some token. -/
theorem NASA_fetchWithAuth_requests (env : Env) (fuel : Nat) (endpoint : String)
    (options : Options) (w : World) :
    ∃ L, requests (NASA.home.fetchWithAuth env fuel endpoint options w).2.trace
        = requests w.trace ++ L
      ∧ ∀ req ∈ L, (∃ r, req = NASA.home.refreshRequest env r)
          ∨ ∃ t, req = NASA.home.targetRequest env endpoint options t := by
  have hcheck := NASA_checkAuth_requests env w
  unfold NASA.home.fetchWithAuth
  rcases hc : NASA.home.checkAuth env w with ⟨tok, w0⟩
  rw [hc] at hcheck
  have hfirst : ∃ L0, requests w0.trace = requests w.trace ++ L0
      ∧ ∀ req ∈ L0, (∃ r, req = NASA.home.refreshRequest env r)
          ∨ ∃ t, req = NASA.home.targetRequest env endpoint options t := by
    rcases hcheck with h | ⟨r, h⟩
    · exact ⟨[], by simpa using h, by simp⟩
    · refine ⟨[NASA.home.refreshRequest env r], h, ?_⟩
      intro req hreq
      simp only [List.mem_singleton] at hreq
      exact Or.inl ⟨r, hreq⟩
  obtain ⟨L0, hL0, hgood0⟩ := hfirst
  by_cases htok : tok.truthy = true
  · simp only [htok, Bool.not_true, Bool.false_eq_true, if_false]
    obtain ⟨L1, hL1, hgood1⟩ := NASA_fetchLoop_requests env endpoint options fuel tok 0 w0
    refine ⟨L0 ++ L1, ?_, ?_⟩
    · rw [hL1, hL0, List.append_assoc]
    · intro req hreq
      rcases List.mem_append.1 hreq with h | h
      · exact hgood0 req h
      · exact hgood1 req h
  · simp only [htok, Bool.not_false, if_true]
    exact ⟨L0, hL0, hgood0⟩

theorem requests_showAlert (message type : String) (w : World) :
    requests (NASA.home.showAlert message type w).trace = requests w.trace := by
  simp [NASA.home.showAlert, World.emit, requests_append, requests]

theorem refreshRequest_url_ne_send (env : Env) (r : String) :
    (NASA.home.refreshRequest env r).url ≠ NASA.home.API_BASE_URL env ++ "/send/" := by
  unfold NASA.home.refreshRequest NASA.home.API_BASE_URL
  by_cases h : env.hostname = "localhost" ∨ env.hostname = "127.0.0.1"
  · simp only [h, if_true]
    decide
  · simp only [h, if_false]
    decide

/-- A number that is not `NaN` and not `<= 0` is `> 0`. -/
theorem JSNumber.gt_zero_of_not_le (x : JSNumber) (h1 : x.isNaN = false) (h2 : x.le 0 = false) :
    x.gt 0 = true := by
  cases x with
  | nan => simp [JSNumber.isNaN] at h1
  | negInf => simp [JSNumber.le] at h2
  | fin q =>
    simp only [JSNumber.le, decide_eq_false_iff_not, not_le] at h2
    simp [JSNumber.gt, h2]
  | posInf => rfl

/-- Whatever `sendTransaction` does after its inner `fetchWithAuth` adds no request. -/
theorem sendTransaction_requests_valid (env : Env) (lib : Lib) (fuel : Nat)
    (recipientAddress amount : String) (w : World) (tok : JSValue) (w0 : World)
    (hc : NASA.home.checkAuth env w = (tok, w0)) (htok : tok.truthy = true)
    (h1 : ¬ (recipientAddress = "" ∨ amount = ""))
    (h2 : ((lib.parseFloat amount).isNaN || (lib.parseFloat amount).le 0) = false) :
    requests (NASA.home.sendTransaction env lib fuel recipientAddress amount w).2.trace
      = requests (NASA.home.fetchWithAuth env fuel "/send/"
          (NASA.home.sendOptions recipientAddress (lib.parseFloat amount)) w0).2.trace := by
  unfold NASA.home.sendTransaction
  rw [hc]
  simp only [htok, Bool.not_true, Bool.false_eq_true, if_false, h1, h2]
  rcases NASA.home.fetchWithAuth env fuel "/send/"
      (NASA.home.sendOptions recipientAddress (lib.parseFloat amount)) w0 with ⟨res, w1⟩
  cases res with
  | none => rfl
  | some out =>
    cases out with
    | error e => simp [NASA.home.sendCatch, requests_showAlert]
    | ok v =>
      cases v with
      | null => simp [NASA.home.sendCatch, requests_showAlert]
      | undefined => simp [NASA.home.sendCatch, requests_showAlert]
      | response response =>
        simp only []
        cases hj : response.json with
        | error e => simp [NASA.home.sendCatch, requests_showAlert]
        | ok data =>
          by_cases hok : response.ok = true
          · simp [hok, requests_showAlert]
          · cases hd : data.getProp "detail" with
            | error e => simp [hok, hd, NASA.home.sendCatch, requests_showAlert]
            | ok d => simp [hok, hd, NASA.home.sendCatch, requests_showAlert]

/-- With an input that fails validation, or no token, `sendTransaction` sends nothing after
its first `checkAuth`. -/
theorem sendTransaction_requests_invalid (env : Env) (lib : Lib) (fuel : Nat)
    (recipientAddress amount : String) (w : World)
    (h : (NASA.home.checkAuth env w).1.truthy = false
      ∨ (recipientAddress = "" ∨ amount = "")
      ∨ ((lib.parseFloat amount).isNaN || (lib.parseFloat amount).le 0) = true) :
    requests (NASA.home.sendTransaction env lib fuel recipientAddress amount w).2.trace
      = requests (NASA.home.checkAuth env w).2.trace := by
  unfold NASA.home.sendTransaction
  rcases hc : NASA.home.checkAuth env w with ⟨tok, w0⟩
  rw [hc] at h
  by_cases htok : tok.truthy = true
  · simp only [htok, Bool.not_true, Bool.false_eq_true, if_false]
    by_cases h1 : recipientAddress = "" ∨ amount = ""
    · simp [h1, NASA.home.sendCatch, requests_showAlert]
    · rcases h with h | h | h
      · simp [htok] at h
      · exact absurd h h1
      · simp [h1, h, NASA.home.sendCatch, requests_showAlert]
  · simp [htok]

/-- C22 (counterexample): with a valid session, the recipient `0xdef` and the amount `1e999`,
which `parseFloat` reads as `Infinity`, `sendTransaction` of `src/NASA/home.js` passes its
validation and sends one request to `/send/`, and the `amount` of its body is `null`, not a
number greater than 0 equal to `parseFloat(amount)`. -/
theorem C22_infinite_amount_is_sent_as_null :
    sampleLib.parseFloat "1e999" = .posInf
    ∧ requests (NASA.home.sendTransaction (sampleEnv okNet) sampleLib 3 "0xdef" "1e999"
        (sampleWorld futureToken)).2.trace
      = [NASA.home.targetRequest (sampleEnv okNet) "/send/"
          (NASA.home.sendOptions "0xdef" .posInf) (.str futureToken)]
    ∧ (NASA.home.targetRequest (sampleEnv okNet) "/send/"
          (NASA.home.sendOptions "0xdef" .posInf) (.str futureToken)).url
        = "http://localhost:8000/send/"
    ∧ (NASA.home.targetRequest (sampleEnv okNet) "/send/"
          (NASA.home.sendOptions "0xdef" .posInf) (.str futureToken)).body
        = some (.record [("recipient", .value (.str "0xdef")), ("amount", .value .null)]) := by
  refine ⟨by rfl, by rfl, by rfl, by rfl⟩

/-- C22 (amended): `sendTransaction` of `src/NASA/home.js` validates before it sends.  When the
recipient address is empty, the amount is empty, or `parseFloat(amount)` is `NaN` or at most 0,
the call sends nothing after its first `checkAuth` (which can only send a token refresh), so no
request goes to `/send/`.  And in every call, each request that goes to `/send/` has as body
the JSON text of the object with the given recipient and with `amount` what `JSON.stringify`
writes for `parseFloat(amount)`, which is then not `NaN` and greater than 0: the number itself
when it is finite, and `null` when it is `Infinity`. -/
theorem C22_sendTransaction_validates_before_sending (env : Env) (lib : Lib) (fuel : Nat)
    (recipientAddress amount : String) (w : World) :
    (recipientAddress = "" ∨ amount = "" ∨ (lib.parseFloat amount).isNaN = true
        ∨ (lib.parseFloat amount).le 0 = true →
      requests (NASA.home.sendTransaction env lib fuel recipientAddress amount w).2.trace
          = requests (NASA.home.checkAuth env w).2.trace
      ∧ requestsTo (NASA.home.API_BASE_URL env ++ "/send/")
          (NASA.home.sendTransaction env lib fuel recipientAddress amount w).2.trace
          = requestsTo (NASA.home.API_BASE_URL env ++ "/send/") w.trace)
    ∧ ∃ L, requests (NASA.home.sendTransaction env lib fuel recipientAddress amount w).2.trace
          = requests w.trace ++ L
        ∧ ∀ req ∈ L, req.url = NASA.home.API_BASE_URL env ++ "/send/" →
            (lib.parseFloat amount).isNaN = false
            ∧ (lib.parseFloat amount).gt 0 = true
            ∧ req.body = some (.record [("recipient", .value (.str recipientAddress)),
                ("amount", stringifyNumber (lib.parseFloat amount))])
            ∧ (∀ q : ℚ, lib.parseFloat amount = .fin q →
                req.body = some (.record [("recipient", .value (.str recipientAddress)),
                  ("amount", .number (.fin q))]))
            ∧ (lib.parseFloat amount = .posInf →
                req.body = some (.record [("recipient", .value (.str recipientAddress)),
                  ("amount", .value .null)])) := by
  have hcheck := NASA_checkAuth_requests env w
  have hcount : requestsTo (NASA.home.API_BASE_URL env ++ "/send/")
      (NASA.home.checkAuth env w).2.trace
      = requestsTo (NASA.home.API_BASE_URL env ++ "/send/") w.trace := by
    rcases hcheck with h | ⟨r, h⟩
    · simp [requestsTo, h]
    · have hne := refreshRequest_url_ne_send env r
      simp [requestsTo, h, List.filter_append, hne]
  have hcheckL : ∃ L0, requests (NASA.home.checkAuth env w).2.trace = requests w.trace ++ L0
      ∧ ∀ req ∈ L0, ∃ r, req = NASA.home.refreshRequest env r := by
    rcases hcheck with h | ⟨r, h⟩
    · exact ⟨[], by simpa using h, by simp⟩
    · exact ⟨[NASA.home.refreshRequest env r], h, by simp⟩
  by_cases hinv : (NASA.home.checkAuth env w).1.truthy = false
      ∨ (recipientAddress = "" ∨ amount = "")
      ∨ ((lib.parseFloat amount).isNaN || (lib.parseFloat amount).le 0) = true
  · have hreq := sendTransaction_requests_invalid env lib fuel recipientAddress amount w hinv
    refine ⟨?_, ?_⟩
    · intro _
      refine ⟨hreq, ?_⟩
      rw [← hcount]
      simp [requestsTo, hreq]
    · obtain ⟨L0, hL0, hgood0⟩ := hcheckL
      refine ⟨L0, by rw [hreq, hL0], ?_⟩
      intro req hreq2 hurl
      obtain ⟨r, hr⟩ := hgood0 req hreq2
      rw [hr] at hurl
      exact absurd hurl (refreshRequest_url_ne_send env r)
  · simp only [not_or, Bool.not_eq_false, Bool.not_eq_true] at hinv
    obtain ⟨htok, h1, h2⟩ := hinv
    have h1' : ¬ (recipientAddress = "" ∨ amount = "") := by
      simpa [not_or] using h1
    have hnan : (lib.parseFloat amount).isNaN = false := by
      cases hx : (lib.parseFloat amount).isNaN
      · rfl
      · simp [hx] at h2
    have hle : (lib.parseFloat amount).le 0 = false := by
      cases hx : (lib.parseFloat amount).le 0
      · rfl
      · simp [hx] at h2
    refine ⟨?_, ?_⟩
    · rintro (h | h | h | h)
      · exact absurd (Or.inl h) h1'
      · exact absurd (Or.inr h) h1'
      · rw [hnan] at h; cases h
      · rw [hle] at h; cases h
    · rcases hc : NASA.home.checkAuth env w with ⟨tok, w0⟩
      rw [hc] at htok hcheckL
      have hreq := sendTransaction_requests_valid env lib fuel recipientAddress amount w tok w0
        hc htok h1' h2
      obtain ⟨L0, hL0, hgood0⟩ := hcheckL
      obtain ⟨L1, hL1, hgood1⟩ := NASA_fetchWithAuth_requests env fuel "/send/"
        (NASA.home.sendOptions recipientAddress (lib.parseFloat amount)) w0
      refine ⟨L0 ++ L1, ?_, ?_⟩
      · rw [hreq, hL1, hL0, List.append_assoc]
      · intro req hmem hurl
        rcases List.mem_append.1 hmem with hm | hm
        · obtain ⟨r, hr⟩ := hgood0 req hm
          rw [hr] at hurl
          exact absurd hurl (refreshRequest_url_ne_send env r)
        · rcases hgood1 req hm with ⟨r, hr⟩ | ⟨t, ht⟩
          · rw [hr] at hurl
            exact absurd hurl (refreshRequest_url_ne_send env r)
          · rw [ht]
            refine ⟨hnan, JSNumber.gt_zero_of_not_le _ hnan hle, rfl, ?_, ?_⟩
            · intro q hq
              simp [NASA.home.targetRequest, NASA.home.sendOptions, hq, stringifyNumber]
            · intro hinf
              simp [NASA.home.targetRequest, NASA.home.sendOptions, hinf, stringifyNumber]

theorem C22_sendTransaction_validates_before_sending_witness :
    requests (NASA.home.sendTransaction (sampleEnv okNet) sampleLib 3 "0xdef" "-5"
        (sampleWorld futureToken)).2.trace = []
    ∧ requests (NASA.home.sendTransaction (sampleEnv okNet) sampleLib 3 "0xdef" "25"
        (sampleWorld futureToken)).2.trace
      = [NASA.home.targetRequest (sampleEnv okNet) "/send/"
          (NASA.home.sendOptions "0xdef" (.fin 25)) (.str futureToken)]
    ∧ (NASA.home.targetRequest (sampleEnv okNet) "/send/"
          (NASA.home.sendOptions "0xdef" (.fin 25)) (.str futureToken)).body
        = some (.record [("recipient", .value (.str "0xdef")), ("amount", .number (.fin 25))]) :=
  ⟨((C22_sendTransaction_validates_before_sending (sampleEnv okNet) sampleLib 3 "0xdef" "-5"
      (sampleWorld futureToken)).1 (Or.inr (Or.inr (Or.inr (by decide))))).1,
   by rfl, by rfl⟩

/-! ## `payTax` -/

theorem requests_showMessage (message type : String) (w : World) :
    requests (NASA.taxPayment.showMessage message type w).trace = requests w.trace := by
  simp [NASA.taxPayment.showMessage, World.emit, requests_append, requests]

theorem fetches_showMessage (message type : String) (w : World) :
    (NASA.taxPayment.showMessage message type w).fetches = w.fetches := by
  simp [NASA.taxPayment.showMessage, World.emit]

/-- The requests of the `try` block of `payTax`: the wallet request; then the login request,
only after a 2xx answer to the first; then the payment request, only after a 2xx answer to
both. -/
theorem processPayment_requests (env : Env) (selectedTaxType officeName password : String)
    (amount : JSNumber) (description : String) (w : World) :
    requests (NASA.taxPayment.processPayment env selectedTaxType officeName password amount
        description w).trace = requests w.trace ++ [NASA.taxPayment.financeRequest]
    ∨ (∃ r1, env.net w.fetches = .responds r1 ∧ r1.ok = true
        ∧ requests (NASA.taxPayment.processPayment env selectedTaxType officeName password
            amount description w).trace
          = requests w.trace ++ [NASA.taxPayment.financeRequest,
              NASA.taxPayment.loginRequest officeName password])
    ∨ ∃ r1 r2 financeWallet token, env.net w.fetches = .responds r1 ∧ r1.ok = true
        ∧ env.net (w.fetches + 1) = .responds r2 ∧ r2.ok = true
        ∧ requests (NASA.taxPayment.processPayment env selectedTaxType officeName password
            amount description w).trace
          = requests w.trace ++ [NASA.taxPayment.financeRequest,
              NASA.taxPayment.loginRequest officeName password,
              NASA.taxPayment.sendRequest financeWallet token amount selectedTaxType
                description] := by
  unfold NASA.taxPayment.processPayment
  simp only [fetch]
  cases h1 : env.net w.fetches with
  | rejects e =>
    left
    simp only [NASA.taxPayment.payCatch, requests_showMessage]
    simp [requests_append, requests]
  | responds r1 =>
    by_cases hok1 : r1.ok = true
    · simp only [hok1, Bool.not_true, Bool.false_eq_true, if_false]
      cases hj1 : r1.json with
      | error e =>
        left
        simp only [NASA.taxPayment.payCatch, requests_showMessage]
        simp [requests_append, requests]
      | ok financeData =>
        simp only []
        cases hw : financeData.getProp "wallet_address" with
        | error e =>
          left
          simp only [NASA.taxPayment.payCatch, requests_showMessage]
          simp [requests_append, requests]
        | ok financeWallet =>
          simp only []
          cases h2 : env.net (w.fetches + 1) with
          | rejects e =>
            right; left
            refine ⟨r1, rfl, hok1, ?_⟩
            simp only [NASA.taxPayment.payCatch, requests_showMessage]
            simp [requests_append, requests]
          | responds r2 =>
            by_cases hok2 : r2.ok = true
            · simp only [hok2, Bool.not_true, Bool.false_eq_true, if_false]
              cases hj2 : r2.json with
              | error e =>
                right; left
                refine ⟨r1, rfl, hok1, ?_⟩
                simp only [NASA.taxPayment.payCatch, requests_showMessage]
                simp [requests_append, requests]
              | ok loginResult =>
                simp only []
                cases ht : loginResult.getProp "access_token" with
                | error e =>
                  right; left
                  refine ⟨r1, rfl, hok1, ?_⟩
                  simp only [NASA.taxPayment.payCatch, requests_showMessage]
                  simp [requests_append, requests]
                | ok token =>
                  right; right
                  refine ⟨r1, r2, financeWallet, token, rfl, hok1, rfl, hok2, ?_⟩
                  simp only []
                  cases h3 : env.net (w.fetches + 1 + 1) with
                  | rejects e =>
                    simp only [NASA.taxPayment.payCatch, requests_showMessage]
                    simp [requests_append, requests]
                  | responds r3 =>
                    simp only []
                    cases hj3 : r3.json with
                    | error e =>
                      simp only [NASA.taxPayment.payCatch, requests_showMessage]
                      simp [requests_append, requests]
                    | ok paymentResult =>
                      simp only []
                      by_cases hok3 : r3.ok = true
                      · simp only [hok3, Bool.not_true, Bool.false_eq_true, if_false]
                        cases hh : paymentResult.getProp "transaction_hash" with
                        | error e =>
                          simp only [NASA.taxPayment.payCatch, requests_showMessage]
                          simp [requests_append, requests]
                        | ok transactionHash =>
                          simp only [requests_showMessage, World.emit]
                          simp [requests_append, requests]
                      · simp only [hok3, Bool.not_false, if_true]
                        cases hd : paymentResult.getProp "detail" with
                        | error e =>
                          simp only [NASA.taxPayment.payCatch, requests_showMessage]
                          simp [requests_append, requests]
                        | ok detail =>
                          simp only [requests_showMessage]
                          simp [requests_append, requests]
            · right; left
              refine ⟨r1, rfl, hok1, ?_⟩
              simp only [hok2, Bool.not_false, if_true, requests_showMessage]
              simp [requests_append, requests]
    · left
      simp only [hok1, Bool.not_false, if_true, requests_showMessage]
      simp [requests_append, requests]

/-- A number that is `NaN` is falsy. -/
theorem JSNumber.truthy_of_isNaN (x : JSNumber) (h : x.isNaN = true) : x.truthy = false := by
  cases x <;> simp [JSNumber.isNaN] at h
  rfl

/-- When an input fails validation, `payTax` is one call of `showMessage`. -/
theorem payTax_invalid (env : Env) (lib : Lib)
    (selectedTaxType officeNameValue passwordValue amountValue descriptionValue : String)
    (w : World)
    (h : selectedTaxType = "" ∨ lib.trim officeNameValue = "" ∨ passwordValue = ""
      ∨ (lib.parseFloat amountValue).isNaN = true ∨ (lib.parseFloat amountValue).le 0 = true
      ∨ lib.trim descriptionValue = "") :
    ∃ message, NASA.taxPayment.payTax env lib selectedTaxType officeNameValue passwordValue
      amountValue descriptionValue w = NASA.taxPayment.showMessage message "error" w := by
  unfold NASA.taxPayment.payTax
  by_cases h1 : selectedTaxType = ""
  · rw [if_pos h1]; exact ⟨_, rfl⟩
  by_cases h2 : lib.trim officeNameValue = ""
  · rw [if_neg h1, if_pos h2]; exact ⟨_, rfl⟩
  by_cases h3 : passwordValue = ""
  · rw [if_neg h1, if_neg h2, if_pos h3]; exact ⟨_, rfl⟩
  by_cases h4 : (!(lib.parseFloat amountValue).truthy || (lib.parseFloat amountValue).le 0) = true
  · rw [if_neg h1, if_neg h2, if_neg h3, if_pos h4]; exact ⟨_, rfl⟩
  by_cases h5 : lib.trim descriptionValue = ""
  · rw [if_neg h1, if_neg h2, if_neg h3, if_neg h4, if_pos h5]; exact ⟨_, rfl⟩
  · exfalso
    rcases h with h | h | h | h | h | h
    · exact h1 h
    · exact h2 h
    · exact h3 h
    · exact h4 (by simp [JSNumber.truthy_of_isNaN _ h])
    · exact h4 (by simp [h])
    · exact h5 h

/-- The requests of `payTax`: none, or those of its `try` block. -/
theorem payTax_requests (env : Env) (lib : Lib)
    (selectedTaxType officeNameValue passwordValue amountValue descriptionValue : String)
    (w : World) :
    requests (NASA.taxPayment.payTax env lib selectedTaxType officeNameValue passwordValue
        amountValue descriptionValue w).trace = requests w.trace
    ∨ NASA.taxPayment.payTax env lib selectedTaxType officeNameValue passwordValue
        amountValue descriptionValue w
      = NASA.taxPayment.processPayment env selectedTaxType (lib.trim officeNameValue)
          passwordValue (lib.parseFloat amountValue) (lib.trim descriptionValue) w := by
  unfold NASA.taxPayment.payTax
  by_cases h1 : selectedTaxType = ""
  · left; rw [if_pos h1]; exact requests_showMessage _ _ _
  by_cases h2 : lib.trim officeNameValue = ""
  · left; rw [if_neg h1, if_pos h2]; exact requests_showMessage _ _ _
  by_cases h3 : passwordValue = ""
  · left; rw [if_neg h1, if_neg h2, if_pos h3]; exact requests_showMessage _ _ _
  by_cases h4 : (!(lib.parseFloat amountValue).truthy || (lib.parseFloat amountValue).le 0) = true
  · left; rw [if_neg h1, if_neg h2, if_neg h3, if_pos h4]; exact requests_showMessage _ _ _
  by_cases h5 : lib.trim descriptionValue = ""
  · left
    rw [if_neg h1, if_neg h2, if_neg h3, if_neg h4, if_pos h5]
    exact requests_showMessage _ _ _
  · right
    rw [if_neg h1, if_neg h2, if_neg h3, if_neg h4, if_neg h5]

/-- C28: `payTax` of `src/NASA/tax-payment.js` sends no request unless all inputs are valid.
When no tax type is selected, or the trimmed office name is empty, or the password is empty, or
`parseFloat` of the amount is `NaN` or at most 0, or the trimmed description is empty, the call
only shows an error message: the fetch counter and the requests sent are unchanged.  And in
every call, a request to `/send` is among the requests of the call only if the first fetch of
the call (the finance-office wallet) and the second (the `/token` login) were both answered
with a 2xx status. -/
theorem C28_payTax_validates_before_fetching (env : Env) (lib : Lib)
    (selectedTaxType officeNameValue passwordValue amountValue descriptionValue : String)
    (w : World) :
    (selectedTaxType = "" ∨ lib.trim officeNameValue = "" ∨ passwordValue = ""
        ∨ (lib.parseFloat amountValue).isNaN = true ∨ (lib.parseFloat amountValue).le 0 = true
        ∨ lib.trim descriptionValue = "" →
      (NASA.taxPayment.payTax env lib selectedTaxType officeNameValue passwordValue amountValue
          descriptionValue w).fetches = w.fetches
      ∧ requests (NASA.taxPayment.payTax env lib selectedTaxType officeNameValue passwordValue
          amountValue descriptionValue w).trace = requests w.trace)
    ∧ ∃ L, requests (NASA.taxPayment.payTax env lib selectedTaxType officeNameValue passwordValue
          amountValue descriptionValue w).trace = requests w.trace ++ L
        ∧ ((∃ req ∈ L, req.url = NASA.taxPayment.API_URL ++ "/send") →
            ∃ r1 r2, env.net w.fetches = .responds r1 ∧ r1.ok = true
              ∧ env.net (w.fetches + 1) = .responds r2 ∧ r2.ok = true) := by
  refine ⟨?_, ?_⟩
  · intro h
    obtain ⟨message, hm⟩ := payTax_invalid env lib selectedTaxType officeNameValue passwordValue
      amountValue descriptionValue w h
    rw [hm]
    exact ⟨fetches_showMessage _ _ _, requests_showMessage _ _ _⟩
  · rcases payTax_requests env lib selectedTaxType officeNameValue passwordValue amountValue
      descriptionValue w with h | h
    · exact ⟨[], by simpa using h, by simp⟩
    · rw [h]
      rcases processPayment_requests env selectedTaxType (lib.trim officeNameValue)
        passwordValue (lib.parseFloat amountValue) (lib.trim descriptionValue) w with
        h1 | ⟨r1, _, _, h2⟩ | ⟨r1, r2, _, _, hn1, hok1, hn2, hok2, _⟩
      · refine ⟨_, h1, ?_⟩
        rintro ⟨req, hmem, hurl⟩
        simp only [List.mem_singleton] at hmem
        rw [hmem] at hurl
        exact absurd hurl (by decide)
      · refine ⟨_, h2, ?_⟩
        rintro ⟨req, hmem, hurl⟩
        simp only [List.mem_cons, List.mem_singleton, List.not_mem_nil, or_false] at hmem
        rcases hmem with hmem | hmem
        · rw [hmem] at hurl
          exact absurd hurl (by decide)
        · rw [hmem] at hurl
          have hne : NASA.taxPayment.API_URL ++ "/token" ≠ NASA.taxPayment.API_URL ++ "/send" := by
            decide
          exact absurd hurl hne
      · exact ⟨_, by assumption, fun _ => ⟨r1, r2, hn1, hok1, hn2, hok2⟩⟩

theorem C28_payTax_validates_before_fetching_witness :
    requests (NASA.taxPayment.payTax (sampleEnv taxNet) sampleLib "income" " Office 1 " "pw" "0"
        "March" emptyWorld).trace = []
    ∧ requests (NASA.taxPayment.payTax (sampleEnv taxNet) sampleLib "income" " Office 1 " "pw"
        "1500" "March" emptyWorld).trace
      = [NASA.taxPayment.financeRequest, NASA.taxPayment.loginRequest "Office 1" "pw",
          NASA.taxPayment.sendRequest (.str "0xfin") (.str "tok") (.fin 1500) "income"
            "March"] :=
  ⟨((C28_payTax_validates_before_fetching (sampleEnv taxNet) sampleLib "income" " Office 1 "
      "pw" "0" "March" emptyWorld).1 (Or.inr (Or.inr (Or.inr (Or.inr (Or.inl (by decide))))))).2,
   by rfl⟩

/-! ## The citizen portal: `displayTransactions` -/

theorem sortInsert_perm {α : Type} (compareFn : α → α → Option Int) (a : α) (l : List α) :
    (sortInsert compareFn a l).Perm (a :: l) := by
  induction l with
  | nil => simp [sortInsert]
  | cons b l ih =>
    unfold sortInsert
    split
    · exact List.Perm.refl _
    · exact ((List.Perm.cons b ih).trans (List.Perm.swap a b l))

theorem arraySort_perm {α : Type} (compareFn : α → α → Option Int) (l : List α) :
    (arraySort compareFn l).Perm l := by
  induction l with
  | nil => simp [arraySort]
  | cons a l ih =>
    unfold arraySort
    exact (sortInsert_perm compareFn a _).trans (List.Perm.cons a ih)

theorem NotOlder.trans {lib : Lib} {a b c : Transaction} (h1 : NotOlder lib a b)
    (h2 : NotOlder lib b c) : NotOlder lib a c := by
  obtain ⟨ta, tb, ha, hb, hab⟩ := h1
  obtain ⟨tb2, tc, hb2, hc, hbc⟩ := h2
  rw [hb] at hb2
  cases hb2
  exact ⟨ta, tc, ha, hc, le_trans hbc hab⟩

/-- Inserting a transaction with a valid timestamp keeps a newest-first list newest first. -/
theorem sortInsert_sorted (lib : Lib) (a : Transaction) (l : List Transaction)
    (ha : (lib.dateValue a.timestamp).isSome = true)
    (hl : ∀ tx ∈ l, (lib.dateValue tx.timestamp).isSome = true)
    (hs : l.Pairwise (NotOlder lib)) :
    (sortInsert (NASA.citizenPortal.compareFn lib) a l).Pairwise (NotOlder lib) := by
  induction l with
  | nil => simp [sortInsert]
  | cons b l ih =>
    obtain ⟨ta, hta⟩ := Option.isSome_iff_exists.1 ha
    obtain ⟨tb, htb⟩ := Option.isSome_iff_exists.1 (hl b (List.mem_cons_self b l))
    have hb : ∀ x ∈ l, NotOlder lib b x := fun x hx => List.rel_of_pairwise_cons hs hx
    have hs2 := List.Pairwise.of_cons hs
    have hl2 : ∀ tx ∈ l, (lib.dateValue tx.timestamp).isSome = true :=
      fun tx h => hl tx (List.mem_cons_of_mem b h)
    unfold sortInsert
    simp only [NASA.citizenPortal.compareFn, hta, htb]
    by_cases hc : tb - ta ≤ 0
    · simp only [hc, decide_True, if_true]
      have hab : NotOlder lib a b := ⟨ta, tb, hta, htb, by omega⟩
      refine List.Pairwise.cons ?_ hs
      intro x hx
      rcases List.mem_cons.1 hx with hx | hx
      · rw [hx]; exact hab
      · exact hab.trans (hb x hx)
    · simp only [hc, decide_False, Bool.false_eq_true, if_false]
      have hba : NotOlder lib b a := ⟨tb, ta, htb, hta, by omega⟩
      refine List.Pairwise.cons ?_ (ih hl2 hs2)
      intro x hx
      rcases List.mem_cons.1 ((sortInsert_perm _ a l).mem_iff.1 hx) with hx | hx
      · rw [hx]; exact hba
      · exact hb x hx

/-- Sorting transactions with valid timestamps gives a newest-first list. -/
theorem arraySort_sorted (lib : Lib) (l : List Transaction)
    (hl : ∀ tx ∈ l, (lib.dateValue tx.timestamp).isSome = true) :
    (arraySort (NASA.citizenPortal.compareFn lib) l).Pairwise (NotOlder lib) := by
  induction l with
  | nil => simp [arraySort]
  | cons a l ih =>
    have hl2 : ∀ tx ∈ l, (lib.dateValue tx.timestamp).isSome = true :=
      fun tx h => hl tx (List.mem_cons_of_mem a h)
    unfold arraySort
    refine sortInsert_sorted lib a _ (hl a (List.mem_cons_self a l)) ?_ (ih hl2)
    intro tx htx
    exact hl2 tx ((arraySort_perm _ l).mem_iff.1 htx)

/-- C23: `displayTransactions` of `src/NASA/citizen-portal.js` shows the rows newest first.
For every non-empty list of transactions whose timestamps are all valid dates, the table body
becomes the rows of a permutation of the list in which every row is not older than the rows
after it (in particular than the next row); the variable `allTransactions` of the page is left
as it was; and the component of `CitizenPortal.tsx`, once loaded without error and displaying
the same list, renders the same rows in the same order. -/
theorem C23_displayTransactions_newest_first (lib : Lib) (transactions : List Transaction)
    (p : NASA.citizenPortal.Page) (s : React.CitizenPortal.State)
    (hne : transactions ≠ [])
    (hvalid : ∀ tx ∈ transactions, (lib.dateValue tx.timestamp).isSome = true)
    (hloading : s.loading = false) (herror : s.error = none)
    (hdisplayed : s.displayedTransactions = transactions) :
    ∃ rows, (NASA.citizenPortal.displayTransactions lib transactions p).table = .rows rows
      ∧ rows.Perm transactions
      ∧ rows.Pairwise (NotOlder lib)
      ∧ (NASA.citizenPortal.displayTransactions lib transactions p).allTransactions
          = p.allTransactions
      ∧ React.CitizenPortal.tableBody lib s = .rows rows := by
  have hlen : ¬ transactions.length = 0 := by
    intro h
    exact hne (List.length_eq_zero.1 h)
  refine ⟨arraySort (NASA.citizenPortal.compareFn lib) transactions, ?_, arraySort_perm _ _,
    arraySort_sorted lib transactions hvalid, ?_, ?_⟩
  · simp [NASA.citizenPortal.displayTransactions, hlen]
  · simp [NASA.citizenPortal.displayTransactions, hlen]
  · simp only [React.CitizenPortal.tableBody, hloading, herror, hdisplayed, hlen,
      Bool.false_eq_true, if_false]
    rfl

theorem C23_displayTransactions_newest_first_witness :
    ∃ rows, (NASA.citizenPortal.displayTransactions sampleLib sampleTransactions
          samplePage).table = .rows rows
      ∧ rows.Perm sampleTransactions
      ∧ rows.Pairwise (NotOlder sampleLib)
      ∧ (NASA.citizenPortal.displayTransactions sampleLib sampleTransactions
          samplePage).allTransactions = samplePage.allTransactions
      ∧ React.CitizenPortal.tableBody sampleLib sampleState = .rows rows :=
  C23_displayTransactions_newest_first sampleLib sampleTransactions samplePage sampleState
    (by simp [sampleTransactions]) (by decide) rfl rfl rfl

/-! ## The citizen portal: `loadBlockchainData` -/

theorem mem_setAdd (s : List String) (a x : String) : x ∈ setAdd s a ↔ x ∈ s ∨ x = a := by
  unfold setAdd
  by_cases h : a ∈ s
  · simp only [h, if_true]
    constructor
    · exact Or.inl
    · rintro (hx | hx)
      · exact hx
      · rw [hx]; exact h
  · simp [h]

theorem nodup_setAdd (s : List String) (a : String) (hs : s.Nodup) : (setAdd s a).Nodup := by
  unfold setAdd
  by_cases h : a ∈ s
  · simpa [h] using hs
  · simp only [h, if_false]
    exact List.Nodup.append hs (List.nodup_singleton a) (by simpa using h)

theorem mem_foldl_setAdd (l s : List String) (x : String) :
    x ∈ l.foldl setAdd s ↔ x ∈ s ∨ x ∈ l := by
  induction l generalizing s with
  | nil => simp
  | cons a l ih =>
    simp only [List.foldl_cons, ih, mem_setAdd, List.mem_cons]
    tauto

theorem nodup_foldl_setAdd (l s : List String) (hs : s.Nodup) : (l.foldl setAdd s).Nodup := by
  induction l generalizing s with
  | nil => simpa using hs
  | cons a l ih => exact ih _ (nodup_setAdd s a hs)

/-- The size of a set filled from a list is the number of distinct values of the list. -/
theorem length_foldl_setAdd (l : List String) :
    (l.foldl setAdd []).length = l.toFinset.card := by
  rw [← List.toFinset_card_of_nodup (nodup_foldl_setAdd l [] List.nodup_nil)]
  congr 1
  ext x
  simp [mem_foldl_setAdd]

/-- The inner `forEach` of the extraction. -/
theorem extract_inner (block : Block) (transactions : List Transaction)
    (acc : List Transaction × List String) :
    transactions.foldl (fun acc tx =>
        (acc.1 ++ [{ tx with timestamp := block.timestamp, block_id := some block.block_id
                             validator := some block.validator }],
         setAdd (setAdd acc.2 tx.sender) tx.recipient)) acc
      = (acc.1 ++ transactions.map (fun tx =>
            { tx with timestamp := block.timestamp, block_id := some block.block_id
                      validator := some block.validator }),
         (addresses transactions).foldl setAdd acc.2) := by
  induction transactions generalizing acc with
  | nil => simp [addresses]
  | cons tx l ih =>
    rw [List.foldl_cons, ih]
    simp [addresses]

theorem NASA_extractBlock_eq (acc : List Transaction × List String) (block : Block) :
    NASA.citizenPortal.extractBlock acc block
      = (acc.1 ++ blockTransactions block,
         (addresses (block.transactions.getD [])).foldl setAdd acc.2) := by
  unfold NASA.citizenPortal.extractBlock blockTransactions
  cases h : block.transactions with
  | none => simp [addresses]
  | some transactions =>
    cases transactions with
    | nil => simp [addresses]
    | cons tx l =>
      simp only [List.length_cons, Nat.zero_lt_succ, if_true, extract_inner, Option.getD_some]

theorem React_extractBlock_eq (acc : List Transaction × List String) (block : Block) :
    React.CitizenPortal.extractBlock acc block = NASA.citizenPortal.extractBlock acc block :=
  rfl

/-- Statement helper lemma: the addresses of the transactions of a chain, block by block. -/
theorem addresses_chainTransactions (chain : List Block) :
    addresses (chainTransactions chain)
      = (chain.map (fun block => addresses (block.transactions.getD []))).flatten := by
  induction chain with
  | nil => rfl
  | cons block chain ih =>
    have hb : addresses (blockTransactions block) = addresses (block.transactions.getD []) := by
      simp [addresses, blockTransactions, List.map_map, Function.comp_def]
    have happ : ∀ l1 l2 : List Transaction, addresses (l1 ++ l2) = addresses l1 ++ addresses l2 := by
      intro l1 l2
      simp [addresses]
    simp only [chainTransactions, List.map_cons, List.flatten_cons] at ih ⊢
    rw [happ, hb, ih]

/-- The outer `forEach` of the extraction. -/
theorem NASA_extract_chain (chain : List Block) (acc : List Transaction × List String) :
    chain.foldl NASA.citizenPortal.extractBlock acc
      = (acc.1 ++ chainTransactions chain,
         (addresses (chainTransactions chain)).foldl setAdd acc.2) := by
  induction chain generalizing acc with
  | nil => simp [chainTransactions, addresses]
  | cons block chain ih =>
    rw [List.foldl_cons, ih, NASA_extractBlock_eq]
    have h1 := addresses_chainTransactions (block :: chain)
    have h2 := addresses_chainTransactions chain
    simp only [List.map_cons, List.flatten_cons] at h1
    rw [h1, ← h2]
    simp [chainTransactions, List.foldl_append]

theorem length_chainTransactions (chain : List Block) :
    (chainTransactions chain).length = transactionCount chain := by
  induction chain with
  | nil => rfl
  | cons block chain ih =>
    simp only [chainTransactions, transactionCount, List.map_cons, List.flatten_cons,
      List.length_append, List.sum_cons] at ih ⊢
    rw [ih]
    simp [blockTransactions]

/-- C24: `loadBlockchainData` extracts all transactions from all blocks.  When the backend
answers the request with a 2xx status and a JSON body, the variable `allTransactions` of
`src/NASA/citizen-portal.js` becomes the concatenation, in chain order, of the transaction
lists of the blocks (a block whose list is missing or empty adds nothing), each entry with the
timestamp, block identifier and validator of its block in place of its own; the number shown
as `totalTransactions` is the sum of the lengths of the lists of the blocks; the number shown
as `activeOffices` is the number of distinct values among the senders and recipients.  The
component of `CitizenPortal.tsx`, given the same chain, stores the same list and the same two
numbers. -/
theorem C24_loadBlockchainData_extracts_all (env : Env) (lib : Lib)
    (chain : JSValue → List Block) (p : NASA.citizenPortal.Page) (w : World)
    (s : React.CitizenPortal.State) (response : Response) (blockchain : JSValue)
    (hnet : env.net w.fetches = .responds response) (hok : response.ok = true)
    (hjson : response.json = .ok blockchain) :
    (NASA.citizenPortal.loadBlockchainData env lib chain p w).1.allTransactions
        = chainTransactions (chain blockchain)
    ∧ (NASA.citizenPortal.loadBlockchainData env lib chain p w).1.totalTransactions
        = transactionCount (chain blockchain)
    ∧ (NASA.citizenPortal.loadBlockchainData env lib chain p w).1.activeOffices
        = (addresses (chainTransactions (chain blockchain))).toFinset.card
    ∧ (React.CitizenPortal.loadBlockchainData (.ok (chain blockchain)) s).allTransactions
        = chainTransactions (chain blockchain)
    ∧ (React.CitizenPortal.loadBlockchainData (.ok (chain blockchain)) s).stats.totalTransactions
        = transactionCount (chain blockchain)
    ∧ (React.CitizenPortal.loadBlockchainData (.ok (chain blockchain)) s).stats.activeOffices
        = (addresses (chainTransactions (chain blockchain))).toFinset.card := by
  have hx := NASA_extract_chain (chain blockchain) ([], [])
  have hr : (chain blockchain).foldl React.CitizenPortal.extractBlock ([], [])
      = (chain blockchain).foldl NASA.citizenPortal.extractBlock ([], []) := rfl
  have hp : ∀ q : NASA.citizenPortal.Page, ∀ l : List Transaction,
      (NASA.citizenPortal.displayTransactions lib l q).allTransactions = q.allTransactions
      ∧ (NASA.citizenPortal.displayTransactions lib l q).totalTransactions = q.totalTransactions
      ∧ (NASA.citizenPortal.displayTransactions lib l q).activeOffices = q.activeOffices := by
    intro q l
    unfold NASA.citizenPortal.displayTransactions
    split <;> exact ⟨rfl, rfl, rfl⟩
  have hjs : NASA.citizenPortal.loadBlockchainData env lib chain p w
      = (NASA.citizenPortal.displayTransactions lib (chainTransactions (chain blockchain))
          { p with allTransactions := chainTransactions (chain blockchain)
                   totalTransactions := (chainTransactions (chain blockchain)).length
                   activeOffices :=
                    ((addresses (chainTransactions (chain blockchain))).foldl setAdd []).length },
         { w with fetches := w.fetches + 1
                  trace := w.trace ++ [.fetch NASA.citizenPortal.blockchainRequest] }) := by
    simp [NASA.citizenPortal.loadBlockchainData, fetch, hnet, hok, hjson, hx, World.emit]
  have hre : React.CitizenPortal.loadBlockchainData (.ok (chain blockchain)) s
      = { s with allTransactions := chainTransactions (chain blockchain)
                 displayedTransactions := chainTransactions (chain blockchain)
                 stats :=
                  { totalTransactions := (chainTransactions (chain blockchain)).length
                    activeOffices :=
                      ((addresses (chainTransactions (chain blockchain))).foldl setAdd
                        []).length }
                 loading := false
                 error := none } := by
    simp [React.CitizenPortal.loadBlockchainData, hr, hx]
  rw [hjs, hre]
  refine ⟨(hp _ _).1, ?_, ?_, rfl, length_chainTransactions _, length_foldl_setAdd _⟩
  · rw [(hp _ _).2.1]
    exact length_chainTransactions _
  · rw [(hp _ _).2.2]
    exact length_foldl_setAdd _

theorem C24_loadBlockchainData_extracts_all_witness :
    (NASA.citizenPortal.loadBlockchainData (sampleEnv chainNet) sampleLib sampleReading
        samplePage emptyWorld).1.allTransactions
      = [{ januaryFirst with timestamp := "2024-01-02T00:00:00Z", block_id := some "b1"
                             validator := some "v1" },
         { januaryThird with timestamp := "2024-01-02T00:00:00Z", block_id := some "b1"
                             validator := some "v1" },
         { januarySecond with timestamp := "2024-01-03T00:00:00Z", block_id := some "b3"
                              validator := some "v2" }]
    ∧ (NASA.citizenPortal.loadBlockchainData (sampleEnv chainNet) sampleLib sampleReading
        samplePage emptyWorld).1.totalTransactions = 3
    ∧ (NASA.citizenPortal.loadBlockchainData (sampleEnv chainNet) sampleLib sampleReading
        samplePage emptyWorld).1.activeOffices = 3 :=
  have h := C24_loadBlockchainData_extracts_all (sampleEnv chainNet) sampleLib sampleReading
    samplePage emptyWorld sampleState blockchainReply (.obj [("length", .num 4)]) rfl
    (by decide) rfl
  ⟨h.1, h.2.1, h.2.2.1.trans (by decide)⟩

/-! ## The citizen portal: `filterTransactions` -/

theorem keepsAmount_low (lib : Lib) (tx : Transaction) :
    NASA.citizenPortal.keepsAmount lib "0-1000" tx
      = (lib.parseFloat tx.amount.toStr).lt 1000 := by
  simp [NASA.citizenPortal.keepsAmount]

theorem keepsAmount_middle (lib : Lib) (tx : Transaction) :
    NASA.citizenPortal.keepsAmount lib "1000-10000" tx
      = ((lib.parseFloat tx.amount.toStr).ge 1000 && (lib.parseFloat tx.amount.toStr).lt 10000) := by
  unfold NASA.citizenPortal.keepsAmount
  rw [if_neg (by decide), if_pos rfl]

theorem keepsAmount_high (lib : Lib) (tx : Transaction) :
    NASA.citizenPortal.keepsAmount lib "10000+" tx
      = (lib.parseFloat tx.amount.toStr).ge 10000 := by
  unfold NASA.citizenPortal.keepsAmount
  rw [if_neg (by decide), if_neg (by decide), if_pos rfl]

theorem keepsAmount_other (lib : Lib) (amountFilter : String) (tx : Transaction)
    (h : amountFilter ∉ amountBands) :
    NASA.citizenPortal.keepsAmount lib amountFilter tx = true := by
  simp only [amountBands, List.mem_cons, List.mem_singleton, List.not_mem_nil, or_false,
    not_or] at h
  unfold NASA.citizenPortal.keepsAmount
  rw [if_neg h.1, if_neg h.2.1, if_neg h.2.2]

/-- A number that is not `NaN` lies in exactly one of the three bands. -/
theorem JSNumber.one_band (x : JSNumber) (h : x.isNaN = false) :
    ([x.lt 1000, x.ge 1000 && x.lt 10000, x.ge 10000].filter id).length = 1 := by
  cases x with
  | nan => simp [JSNumber.isNaN] at h
  | negInf => simp [JSNumber.lt, JSNumber.ge]
  | posInf => simp [JSNumber.lt, JSNumber.ge]
  | fin q =>
    by_cases h1 : q < 1000
    · have h2 : q < 10000 := by linarith
      have h3 : ¬ (1000 ≤ q) := by linarith
      have h4 : ¬ (10000 ≤ q) := by linarith
      simp [JSNumber.lt, JSNumber.ge, h1, h2, h3, h4]
    · by_cases h2 : q < 10000
      · have h3 : 1000 ≤ q := by linarith
        have h4 : ¬ (10000 ≤ q) := by linarith
        simp [JSNumber.lt, JSNumber.ge, h1, h2, h3, h4]
      · have h3 : 1000 ≤ q := by linarith
        have h4 : 10000 ≤ q := by linarith
        simp [JSNumber.lt, JSNumber.ge, h1, h2, h3, h4]

theorem includes_empty (s : String) : includes s "" = true := by
  unfold includes
  cases s.toList <;> simp [includesChars, startsWithChars]

theorem React_keepsAmount_eq (lib : Lib) :
    React.CitizenPortal.keepsAmount lib = NASA.citizenPortal.keepsAmount lib := rfl

theorem React_matchesSearch_eq (lib : Lib) :
    React.CitizenPortal.matchesSearch lib = NASA.citizenPortal.matchesSearch lib := rfl

theorem matchesSearch_empty (lib : Lib) (tx : Transaction) :
    NASA.citizenPortal.matchesSearch lib "" tx = true := by
  simp [NASA.citizenPortal.matchesSearch, includes_empty]

/-- The two pages filter alike, given that the empty string is its own lower case. -/
theorem React_filtered_eq (lib : Lib) (p : NASA.citizenPortal.Page)
    (s : React.CitizenPortal.State) (hlower : lib.toLowerCase "" = "")
    (hall : s.allTransactions = p.allTransactions)
    (hsearch : s.searchPurpose = p.searchPurpose) (hamount : s.amountFilter = p.filterAmount) :
    React.CitizenPortal.filtered lib s = NASA.citizenPortal.filtered lib p := by
  unfold React.CitizenPortal.filtered NASA.citizenPortal.filtered
  simp only [hall, hsearch, hamount, React_keepsAmount_eq, React_matchesSearch_eq]
  have hfirst : (if p.searchPurpose ≠ "" then
        p.allTransactions.filter
          (NASA.citizenPortal.matchesSearch lib (lib.toLowerCase p.searchPurpose))
      else p.allTransactions)
      = (if lib.toLowerCase p.searchPurpose ≠ "" then
          p.allTransactions.filter
            (NASA.citizenPortal.matchesSearch lib (lib.toLowerCase p.searchPurpose))
        else p.allTransactions) := by
    by_cases h1 : p.searchPurpose = ""
    · simp [h1, hlower]
    · by_cases h2 : lib.toLowerCase p.searchPurpose = ""
      · have hkeep : ∀ tx ∈ p.allTransactions,
            NASA.citizenPortal.matchesSearch lib "" tx = true :=
          fun tx _ => matchesSearch_empty lib tx
        simp [h1, h2, List.filter_eq_self.2 hkeep]
      · simp [h1, h2]
  rw [hfirst]

theorem filtered_sublist (lib : Lib) (p : NASA.citizenPortal.Page) :
    (NASA.citizenPortal.filtered lib p).Sublist p.allTransactions := by
  unfold NASA.citizenPortal.filtered
  simp only []
  split <;> split
  · exact (List.filter_sublist _).trans (List.filter_sublist _)
  · exact List.filter_sublist _
  · exact List.filter_sublist _
  · exact List.Sublist.refl _

/-- C27: the three amount bands of `filterTransactions` partition the transactions.  For every
transaction, the band `0-1000` keeps it when `parseFloat` of its amount is below 1000 (so also
when it is negative), the band `1000-10000` when it is at least 1000 and below 10000, the band
`10000+` when it is at least 10000; when that number is not `NaN` exactly one of the three
bands keeps the transaction, and when it is `NaN` none does.  With `all` or any value that is
not one of the three bands the amount filter drops nothing: the list is the one left by the
search, which is all of `allTransactions` when the search term is empty.  The filtered list is
always a sub-list of `allTransactions`, in its order.  The component of `CitizenPortal.tsx`
with the same transactions and controls stores the same list, given that lower-casing the
empty string gives the empty string. -/
theorem C27_amount_bands_partition (lib : Lib) (p : NASA.citizenPortal.Page)
    (s : React.CitizenPortal.State) (tx : Transaction) :
    (NASA.citizenPortal.keepsAmount lib "0-1000" tx = (lib.parseFloat tx.amount.toStr).lt 1000
      ∧ NASA.citizenPortal.keepsAmount lib "1000-10000" tx
          = ((lib.parseFloat tx.amount.toStr).ge 1000 && (lib.parseFloat tx.amount.toStr).lt 10000)
      ∧ NASA.citizenPortal.keepsAmount lib "10000+" tx
          = (lib.parseFloat tx.amount.toStr).ge 10000)
    ∧ (∀ q : ℚ, lib.parseFloat tx.amount.toStr = .fin q → q < 0 →
        NASA.citizenPortal.keepsAmount lib "0-1000" tx = true)
    ∧ ((lib.parseFloat tx.amount.toStr).isNaN = false →
        (amountBands.filter (fun band => NASA.citizenPortal.keepsAmount lib band tx)).length = 1)
    ∧ ((lib.parseFloat tx.amount.toStr).isNaN = true →
        ∀ band ∈ amountBands, NASA.citizenPortal.keepsAmount lib band tx = false)
    ∧ (p.filterAmount ∉ amountBands →
        NASA.citizenPortal.filtered lib p
          = NASA.citizenPortal.filtered lib { p with filterAmount := "all" })
    ∧ (p.filterAmount ∉ amountBands → lib.toLowerCase p.searchPurpose = "" →
        NASA.citizenPortal.filtered lib p = p.allTransactions)
    ∧ (NASA.citizenPortal.filtered lib p).Sublist p.allTransactions
    ∧ (NASA.citizenPortal.filterTransactions lib p).table
        = (NASA.citizenPortal.displayTransactions lib (NASA.citizenPortal.filtered lib p)
            p).table
    ∧ (lib.toLowerCase "" = "" → s.allTransactions = p.allTransactions →
        s.searchPurpose = p.searchPurpose → s.amountFilter = p.filterAmount →
        (React.CitizenPortal.filterTransactions lib s).displayedTransactions
          = NASA.citizenPortal.filtered lib p) := by
  have hkeep : p.filterAmount ∉ amountBands →
      NASA.citizenPortal.filtered lib p
        = NASA.citizenPortal.filtered lib { p with filterAmount := "all" } := by
    intro hband
    have hall : ∀ l : List Transaction,
        l.filter (NASA.citizenPortal.keepsAmount lib p.filterAmount) = l :=
      fun l => List.filter_eq_self.2 (fun tx _ => keepsAmount_other lib _ tx hband)
    unfold NASA.citizenPortal.filtered
    simp only [hall, ne_eq, not_true_eq_false, if_false, ite_self]
  refine ⟨⟨keepsAmount_low lib tx, keepsAmount_middle lib tx, keepsAmount_high lib tx⟩, ?_, ?_,
    ?_, hkeep, ?_, filtered_sublist lib p, rfl, ?_⟩
  · intro q hq hneg
    rw [keepsAmount_low, hq]
    have h : q < 1000 := by linarith
    simp [JSNumber.lt, h]
  · intro hnum
    have h := JSNumber.one_band (lib.parseFloat tx.amount.toStr) hnum
    simp only [amountBands, List.filter, keepsAmount_low, keepsAmount_middle, keepsAmount_high]
    simp only [List.filter, id] at h
    generalize (lib.parseFloat tx.amount.toStr).lt 1000 = b1 at h ⊢
    generalize ((lib.parseFloat tx.amount.toStr).ge 1000
      && (lib.parseFloat tx.amount.toStr).lt 10000) = b2 at h ⊢
    generalize (lib.parseFloat tx.amount.toStr).ge 10000 = b3 at h ⊢
    revert h
    cases b1 <;> cases b2 <;> cases b3 <;> simp
  · intro hnan band hband
    have hx : lib.parseFloat tx.amount.toStr = .nan := by
      cases hv : lib.parseFloat tx.amount.toStr <;> simp [hv, JSNumber.isNaN] at hnan
      rfl
    simp only [amountBands, List.mem_cons, List.mem_singleton, List.not_mem_nil, or_false]
      at hband
    rcases hband with h | h | h
    · rw [h, keepsAmount_low, hx]; rfl
    · rw [h, keepsAmount_middle, hx]; rfl
    · rw [h, keepsAmount_high, hx]; rfl
  · intro hband hsearch
    rw [hkeep hband]
    simp [NASA.citizenPortal.filtered, hsearch]
  · intro hlower hall hsearch hamount
    exact React_filtered_eq lib p s hlower hall hsearch hamount

theorem C27_amount_bands_partition_witness :
    (amountBands.filter
        (fun band => NASA.citizenPortal.keepsAmount sampleLib band januaryThird)).length = 1
    ∧ (∀ band ∈ amountBands,
        NASA.citizenPortal.keepsAmount sampleLib band januarySecond = false)
    ∧ (React.CitizenPortal.filterTransactions sampleLib
          { sampleState with amountFilter := "1000-10000" }).displayedTransactions
        = NASA.citizenPortal.filtered sampleLib filterPage
    ∧ NASA.citizenPortal.filtered sampleLib filterPage = [januaryThird] :=
  ⟨(C27_amount_bands_partition sampleLib filterPage sampleState januaryThird).2.2.1
      (by decide),
   (C27_amount_bands_partition sampleLib filterPage sampleState januarySecond).2.2.2.1
      (by decide),
   (C27_amount_bands_partition sampleLib filterPage
      { sampleState with amountFilter := "1000-10000" } januaryThird).2.2.2.2.2.2.2.2
      (by decide) rfl rfl rfl,
   by rfl⟩

/-! ## The token behind every target request -/

theorem heldToken_append (env : Env) (l1 l2 : List Request) :
    ∀ (k : Nat) (held : JSValue),
      heldToken env k held (l1 ++ l2)
        = heldToken env (k + l1.length) (heldToken env k held l1) l2 := by
  induction l1 with
  | nil => intro k held; simp [heldToken]
  | cons req l1 ih =>
    intro k held
    have hk : k + (l1.length + 1) = k + 1 + l1.length := by omega
    rw [List.cons_append, List.length_cons, hk]
    exact ih (k + 1) (heldAfter env k held req)

/-- A request that was rejected, or answered with a status outside 200-299, leaves the token
held as it was. -/
theorem heldAfter_of_failed (env : Env) (k : Nat) (held : JSValue) (req : Request)
    (h : (∃ e, env.net k = .rejects e) ∨ ∃ resp, env.net k = .responds resp ∧ resp.ok = false) :
    heldAfter env k held req = held := by
  unfold heldAfter
  rcases h with ⟨e, h⟩ | ⟨resp, h, hok⟩
  · simp [h]
  · simp [h, hok]

theorem not_ok_of_401 (response : Response) (h : response.status = 401) :
    response.ok = false := by
  simp [Response.ok, h]

/-- What `refreshToken` of `src/NASA/home.js` leaves behind, as far as the loop of
`fetchWithAuth` is concerned: either no request was sent and the result is not a token to go on
with, or the refresh request was sent as the next fetch, and the token held afterwards is the
one returned when a truthy one is returned, and the one held before when the function throws. -/
theorem NASA_refreshToken_held (env : Env) (w : World) (held : JSValue) :
    (requests (NASA.home.refreshToken env w).2.trace = requests w.trace
      ∧ (NASA.home.refreshToken env w).2.fetches = w.fetches
      ∧ (NASA.home.refreshToken env w).1 = .ok .null)
    ∨ ∃ r, requests (NASA.home.refreshToken env w).2.trace
          = requests w.trace ++ [NASA.home.refreshRequest env r]
        ∧ (NASA.home.refreshToken env w).2.fetches = w.fetches + 1
        ∧ (∀ t, (NASA.home.refreshToken env w).1 = .ok t → t.truthy = true →
            heldAfter env w.fetches held (NASA.home.refreshRequest env r) = t)
        ∧ (∀ e, (NASA.home.refreshToken env w).1 = .error e →
            heldAfter env w.fetches held (NASA.home.refreshRequest env r) = held) := by
  unfold NASA.home.refreshToken
  cases hr : getItem w.storage "refresh_token" with
  | none => left; simp [World.emit, requests_append, requests]
  | some r =>
    by_cases hne : r = ""
    · left; simp [hne, World.emit, requests_append, requests]
    · right
      refine ⟨r, ?_⟩
      simp only [hne, if_false, fetch]
      have hurl : (NASA.home.refreshRequest env r).url
          = NASA.home.API_BASE_URL env ++ "/refresh-token" := rfl
      cases hnet : env.net w.fetches with
      | rejects e =>
        simp [NASA.home.refreshTry, World.withStorage, World.emit, requests_append, requests,
          heldAfter, hnet]
      | responds resp =>
        cases hj : resp.json with
        | error e =>
          simp [NASA.home.refreshTry, hj, World.withStorage, World.emit, requests_append,
            requests, heldAfter, hnet]
        | ok data =>
          by_cases hok : resp.ok = true
          · cases data with
            | null =>
              simp [NASA.home.refreshTry, hj, hok, JSValue.getProp, World.withStorage,
                World.emit, requests_append, requests, heldAfter, hnet, hurl]
            | undefined =>
              simp [NASA.home.refreshTry, hj, hok, JSValue.getProp, World.withStorage,
                World.emit, requests_append, requests, heldAfter, hnet, hurl]
            | obj fields =>
              simp [NASA.home.refreshTry, hj, hok, JSValue.getProp, World.withStorage,
                World.emit, requests_append, requests, heldAfter, hnet, hurl]
              intro h1 h2
              rw [h1] at h2
              cases h2
            | bool b =>
              simp [NASA.home.refreshTry, hj, hok, JSValue.getProp, World.withStorage,
                World.emit, requests_append, requests, heldAfter, hnet, hurl]
              intro h1 h2
              rw [h1] at h2
              cases h2
            | num n =>
              simp [NASA.home.refreshTry, hj, hok, JSValue.getProp, World.withStorage,
                World.emit, requests_append, requests, heldAfter, hnet, hurl]
              intro h1 h2
              rw [h1] at h2
              cases h2
            | str s =>
              simp [NASA.home.refreshTry, hj, hok, JSValue.getProp, World.withStorage,
                World.emit, requests_append, requests, heldAfter, hnet, hurl]
              intro h1 h2
              rw [h1] at h2
              cases h2
            | arr items =>
              simp [NASA.home.refreshTry, hj, hok, JSValue.getProp, World.withStorage,
                World.emit, requests_append, requests, heldAfter, hnet, hurl]
              intro h1 h2
              rw [h1] at h2
              cases h2
          · have hok2 : resp.ok = false := by simpa using hok
            cases hd : data.getProp "detail" with
            | error e =>
              simp [NASA.home.refreshTry, hj, hok2, hd, World.withStorage, World.emit,
                requests_append, requests, heldAfter, hnet]
            | ok detail =>
              simp [NASA.home.refreshTry, hj, hok2, hd, World.withStorage, World.emit,
                requests_append, requests, heldAfter, hnet]

/-- One pass of the loop of `src/NASA/home.js`: the requests it sends, the fetch counter, and
the token held afterwards, which is the refreshed one when the pass ends with `continue` after
a 401 and the one held before when the pass throws. -/
theorem NASA_tryBlock_held (env : Env) (endpoint : String) (options : Options)
    (tok : JSValue) (w : World) :
    ∃ L1, requests (NASA.home.tryBlock env endpoint options tok w).2.trace
          = requests w.trace ++ L1
      ∧ (NASA.home.tryBlock env endpoint options tok w).2.fetches = w.fetches + L1.length
      ∧ (L1 = [NASA.home.targetRequest env endpoint options tok]
        ∨ ∃ r, L1 = [NASA.home.targetRequest env endpoint options tok,
            NASA.home.refreshRequest env r])
      ∧ (∀ t, (NASA.home.tryBlock env endpoint options tok w).1 = .ok (.again t) →
          heldToken env w.fetches tok L1 = t)
      ∧ (∀ e, (NASA.home.tryBlock env endpoint options tok w).1 = .error e →
          heldToken env w.fetches tok L1 = tok) := by
  unfold NASA.home.tryBlock
  simp only [fetch]
  cases hnet : env.net w.fetches with
  | rejects e =>
    refine ⟨[NASA.home.targetRequest env endpoint options tok], ?_, rfl, Or.inl rfl, ?_, ?_⟩
    · simp [requests_append, requests]
    · intro t h
      simp at h
    · intro e2 _
      simp only [heldToken]
      exact heldAfter_of_failed env _ tok _ (Or.inl ⟨e, hnet⟩)
  | responds response =>
    by_cases hs : response.status = 401
    · simp only [hs, if_true]
      have hfirst : heldAfter env w.fetches tok (NASA.home.targetRequest env endpoint options tok)
          = tok :=
        heldAfter_of_failed env _ tok _ (Or.inr ⟨response, hnet, not_ok_of_401 response hs⟩)
      have href := NASA_refreshToken_held env
        { storage := w.storage, fetches := w.fetches + 1
          trace := w.trace ++ [.fetch (NASA.home.targetRequest env endpoint options tok)] } tok
      have hbase : requests (w.trace ++ [Event.fetch (NASA.home.targetRequest env endpoint
          options tok)]) = requests w.trace ++ [NASA.home.targetRequest env endpoint options tok] := by
        simp [requests_append, requests]
      rcases hrt : NASA.home.refreshToken env
        { storage := w.storage, fetches := w.fetches + 1
          trace := w.trace ++ [.fetch (NASA.home.targetRequest env endpoint options tok)] }
        with ⟨res, w2⟩
      rw [hrt] at href
      simp only [hbase] at href
      rcases href with ⟨hreq, hf, hres⟩ | ⟨r, hreq, hf, hok, herr⟩
      · subst hres
        refine ⟨[NASA.home.targetRequest env endpoint options tok], ?_, ?_, Or.inl rfl, ?_, ?_⟩
        · simpa [JSValue.truthy] using hreq
        · simpa [JSValue.truthy] using hf
        · intro t h
          simp [JSValue.truthy] at h
        · intro e h
          simp [JSValue.truthy] at h
      · refine ⟨[NASA.home.targetRequest env endpoint options tok,
          NASA.home.refreshRequest env r], ?_, ?_, Or.inr ⟨r, rfl⟩, ?_, ?_⟩
        · cases res with
          | error e => simpa using hreq
          | ok t =>
            by_cases ht : t.truthy = true
            · simpa [ht] using hreq
            · simpa [ht] using hreq
        · cases res with
          | error e => simpa using hf
          | ok t =>
            by_cases ht : t.truthy = true
            · simpa [ht] using hf
            · simpa [ht] using hf
        · intro t h
          simp only [heldToken, hfirst]
          cases res with
          | error e => simp at h
          | ok t2 =>
            by_cases ht : t2.truthy = true
            · simp only [ht, Bool.not_true, Bool.false_eq_true, if_false] at h
              have ht2 : t2 = t := by
                simpa using h
              subst ht2
              exact hok t2 rfl ht
            · simp [ht] at h
        · intro e h
          simp only [heldToken, hfirst]
          cases res with
          | error e2 => exact herr e2 rfl
          | ok t2 =>
            by_cases ht : t2.truthy = true
            · simp [ht] at h
            · simp [ht] at h
    · refine ⟨[NASA.home.targetRequest env endpoint options tok], ?_, ?_, Or.inl rfl, ?_, ?_⟩
      · simp [hs, requests_append, requests]
      · simp [hs]
      · intro t h
        simp [hs] at h
      · intro e h
        simp [hs] at h

/-- The tokens held along a list of requests made of two parts. -/
theorem held_append (env : Env) (Q : Request → JSValue → Prop) (L1 L2 : List Request)
    (k : Nat) (tok : JSValue)
    (h1 : ∀ pre req post, L1 = pre ++ req :: post → Q req (heldToken env k tok pre))
    (h2 : ∀ pre req post, L2 = pre ++ req :: post →
      Q req (heldToken env (k + L1.length) (heldToken env k tok L1) pre)) :
    ∀ pre req post, L1 ++ L2 = pre ++ req :: post → Q req (heldToken env k tok pre) := by
  intro pre req post h
  rcases List.append_eq_append_iff.1 h with ⟨a, hpre, hL2⟩ | ⟨c, hL1, hc⟩
  · rw [hpre, heldToken_append]
    exact h2 a req post hL2
  · cases c with
    | nil =>
      simp only [List.append_nil, List.nil_append] at hL1 hc
      have := h2 [] req post hc.symm
      simpa [heldToken, hL1] using this
    | cons x c =>
      simp only [List.cons_append, List.cons.injEq] at hc
      obtain ⟨hx, _⟩ := hc
      subst hx
      exact h1 pre req c hL1

/-- The requests of one pass carry the token the pass started with. -/
theorem held_pass (env : Env) (endpoint : String) (options : Options) (k : Nat)
    (tok : JSValue) (L1 : List Request)
    (h : L1 = [NASA.home.targetRequest env endpoint options tok]
      ∨ ∃ r, L1 = [NASA.home.targetRequest env endpoint options tok,
          NASA.home.refreshRequest env r]) :
    ∀ pre req post, L1 = pre ++ req :: post →
      (∃ r, req = NASA.home.refreshRequest env r)
      ∨ req = NASA.home.targetRequest env endpoint options (heldToken env k tok pre) := by
  intro pre req post hsplit
  rcases h with h | ⟨r, h⟩
  · rw [h] at hsplit
    cases pre with
    | nil =>
      simp only [List.nil_append, List.cons.injEq] at hsplit
      right
      rw [← hsplit.1]
      rfl
    | cons p pre =>
      simp only [List.cons_append, List.cons.injEq] at hsplit
      have := hsplit.2
      simp at this
  · rw [h] at hsplit
    cases pre with
    | nil =>
      simp only [List.nil_append, List.cons.injEq] at hsplit
      right
      rw [← hsplit.1]
      rfl
    | cons p pre =>
      cases pre with
      | nil =>
        simp only [List.cons_append, List.nil_append, List.cons.injEq] at hsplit
        left
        exact ⟨r, hsplit.2.1.symm⟩
      | cons p2 pre =>
        simp only [List.cons_append, List.cons.injEq] at hsplit
        have := hsplit.2.2
        simp at this

/-- Every request the loop of `src/NASA/home.js` sends is a refresh request, or the target
request built from the token held at that point. -/
theorem NASA_fetchLoop_held (env : Env) (endpoint : String) (options : Options) :
    ∀ (fuel : Nat) (tok : JSValue) (retryCount : Nat) (w : World),
      ∃ L, requests (NASA.home.fetchLoop env endpoint options fuel tok retryCount w).2.trace
          = requests w.trace ++ L
        ∧ ∀ pre req post, L = pre ++ req :: post →
            (∃ r, req = NASA.home.refreshRequest env r)
            ∨ req = NASA.home.targetRequest env endpoint options
                (heldToken env w.fetches tok pre) := by
  intro fuel
  induction fuel with
  | zero =>
    intro tok rc w
    refine ⟨[], by simp [NASA.home.fetchLoop], ?_⟩
    intro pre req post h
    simp at h
  | succ k ih =>
    intro tok rc w
    rw [NASA.home.fetchLoop]
    by_cases hrc : rc < NASA.home.maxRetries
    · simp only [hrc, if_true]
      obtain ⟨L1, hL1, hf1, hshape, hagain, herr⟩ :=
        NASA_tryBlock_held env endpoint options tok w
      have hgood1 := held_pass env endpoint options w.fetches tok L1 hshape
      rcases htb : NASA.home.tryBlock env endpoint options tok w with ⟨res, w1⟩
      rw [htb] at hL1 hf1 hagain herr
      have extend : ∀ (t : JSValue) (w2 : World)
          (res2 : Option (Except JSError Returned) × World),
          heldToken env w.fetches tok L1 = t →
          requests w2.trace = requests w1.trace → w2.fetches = w1.fetches →
          (∃ L, requests res2.2.trace = requests w2.trace ++ L
            ∧ ∀ pre req post, L = pre ++ req :: post →
              (∃ r, req = NASA.home.refreshRequest env r)
              ∨ req = NASA.home.targetRequest env endpoint options
                  (heldToken env w2.fetches t pre)) →
          ∃ L, requests res2.2.trace = requests w.trace ++ L
            ∧ ∀ pre req post, L = pre ++ req :: post →
              (∃ r, req = NASA.home.refreshRequest env r)
              ∨ req = NASA.home.targetRequest env endpoint options
                  (heldToken env w.fetches tok pre) := by
        intro t w2 res2 ht hw2 hf2 ⟨L2, hL2, hgood2⟩
        refine ⟨L1 ++ L2, ?_, ?_⟩
        · rw [hL2, hw2, hL1, List.append_assoc]
        · refine held_append env
            (fun req held => (∃ r, req = NASA.home.refreshRequest env r)
              ∨ req = NASA.home.targetRequest env endpoint options held)
            L1 L2 w.fetches tok hgood1 ?_
          intro pre req post hsplit
          have hfetches : w2.fetches = w.fetches + L1.length := by rw [hf2, hf1]
          rw [ht, ← hfetches]
          exact hgood2 pre req post hsplit
      cases res with
      | ok tr =>
        cases tr with
        | done v => exact ⟨L1, hL1, hgood1⟩
        | again t => exact extend t w1 _ (hagain t rfl) rfl rfl (ih t rc w1)
      | error e =>
        by_cases hc : isNetworkError e = true
        · by_cases hlast : rc + 1 = NASA.home.maxRetries
          · simp only [hc, hlast, if_true]
            exact ⟨L1, hL1, hgood1⟩
          · simp only [hc, hlast, if_true, if_false]
            exact extend tok (w1.emit (.wait 1000)) _ (herr e rfl)
              (by simp [World.emit, requests_append, requests]) (by simp [World.emit])
              (ih tok (rc + 1) (w1.emit (.wait 1000)))
        · simp only [hc, if_false]
          exact ⟨L1, hL1, hgood1⟩
    · simp only [hrc, if_false]
      refine ⟨[], by simp, ?_⟩
      intro pre req post h
      simp at h

/-- Every request `fetchWithAuth` of `src/NASA/home.js` sends after its `checkAuth` is a
refresh request, or the target request built from the token held at that point, starting from
the token `checkAuth` returned. -/
theorem NASA_fetchWithAuth_held (env : Env) (fuel : Nat) (endpoint : String)
    (options : Options) (w : World) :
    ∃ L, requests (NASA.home.fetchWithAuth env fuel endpoint options w).2.trace
        = requests (NASA.home.checkAuth env w).2.trace ++ L
      ∧ ∀ pre req post, L = pre ++ req :: post →
          (∃ r, req = NASA.home.refreshRequest env r)
          ∨ req = NASA.home.targetRequest env endpoint options
              (heldToken env (NASA.home.checkAuth env w).2.fetches
                (NASA.home.checkAuth env w).1 pre) := by
  unfold NASA.home.fetchWithAuth
  rcases hc : NASA.home.checkAuth env w with ⟨tok, w0⟩
  by_cases htok : tok.truthy = true
  · simp only [htok, Bool.not_true, Bool.false_eq_true, if_false]
    exact NASA_fetchLoop_held env endpoint options fuel tok 0 w0
  · simp only [htok, Bool.not_false, if_true]
    refine ⟨[], by simp, ?_⟩
    intro pre req post h
    simp at h

/-! ## The headers and the token of every target request -/

/-- C11 (amended): in `fetchWithAuth` of both pages every request to the target endpoint is
built from the token the call holds at that point (the one from `checkAuth`, or the one the
refresh after a 401 returned), and its headers are the defaults `Authorization: Bearer <token>`,
`Content-Type: application/json`, `Accept: application/json` overridden by every
caller-supplied header of the same name, `Authorization` included: under each name the request
carries the caller's entry when there is one and the default otherwise.  For
`src/NASA/home.js` the token held is followed along the run: each request the loop sends, and
so each request of a call after its `checkAuth`, is a refresh request or the target request
built from `heldToken` of the requests sent before it, which starts from the token the loop was
entered with and changes exactly when a refresh request is answered with a new token. -/
theorem C11_target_request_headers (env : Env) (endpoint : String) (options : Options) :
    (∀ tok k, (NASA.home.targetRequest env endpoint options tok).headers.lookup k
        = match (options.headers.getD []).lookup k with
          | some v => some v
          | none => (defaultHeaders tok).lookup k)
    ∧ (∀ tok k, (Web3.home.targetRequest endpoint options tok).headers.lookup k
        = match (options.headers.getD []).lookup k with
          | some v => some v
          | none => (defaultHeaders tok).lookup k)
    ∧ (∀ tok w,
        requests (NASA.home.tryBlock env endpoint options tok w).2.trace
            = requests w.trace ++ [NASA.home.targetRequest env endpoint options tok]
        ∨ ∃ r, requests (NASA.home.tryBlock env endpoint options tok w).2.trace
            = requests w.trace ++ [NASA.home.targetRequest env endpoint options tok,
                NASA.home.refreshRequest env r])
    ∧ (∀ tok t w, (NASA.home.tryBlock env endpoint options tok w).1 = .ok (.again t) →
        (NASA.home.refreshToken env
          (fetch env (NASA.home.targetRequest env endpoint options tok) w).2).1 = .ok t)
    ∧ (∀ fuel tok retryCount w,
        ∃ L, requests (NASA.home.fetchLoop env endpoint options fuel tok retryCount w).2.trace
            = requests w.trace ++ L
          ∧ ∀ pre req post, L = pre ++ req :: post →
              (∃ r, req = NASA.home.refreshRequest env r)
              ∨ req = NASA.home.targetRequest env endpoint options
                  (heldToken env w.fetches tok pre))
    ∧ (∀ fuel w,
        ∃ L, requests (NASA.home.fetchWithAuth env fuel endpoint options w).2.trace
            = requests (NASA.home.checkAuth env w).2.trace ++ L
          ∧ ∀ pre req post, L = pre ++ req :: post →
              (∃ r, req = NASA.home.refreshRequest env r)
              ∨ req = NASA.home.targetRequest env endpoint options
                  (heldToken env (NASA.home.checkAuth env w).2.fetches
                    (NASA.home.checkAuth env w).1 pre))
    ∧ (∀ w,
        requests (Web3.home.fetchWithAuth env endpoint options w).2.trace
            = requests (Web3.home.checkAuth env w).2.trace
        ∨ requests (Web3.home.fetchWithAuth env endpoint options w).2.trace
            = requests (Web3.home.checkAuth env w).2.trace
              ++ [Web3.home.targetRequest endpoint options (Web3.home.checkAuth env w).1]
        ∨ (∃ r, requests (Web3.home.fetchWithAuth env endpoint options w).2.trace
            = requests (Web3.home.checkAuth env w).2.trace
              ++ [Web3.home.targetRequest endpoint options (Web3.home.checkAuth env w).1,
                  Web3.home.refreshRequest r])
        ∨ ∃ r t, (Web3.home.refreshToken env
              (fetch env
                (Web3.home.targetRequest endpoint options (Web3.home.checkAuth env w).1)
                (Web3.home.checkAuth env w).2).2).1 = .ok t
            ∧ requests (Web3.home.fetchWithAuth env endpoint options w).2.trace
              = requests (Web3.home.checkAuth env w).2.trace
                ++ [Web3.home.targetRequest endpoint options (Web3.home.checkAuth env w).1,
                    Web3.home.refreshRequest r, Web3.home.targetRequest endpoint options t]) :=
  ⟨fun tok k => lookup_spread (defaultHeaders tok) (options.headers.getD []) k,
    fun tok k => lookup_spread (defaultHeaders tok) (options.headers.getD []) k,
    fun tok w => NASA_tryBlock_requests env endpoint options tok w,
    fun tok t w h => (NASA_tryBlock_again env endpoint options tok t w h).2,
    NASA_fetchLoop_held env endpoint options,
    fun fuel w => NASA_fetchWithAuth_held env fuel endpoint options w,
    fun w => Web3_fetchWithAuth_requests env endpoint options w⟩

theorem C11_target_request_headers_witness :
    (NASA.home.targetRequest (sampleEnv okNet) "/balance" noOptions
        (.str futureToken)).headers.lookup "Authorization" = some ("Bearer " ++ futureToken)
    ∧ (Web3.home.targetRequest "/balance" ownAuthOptions
        (.str futureToken)).headers.lookup "Accept" = some "application/json"
    ∧ (NASA.home.refreshToken (sampleEnv twice401Net)
        (fetch (sampleEnv twice401Net)
          (NASA.home.targetRequest (sampleEnv twice401Net) "/balance" noOptions
            (.str futureToken)) (sampleWorld futureToken)).2).1 = .ok (.str "access-1")
    ∧ (∃ L, requests (NASA.home.fetchWithAuth (sampleEnv once401Net) 3 "/balance" noOptions
            (sampleWorld futureToken)).2.trace
          = requests (NASA.home.checkAuth (sampleEnv once401Net)
              (sampleWorld futureToken)).2.trace ++ L
        ∧ ∀ pre req post, L = pre ++ req :: post →
            (∃ r, req = NASA.home.refreshRequest (sampleEnv once401Net) r)
            ∨ req = NASA.home.targetRequest (sampleEnv once401Net) "/balance" noOptions
                (heldToken (sampleEnv once401Net)
                  (NASA.home.checkAuth (sampleEnv once401Net)
                    (sampleWorld futureToken)).2.fetches
                  (NASA.home.checkAuth (sampleEnv once401Net) (sampleWorld futureToken)).1
                  pre))
    ∧ requests (NASA.home.fetchWithAuth (sampleEnv once401Net) 3 "/balance" noOptions
          (sampleWorld futureToken)).2.trace
        = [NASA.home.targetRequest (sampleEnv once401Net) "/balance" noOptions
            (.str futureToken),
           NASA.home.refreshRequest (sampleEnv once401Net) "r0",
           NASA.home.targetRequest (sampleEnv once401Net) "/balance" noOptions
            (.str "access-1")]
    ∧ heldToken (sampleEnv once401Net) 0 (.str futureToken)
        [NASA.home.targetRequest (sampleEnv once401Net) "/balance" noOptions
            (.str futureToken),
         NASA.home.refreshRequest (sampleEnv once401Net) "r0"] = .str "access-1" :=
  ⟨(C11_target_request_headers (sampleEnv okNet) "/balance" noOptions).1
      (.str futureToken) "Authorization",
   (C11_target_request_headers (sampleEnv okNet) "/balance" ownAuthOptions).2.1
      (.str futureToken) "Accept",
   (C11_target_request_headers (sampleEnv twice401Net) "/balance" noOptions).2.2.2.1
      (.str futureToken) (.str "access-1") (sampleWorld futureToken) (by rfl),
   (C11_target_request_headers (sampleEnv once401Net) "/balance" noOptions).2.2.2.2.2.1
      3 (sampleWorld futureToken),
   by rfl, by rfl⟩

end Nasa
